import Mathlib

/-!
# nrf24le1-receiver: bind handshake, hop scheduler, failsafe and pulse generator

A shallow embedding of `nrf24le1-receiver/firmware/rc_receiver.c`.

* Every global and every function-local `static` of the translation unit is a
  field of `State`, under the name it has in the source.
* `uint8_t` / `uint16_t` values are natural numbers; the places where the C
  arithmetic can wrap carry an explicit `% 256` or `% 65536`.
* The byte arrays `payload`, `model_address`, `hop_data` and
  `bind_storage_area` are lists of bytes.
* `channels[]` and `failsafe[]` are maps from an index to a 16-bit cell.  The
  source addresses them with the constant indices 0..3 and with loops bounded
  by `NUMBER_OF_CHANNELS`, and declares them with `NUMBER_OF_CHANNELS`
  elements, which `platform.h` sets to 3.  The cells 0..2 are the elements of
  the arrays; cell 3 is the storage behind the array that the source addresses
  with index 3.  What else the linker places there is not determined by the
  source, so cell 3 is a cell of its own and `process_receiving` and
  `output_pulses` are the functions of a build whose arrays have at least four
  elements.  `process_receiving_checked` and `output_pulses_checked` are the
  same functions for arrays of `n` elements: they return `none` at the first
  access outside the array, and with `n = NUMBER_OF_CHANNELS` they tell on
  which calls the program as declared leaves its arrays.
* A port pin is one bit: an `int` assigned to it is stored as `port_bit`.
  On the XR3100 and the HKR3000 `GPIO_PPM` and `GPIO_CH4` are the same port
  bit, so an assignment to either is an assignment to both fields.
* The collaborators that are not part of this file (radio driver, persistent
  storage, UART) are represented by the state they expose: the receive queue,
  the programmed channel and address, the chip-enable line, the pending
  interrupt, the non-volatile record and the sequence of saved records.
* The diagnostic strings sent under `#ifndef NO_DEBUG` and the `raw_data`
  block under `#ifdef EXTENDED_PREPROCESSOR_OUTPUT` write to nothing the
  receiver reads back; they are left out.
* A loop that assigns the elements of one array is a fold over that array.
* `stm32f1-nrf24l01-transmitter/firmware/systick.c` is embedded separately at
  the end of the definitions (`Systick`): the 32-bit counter `milliseconds`,
  the array `callbacks` and the calls made by `sys_tick_handler`.
-/

namespace RcReceiver

/-! ## Constants of `rc_receiver.c` and `platform.h` -/

def PROTOCOL_3CH : Nat := 0xaa
def PROTOCOL_4CH : Nat := 0xab
def STICKDATA_PACKETID_3CH : Nat := 0x55
def FAILSAFE_PACKETID_3CH : Nat := 0xaa
def STICKDATA_PACKETID_4CH : Nat := 0x56
def FAILSAFE_PACKETID_4CH : Nat := 0xab

def PAYLOAD_SIZE : Nat := 10
def ADDRESS_WIDTH : Nat := 5
def NUMBER_OF_HOP_CHANNELS : Nat := 20
def MAX_HOP_WITHOUT_PACKET : Nat := 15
def FIRST_HOP_TIME_IN_US : Nat := 2500
def HOP_TIME_IN_US : Nat := 5000

/-- The `__SYSTICK_IN_MS` of `platform.h`. -/
def SYSTICK_IN_MS : Nat := 16
/-- The `NUMBER_OF_CHANNELS` of `platform.h`. -/
def NUMBER_OF_CHANNELS : Nat := 3
/-- The `SERVO_PULSE_CENTER` of `platform.h`: the token sequence `1500 * 4 / 3`. -/
def SERVO_PULSE_CENTER : Nat := 1500 * 4 / 3

def FAILSAFE_TIMEOUT : Nat := 640 / SYSTICK_IN_MS
def BIND_TIMEOUT : Nat := 5000 / SYSTICK_IN_MS
def BLINK_TIME_FAILSAFE : Nat := 320 / SYSTICK_IN_MS
def BLINK_TIME_BINDING : Nat := 50 / SYSTICK_IN_MS

def LED_STATE_IDLE : Nat := 0
def LED_STATE_RECEIVING : Nat := 1
def LED_STATE_FAILSAFE : Nat := 2
def LED_STATE_BINDING : Nat := 3

/-- `BUTTON_PRESSED` is 0, stored in a `bool`. -/
def BUTTON_PRESSED : Bool := false
/-- `BUTTON_RELEASED` is 1, stored in a `bool`. -/
def BUTTON_RELEASED : Bool := true

def LED_ON : Nat := 1
/-- `LED_OFF` is `(~LED_ON)`, the complement of 1 in a 16-bit `int`. -/
def LED_OFF : Nat := 0xfffe

/-- The level a one-bit port pin holds after an `int` has been assigned to
it: 0 for the value 0, 1 for every other value. -/
def port_bit (v : Nat) : Nat := if v = 0 then 0 else 1

def BIND_CHANNEL : Nat := 0x51
def BIND_ADDRESS : List Nat := [0x12, 0x23, 0x23, 0x45, 0x78]

/-- The board variants `platform.h` and `rc_receiver.c` switch on. -/
inductive Hardware where
  | NRF24LE1_MODULE
  | XR3100
  | HKR3000
deriving DecidableEq, Repr

/-- Build-time parameters that come from the build system, not from the
sources: the board variant `HARDWARE` and `__SYSTEM_CLOCK` in Hz. -/
structure Build where
  HARDWARE : Hardware
  SYSTEM_CLOCK : Nat

/-- `platform.h` defines `GPIO_LED_GREEN` for the XR3100 and the HKR3000 only. -/
def Build.has_GPIO_LED_GREEN (cfg : Build) : Bool :=
  match cfg.HARDWARE with
  | Hardware.XR3100 => true
  | Hardware.HKR3000 => true
  | Hardware.NRF24LE1_MODULE => false

/-- `TIMER_VALUE_US(x)`: `0xffff - ((uint32_t)(__SYSTEM_CLOCK / 1000) / 12 * x / 1000)`,
evaluated in 32 bits and stored in a 16-bit timer register. -/
def TIMER_VALUE_US (cfg : Build) (x : Nat) : Nat :=
  ((0xffff + 2 ^ 32 - ((cfg.SYSTEM_CLOCK / 1000) % 2 ^ 32 / 12 * x) % 2 ^ 32 / 1000) % 2 ^ 32) % 65536

/-! ## State -/

/-- All globals and function-local statics of `rc_receiver.c`, the special
function registers and port pins it touches, and the observable state of its
collaborators. -/
structure State where
  channels : Nat → Nat
  successful_stick_data : Bool
  use_buffer_0 : Bool
  pulse_buffer_0_0 : Nat
  pulse_buffer_0_1 : Nat
  pulse_buffer_0_2 : Nat
  pulse_buffer_0_3 : Nat
  pulse_buffer_1_0 : Nat
  pulse_buffer_1_1 : Nat
  pulse_buffer_1_2 : Nat
  pulse_buffer_1_3 : Nat
  rf_int_fired : Bool
  led_state : Nat
  blink_timer : Nat
  payload : List Nat
  failsafe_enabled : Bool
  failsafe : Nat → Nat
  failsafe_timer : Nat
  model_address : List Nat
  perform_hop_requested : Bool
  hops_without_packet : Nat
  hop_index : Nat
  hop_data : List Nat
  binding_requested : Bool
  binding : Bool
  bind_timer : Nat
  bind_storage_area : List Nat
  stickdata_packetid : Nat
  failsafe_packetid : Nat
  /-- The `static` of `process_binding`. -/
  bind_state : Nat
  /-- The `static` of `process_binding`. -/
  checksum : Nat
  /-- The `static` of `process_bind_button`. -/
  old_button_state : Bool
  /-- The `static` of `process_led`. -/
  old_led_state : Nat
  /-- The `static` of `process_led`. -/
  blinking : Bool
  /-- The `static` of `process_led`. -/
  blink_timer_reload_value : Nat
  /-- The `static` of `servo_pulse_timer_handler`. -/
  servo_pulse_state : Nat
  /-- The tick flag `systick`, declared outside this file and written by the tick source. -/
  systick : Bool
  GPIO_BIND : Bool
  GPIO_LED : Nat
  GPIO_LED_GREEN : Nat
  GPIO_CH1 : Bool
  GPIO_CH2 : Bool
  GPIO_CH3 : Bool
  GPIO_CH4 : Bool
  GPIO_PPM : Bool
  T2CON : Nat
  TIMER2 : Nat
  IRCON_tf2 : Bool
  TCON_tr1 : Bool
  TIMER1 : Nat
  /-- Radio: chip-enable line. -/
  rf_ce : Bool
  /-- Radio: receive address programmed for data pipe 0. -/
  rf_rx_address : List Nat
  /-- Radio: programmed channel. -/
  rf_channel : Nat
  /-- Radio: receive queue, oldest frame first. -/
  rf_rx_fifo : List (List Nat)
  /-- Radio: pending `RX_RD` interrupt. -/
  rf_irq_rx_rd : Bool
  /-- Radio: the static set-up of `init_receiver` has been programmed. -/
  rf_configured : Bool
  uart0_enabled : Bool
  /-- Non-volatile memory: the stored bind record. -/
  persistent_storage : List Nat
  /-- Every record handed to `save_persistent_storage`, oldest first. -/
  saved_records : List (List Nat)

/-- Run `body 0`, `body 1`, ..., `body (n-1)` in this order: `for (i = 0; i < n; i++)`. -/
def forLoop {α : Type} : Nat → (Nat → α → α) → α → α
  | 0, _, a => a
  | n + 1, body, a => body n (forLoop n body a)

/-- Assignment `a[i] = v` to a cell of a 16-bit array. -/
def write16 (a : Nat → Nat) (i v : Nat) : Nat → Nat :=
  fun j => if j = i then v else a j

/-- Read `a[i]` of a byte array. -/
def rd (a : List Nat) (i : Nat) : Nat := a.getD i 0

/-! ## Collaborators -/

def rf_clear_ce (s : State) : State := { s with rf_ce := false }
def rf_set_ce (s : State) : State := { s with rf_ce := true }
def rf_set_channel (ch : Nat) (s : State) : State := { s with rf_channel := ch }
def rf_set_rx_address (addr : List Nat) (s : State) : State := { s with rf_rx_address := addr }
def rf_flush_rx_fifo (s : State) : State := { s with rf_rx_fifo := [] }
def rf_clear_irq (s : State) : State := { s with rf_irq_rx_rd := false }

/-- The frame `rf_read_fifo(payload, PAYLOAD_SIZE)` copies: `PAYLOAD_SIZE` bytes. -/
def rf_read_fifo (frame : List Nat) : List Nat :=
  (List.range PAYLOAD_SIZE).map (fun i => rd frame i)

/-- The loop `while (!rf_is_rx_fifo_emtpy()) rf_read_fifo(payload, PAYLOAD_SIZE);`
over a queue: every frame is read into `payload`, the last one read stays. -/
def drain_fifo : List (List Nat) → List Nat → List Nat
  | [], p => p
  | f :: rest, _ => drain_fifo rest (rf_read_fifo f)

def rf_drain (s : State) : State :=
  { s with payload := drain_fifo s.rf_rx_fifo s.payload, rf_rx_fifo := [] }

def load_persistent_storage (s : State) : State :=
  { s with bind_storage_area := s.persistent_storage }

def save_persistent_storage (s : State) : State :=
  { s with persistent_storage := s.bind_storage_area,
           saved_records := s.saved_records ++ [s.bind_storage_area] }

def init_uart0 (s : State) : State := { s with uart0_enabled := true }
def disable_uart0 (s : State) : State := { s with uart0_enabled := false }

/-- The radio receives a frame: it is queued and `RX_RD` becomes pending. -/
def rf_receive (frame : List Nat) (s : State) : State :=
  { s with rf_rx_fifo := s.rf_rx_fifo ++ [frame], rf_irq_rx_rd := true }

/-! ## `rc_receiver.c` -/

/-- `PROTOCOLID_INDEX` is `(sizeof(bind_storage_area)-1)`. -/
def PROTOCOLID_INDEX (s : State) : Nat := s.bind_storage_area.length - 1

/-- The loop assigns only `failsafe[i]`; it is folded over that array. -/
def initialize_failsafe (s : State) : State :=
  let s := { s with failsafe_enabled := false }
  let s := { s with failsafe_timer := FAILSAFE_TIMEOUT }
  { s with failsafe :=
      forLoop NUMBER_OF_CHANNELS (fun i f => write16 f i SERVO_PULSE_CENTER) s.failsafe }

def output_pulses (s : State) : State :=
  if s.use_buffer_0 then
    { s with pulse_buffer_1_0 := s.channels 0,
             pulse_buffer_1_1 := s.channels 1,
             pulse_buffer_1_2 := s.channels 2,
             pulse_buffer_1_3 := s.channels 3,
             use_buffer_0 := false }
  else
    { s with pulse_buffer_0_0 := s.channels 0,
             pulse_buffer_0_1 := s.channels 1,
             pulse_buffer_0_2 := s.channels 2,
             pulse_buffer_0_3 := s.channels 3,
             use_buffer_0 := true }

def stickdata2ms (stickdata : Nat) : Nat := stickdata

/-- `(stickdata - 0xf200) * 10 / 14` on a `uint16_t` operand promoted to a
16-bit unsigned `int`, returned as `uint16_t`. -/
def stickdata2txdata (stickdata : Nat) : Nat :=
  ((stickdata + 65536 - 0xf200) % 65536 * 10 % 65536) / 14

def stop_hop_timer (s : State) : State :=
  { s with T2CON := 0, perform_hop_requested := false }

def restart_hop_timer (cfg : Build) (s : State) : State :=
  { s with T2CON := 0x01,
           TIMER2 := TIMER_VALUE_US cfg FIRST_HOP_TIME_IN_US,
           hops_without_packet := 0,
           perform_hop_requested := false }

def restart_packet_receiving (s : State) : State :=
  let s := stop_hop_timer s
  let s := rf_clear_ce s
  let s := { s with hop_index := 0 }
  let s := { s with hops_without_packet := 0 }
  let s := { s with perform_hop_requested := false }
  let s := rf_set_rx_address s.model_address s
  let s := rf_set_channel (rd s.hop_data 0) s
  let s := rf_flush_rx_fifo s
  let s := rf_clear_irq s
  let s := { s with rf_int_fired := false }
  rf_set_ce s

/-- The two copy loops assign every element of `model_address` and of
`hop_data`, so each array is given by its new contents. -/
def parse_bind_data (s : State) : State :=
  let s := { s with model_address :=
    (List.range ADDRESS_WIDTH).map (fun i => rd s.bind_storage_area i) }
  let s := { s with hop_data :=
    (List.range NUMBER_OF_HOP_CHANNELS).map (fun i => rd s.bind_storage_area (ADDRESS_WIDTH + i)) }
  if rd s.bind_storage_area (PROTOCOLID_INDEX s) ≠ PROTOCOL_4CH then
    let s := init_uart0 s
    { s with stickdata_packetid := STICKDATA_PACKETID_3CH,
             failsafe_packetid := FAILSAFE_PACKETID_3CH }
  else
    let s := disable_uart0 s
    { s with stickdata_packetid := STICKDATA_PACKETID_4CH,
             failsafe_packetid := FAILSAFE_PACKETID_4CH }

def binding_done (s : State) : State :=
  let s := { s with led_state := LED_STATE_IDLE }
  let s := { s with failsafe_timer := FAILSAFE_TIMEOUT }
  let s := { s with binding := false }
  let s := { s with binding_requested := false }
  restart_packet_receiving s

/-- The loop `for (i = 0; i < n; i++) bind_storage_area[off + i] = payload[3 + i];`,
folded over the array it assigns. -/
def copy_hop_block (off n : Nat) (s : State) : State :=
  { s with bind_storage_area :=
      forLoop n (fun i a => a.set (off + i) (rd s.payload (3 + i))) s.bind_storage_area }

/-- The `switch (bind_state)` of `process_binding`.  The loop of stage 0
assigns `bind_storage_area[i]` and adds to `checksum`; it is folded over
these two variables. -/
def bind_switch (s : State) : State :=
  if s.bind_state = 0 then
    if rd s.payload 0 = 0xff then
      if (rd s.payload 1 = 0xaa ∧ rd s.payload 2 = 0x55) ∨
         (rd s.payload 1 = 0xab ∧ rd s.payload 2 = 0x56) then
        let s := { s with bind_storage_area :=
          s.bind_storage_area.set (PROTOCOLID_INDEX s) (rd s.payload 1) }
        let s := { s with checksum := 0 }
        let s := { s with
          bind_storage_area :=
            forLoop 5 (fun i a => a.set i (rd s.payload (3 + i))) s.bind_storage_area,
          checksum := forLoop 5 (fun i c => (c + rd s.payload (3 + i)) % 65536) s.checksum }
        { s with bind_state := 1 }
      else s
    else s
  else if s.bind_state = 1 then
    if rd s.payload 0 = s.checksum % 256 then
      if rd s.payload 1 = s.checksum / 256 then
        if rd s.payload 2 = 0 then
          let s := copy_hop_block 5 7 s
          { s with bind_state := 2 }
        else s
      else s
    else s
  else if s.bind_state = 2 then
    if rd s.payload 0 = s.checksum % 256 then
      if rd s.payload 1 = s.checksum / 256 then
        if rd s.payload 2 = 1 then
          let s := copy_hop_block 12 7 s
          { s with bind_state := 3 }
        else s
      else s
    else s
  else if s.bind_state = 3 then
    if rd s.payload 0 = s.checksum % 256 then
      if rd s.payload 1 = s.checksum / 256 then
        if rd s.payload 2 = 2 then
          let s := copy_hop_block 19 6 s
          let s := save_persistent_storage s
          let s := parse_bind_data s
          binding_done s
        else s
      else s
    else s
  else
    { s with bind_state := 0 }

def process_binding (s : State) : State :=
  if s.binding = false then
    if s.binding_requested = false then s
    else
      let s := { s with led_state := LED_STATE_BINDING }
      let s := { s with binding := true }
      let s := { s with bind_state := 0 }
      let s := { s with bind_timer := BIND_TIMEOUT }
      let s := rf_clear_ce s
      let s := rf_set_rx_address BIND_ADDRESS s
      let s := rf_set_channel BIND_CHANNEL s
      rf_set_ce s
  else if s.bind_timer = 0 then
    binding_done s
  else if s.rf_int_fired = false then s
  else
    let s := { s with rf_int_fired := false }
    let s := rf_drain s
    let s := rf_clear_irq s
    bind_switch s

/-- Section 2 of `process_receiving`: the failsafe fallback.  The loop assigns
only `channels[i]`; it is folded over that array. -/
def apply_failsafe (s : State) : State :=
  if s.successful_stick_data then
    if s.failsafe_timer = 0 then
      let s := { s with
        channels := forLoop NUMBER_OF_CHANNELS (fun i c => write16 c i (s.failsafe i)) s.channels }
      let s := output_pulses s
      { s with led_state := LED_STATE_FAILSAFE }
    else s
  else s

/-- Section 3 of `process_receiving`: the requested hop. -/
def perform_hop (s : State) : State :=
  if s.perform_hop_requested then
    let s := { s with perform_hop_requested := false }
    let s := { s with hops_without_packet := (s.hops_without_packet + 1) % 256 }
    if s.hops_without_packet > MAX_HOP_WITHOUT_PACKET then
      restart_packet_receiving s
    else
      let s := rf_clear_ce s
      let s := { s with hop_index := (s.hop_index + 1) % NUMBER_OF_HOP_CHANNELS }
      let s := rf_set_channel (rd s.hop_data s.hop_index) s
      rf_set_ce s
  else s

/-- The 16-bit value `(payload[hi] << 8) + payload[lo]`. -/
def rd16 (p : List Nat) (hi lo : Nat) : Nat := (rd p hi * 256 + rd p lo) % 65536

/-- Sections 4 and 5 of `process_receiving`: the pending frame.  The stores
`channels[3] = ...` and `failsafe[3] = ...` go to cell 3, the storage behind
the arrays as declared; `receive_frame_checked` is the same function with
bounds. -/
def receive_frame (cfg : Build) (s : State) : State :=
  if s.rf_int_fired = false then s
  else
    let s := { s with rf_int_fired := false }
    let s := rf_drain s
    let s := rf_clear_irq s
    let s := restart_hop_timer cfg s
    if rd s.payload 7 = s.stickdata_packetid then
      let s := { s with channels := write16 s.channels 0 (rd16 s.payload 1 0) }
      let s := { s with channels := write16 s.channels 1 (rd16 s.payload 3 2) }
      let s := { s with channels := write16 s.channels 2 (rd16 s.payload 5 4) }
      let s := { s with channels := write16 s.channels 3 (rd16 s.payload 9 6) }
      let s := output_pulses s
      let s := { s with successful_stick_data := true }
      let s := { s with failsafe_timer := FAILSAFE_TIMEOUT }
      { s with led_state := LED_STATE_RECEIVING }
    else if rd s.payload 7 = s.failsafe_packetid then
      if rd s.payload 8 = 0x5a then
        let s := { s with failsafe_enabled := true }
        let s := { s with failsafe := write16 s.failsafe 0 (rd16 s.payload 1 0) }
        let s := { s with failsafe := write16 s.failsafe 1 (rd16 s.payload 3 2) }
        let s := { s with failsafe := write16 s.failsafe 2 (rd16 s.payload 5 4) }
        { s with failsafe := write16 s.failsafe 3 (rd16 s.payload 9 6) }
      else
        initialize_failsafe s
    else s

def process_receiving (cfg : Build) (s : State) : State :=
  if s.binding then s
  else
    let s := apply_failsafe s
    let s := perform_hop s
    receive_frame cfg s

def process_systick (s : State) : State :=
  if s.systick = false then s
  else
    let s := if s.failsafe_timer ≠ 0 then { s with failsafe_timer := s.failsafe_timer - 1 } else s
    let s := if s.bind_timer ≠ 0 then { s with bind_timer := s.bind_timer - 1 } else s
    if s.blink_timer ≠ 0 then { s with blink_timer := s.blink_timer - 1 } else s

def process_bind_button (s : State) : State :=
  if s.systick = false then s
  else
    let new_button_state := s.GPIO_BIND
    if new_button_state = s.old_button_state then s
    else
      let s := { s with old_button_state := new_button_state }
      if new_button_state = BUTTON_PRESSED then
        { s with binding_requested := true }
      else s

/-- The value of `!GPIO_LED`. -/
def led_not (v : Nat) : Nat := if v = 0 then 1 else 0

def process_led (cfg : Build) (s : State) : State :=
  let s :=
    if s.blinking then
      if s.blink_timer = 0 then
        let s := { s with blink_timer := s.blink_timer_reload_value }
        { s with GPIO_LED := led_not s.GPIO_LED }
      else s
    else s
  if s.led_state = s.old_led_state then s
  else
    let s := { s with old_led_state := s.led_state }
    if s.led_state = LED_STATE_RECEIVING then
      let s := if cfg.has_GPIO_LED_GREEN
               then { s with GPIO_LED_GREEN := port_bit LED_ON, GPIO_LED := port_bit LED_OFF }
               else { s with GPIO_LED := port_bit LED_ON }
      { s with blinking := false }
    else if s.led_state = LED_STATE_BINDING then
      let s := if cfg.has_GPIO_LED_GREEN
               then { s with GPIO_LED_GREEN := port_bit LED_OFF, GPIO_LED := port_bit LED_ON }
               else { s with GPIO_LED := port_bit LED_OFF }
      let s := { s with blink_timer_reload_value := BLINK_TIME_BINDING }
      { s with blinking := true }
    else
      let s := if cfg.has_GPIO_LED_GREEN
               then { s with GPIO_LED_GREEN := port_bit LED_OFF, GPIO_LED := port_bit LED_ON }
               else { s with GPIO_LED := port_bit LED_OFF }
      let s := { s with blink_timer_reload_value := BLINK_TIME_FAILSAFE }
      { s with blinking := true }

def init_receiver (s : State) : State :=
  let s := load_persistent_storage s
  let s := parse_bind_data s
  let s := initialize_failsafe s
  let s := rf_clear_ce s
  let s := { s with rf_configured := true }
  let s := restart_packet_receiving s
  { s with led_state := LED_STATE_IDLE }

def process_receiver (cfg : Build) (s : State) : State :=
  let s := process_systick s
  let s := process_bind_button s
  let s := process_binding s
  let s := process_receiving cfg s
  process_led cfg s

def rf_interrupt_handler (s : State) : State :=
  { s with rf_int_fired := true }

def hop_timer_handler (cfg : Build) (s : State) : State :=
  { s with IRCON_tf2 := false,
           TIMER2 := TIMER_VALUE_US cfg HOP_TIME_IN_US,
           perform_hop_requested := true }

/-- The two `#if HARDWARE == NRF24LE1_MODULE` blocks: `GPIO_PPM = v`, on the
other boards only when the 4-channel identifier is not in force.  On the
XR3100 and the HKR3000 `GPIO_PPM` and `GPIO_CH4` are the same port bit P1_1
(the comment in the handler and the pin table of `platform.h`): there both
fields hold the level of that bit. -/
def write_ppm (cfg : Build) (v : Bool) (s : State) : State :=
  if cfg.HARDWARE = Hardware.NRF24LE1_MODULE then { s with GPIO_PPM := v }
  else if s.stickdata_packetid ≠ STICKDATA_PACKETID_4CH then
    { s with GPIO_PPM := v, GPIO_CH4 := v }
  else s

/-- The assignment `GPIO_CH4 = v`; on the XR3100 and the HKR3000 it drives the
port bit that is also `GPIO_PPM`. -/
def write_ch4 (cfg : Build) (v : Bool) (s : State) : State :=
  if cfg.HARDWARE = Hardware.NRF24LE1_MODULE then { s with GPIO_CH4 := v }
  else { s with GPIO_CH4 := v, GPIO_PPM := v }

/-- The `if / else if` chain of `servo_pulse_timer_handler` on the stepped
`servo_pulse_state`. -/
def servo_pulse_step (cfg : Build) (s : State) : State :=
  if s.servo_pulse_state = 1 then
    { s with GPIO_CH1 := true,
             TIMER1 := if s.use_buffer_0 then s.pulse_buffer_0_0 else s.pulse_buffer_1_0,
             TCON_tr1 := true }
  else if s.servo_pulse_state = 2 then
    { s with GPIO_CH1 := false,
             GPIO_CH2 := true,
             TIMER1 := if s.use_buffer_0 then s.pulse_buffer_0_1 else s.pulse_buffer_1_1,
             TCON_tr1 := true }
  else if s.servo_pulse_state = 3 then
    { s with GPIO_CH2 := false,
             GPIO_CH3 := true,
             TIMER1 := if s.use_buffer_0 then s.pulse_buffer_0_2 else s.pulse_buffer_1_2,
             TCON_tr1 := true }
  else if s.servo_pulse_state = 4 then
    if s.stickdata_packetid = STICKDATA_PACKETID_4CH then
      let s := { s with GPIO_CH3 := false }
      let s := write_ch4 cfg true s
      { s with TIMER1 := if s.use_buffer_0 then s.pulse_buffer_0_3 else s.pulse_buffer_1_3,
               TCON_tr1 := true }
    else
      { s with GPIO_CH3 := false, servo_pulse_state := 0 }
  else
    let s := write_ch4 cfg false s
    { s with TCON_tr1 := false, servo_pulse_state := 0 }

def servo_pulse_timer_handler (cfg : Build) (s : State) : State :=
  let s := { s with TCON_tr1 := false }
  let s := write_ppm cfg false s
  let s := { s with servo_pulse_state := (s.servo_pulse_state + 1) % 256 }
  let s := servo_pulse_step cfg s
  write_ppm cfg true s

/-! ## Power-up, environment and traces -/

/-- The memory image at reset for a non-volatile record `nv`: statics without
an initialiser are zero, the others hold their initialiser, the port latches
are low, the radio queue is empty.  `bind_storage_area` has the size of the
stored record. -/
def power_on (nv : List Nat) : State :=
  { channels := fun _ => 0
    successful_stick_data := false
    use_buffer_0 := false
    pulse_buffer_0_0 := 0
    pulse_buffer_0_1 := 0
    pulse_buffer_0_2 := 0
    pulse_buffer_0_3 := 0
    pulse_buffer_1_0 := 0
    pulse_buffer_1_1 := 0
    pulse_buffer_1_2 := 0
    pulse_buffer_1_3 := 0
    rf_int_fired := false
    led_state := 0
    blink_timer := 0
    payload := List.replicate PAYLOAD_SIZE 0
    failsafe_enabled := false
    failsafe := fun _ => 0
    failsafe_timer := 0
    model_address := List.replicate ADDRESS_WIDTH 0
    perform_hop_requested := false
    hops_without_packet := 0
    hop_index := 0
    hop_data := List.replicate NUMBER_OF_HOP_CHANNELS 0
    binding_requested := false
    binding := false
    bind_timer := 0
    bind_storage_area := List.replicate nv.length 0
    stickdata_packetid := 0
    failsafe_packetid := 0
    bind_state := 0
    checksum := 0
    old_button_state := BUTTON_RELEASED
    old_led_state := 0xff
    blinking := false
    blink_timer_reload_value := 0
    servo_pulse_state := 0
    systick := false
    GPIO_BIND := BUTTON_RELEASED
    GPIO_LED := 0
    GPIO_LED_GREEN := 0
    GPIO_CH1 := false
    GPIO_CH2 := false
    GPIO_CH3 := false
    GPIO_CH4 := false
    GPIO_PPM := false
    T2CON := 0
    TIMER2 := 0
    IRCON_tf2 := false
    TCON_tr1 := false
    TIMER1 := 0
    rf_ce := false
    rf_rx_address := []
    rf_channel := 0
    rf_rx_fifo := []
    rf_irq_rx_rd := false
    rf_configured := false
    uart0_enabled := false
    persistent_storage := nv
    saved_records := [] }

/-- One dispatch: the main loop calls `process_receiver` with the tick flag
and the bind-button pin as the environment left them. -/
def dispatch (cfg : Build) (tick button : Bool) (s : State) : State :=
  process_receiver cfg { s with systick := tick, GPIO_BIND := button }

/-- The radio receives `frame` and its interrupt handler runs. -/
def deliver (frame : List Nat) (s : State) : State :=
  rf_interrupt_handler (rf_receive frame s)

/-- What can happen to the receiver after `init_receiver`. -/
inductive Event where
  | dispatch (tick button : Bool)
  | frame (f : List Nat)
  | rf_interrupt
  | hop_timer
  | servo_pulse_timer

def step (cfg : Build) (e : Event) (s : State) : State :=
  match e with
  | Event.dispatch tick button => dispatch cfg tick button s
  | Event.frame f => rf_receive f s
  | Event.rf_interrupt => rf_interrupt_handler s
  | Event.hop_timer => hop_timer_handler cfg s
  | Event.servo_pulse_timer => servo_pulse_timer_handler cfg s

/-- The state after the events of `es`, first event first. -/
def run (cfg : Build) (es : List Event) (s : State) : State :=
  es.foldl (fun s e => step cfg e s) s

/-- The state after `init_receiver` on a device whose non-volatile memory
holds `nv`, followed by the events `es`. -/
def reach (cfg : Build) (nv : List Nat) (es : List Event) : State :=
  run cfg es (init_receiver (power_on nv))

/-! ## Bind packets on the wire -/

/-- Bind packet 0: `ff P M a0 a1 a2 a3 a4 .. ..`. -/
def bind_packet_0 (P M a0 a1 a2 a3 a4 x8 x9 : Nat) : List Nat :=
  [0xff, P, M, a0, a1, a2, a3, a4, x8, x9]

/-- Bind packets 1 to 3: `cc cc seq d0 d1 d2 d3 d4 d5 d6`, checksum low byte first. -/
def bind_packet_n (ck seq d0 d1 d2 d3 d4 d5 d6 : Nat) : List Nat :=
  [ck % 256, ck / 256, seq, d0, d1, d2, d3, d4, d5, d6]

/-- The predicate a received frame has to meet at bind stage `stage` with the
stored checksum `ck`, as `bind_switch` tests it. -/
def stage_accepts (stage ck : Nat) (p : List Nat) : Prop :=
  if stage = 0 then
    rd p 0 = 0xff ∧ ((rd p 1 = 0xaa ∧ rd p 2 = 0x55) ∨ (rd p 1 = 0xab ∧ rd p 2 = 0x56))
  else
    rd p 0 = ck % 256 ∧ rd p 1 = ck / 256 ∧ rd p 2 = stage - 1

instance (stage ck : Nat) (p : List Nat) : Decidable (stage_accepts stage ck p) := by
  unfold stage_accepts; infer_instance

/-- The four dispatches of a complete handshake: each packet is received and
`process_binding` runs once. -/
def bind_session (p0 p1 p2 p3 : List Nat) (s : State) : State :=
  process_binding (deliver p3 (process_binding (deliver p2
    (process_binding (deliver p1 (process_binding (deliver p0 s)))))))

/-- The state `bind_switch` sees when `process_binding` handles the pending
frame `f`: the flag is cleared, the queue drained into `payload`, the radio
interrupt acknowledged. -/
def bind_input (f : List Nat) (s : State) : State :=
  { s with rf_int_fired := false, payload := rf_read_fifo f, rf_rx_fifo := [],
           rf_irq_rx_rd := false }

/-- A build used for concrete runs. -/
def cfg0 : Build := { HARDWARE := Hardware.NRF24LE1_MODULE, SYSTEM_CLOCK := 16000000 }

/-- An erased non-volatile record of 26 bytes. -/
def nv_blank : List Nat := List.replicate 26 0

/-- A receiver that has just entered a bind session: after `init_receiver`,
one dispatch with a tick in which the bind button is found pressed. -/
def fresh_bind_session : State :=
  reach cfg0 nv_blank [Event.dispatch true BUTTON_PRESSED]

/-- A bind session in which stage 0 has been accepted for the address
1,2,3,4,5 with the 3-channel marker. -/
def stage_1_session : State :=
  process_binding (deliver (bind_packet_0 0xaa 0x55 1 2 3 4 5 0 0) fresh_bind_session)

/-! ## Bind timeout -/

/-- A 3-channel stick-data frame (`payload[7] = 0x55`). -/
def stick_frame_3ch : List Nat := [0x10, 0x20, 0x11, 0x21, 0x12, 0x22, 0x13, 0x55, 0, 0x23]

/-- After `init_receiver`: a stick-data frame is received and dispatched. -/
def receiving_trace : List Event :=
  [Event.frame stick_frame_3ch, Event.rf_interrupt, Event.dispatch false BUTTON_RELEASED]

/-- Then the bind button is pressed: the dispatch of the next tick enters the
bind session. -/
def bind_entered_trace : List Event :=
  receiving_trace ++ [Event.dispatch true BUTTON_PRESSED]

/-- A stretch of `n` ticks without any frame: before each dispatch the hop
timer has expired, the dispatch sees the tick flag set and the bind button at
`button`. -/
def idle_ticks (button : Bool) : Nat → List Event
  | 0 => []
  | n + 1 => Event.hop_timer :: Event.dispatch true button :: idle_ticks button n

/-- Then no bind packet arrives for `BIND_TIMEOUT` ticks. -/
def bind_timed_out_trace : List Event :=
  bind_entered_trace ++ idle_ticks BUTTON_PRESSED BIND_TIMEOUT

/-! ## Bound configuration -/

/-- The live configuration a bind establishes: `model_address`, `hop_data`,
`stickdata_packetid`, `failsafe_packetid`. -/
def bound_config (s : State) : List Nat × List Nat × Nat × Nat :=
  (s.model_address, s.hop_data, s.stickdata_packetid, s.failsafe_packetid)

/-- The call `process_binding s` accepts a stage-3 packet: binding is active,
the bind timer runs, a frame is pending, the stage is 3 and the frame left in
`payload` by the drain loop meets the stage-3 test. -/
def accepts_stage3 (s : State) : Prop :=
  s.binding = true ∧ s.bind_timer ≠ 0 ∧ s.rf_int_fired = true ∧ s.bind_state = 3 ∧
    stage_accepts 3 s.checksum (drain_fifo s.rf_rx_fifo s.payload)

instance (s : State) : Decidable (accepts_stage3 s) := by
  unfold accepts_stage3; infer_instance

/-- The dispatch with inputs `tick`, `button` accepts a stage-3 packet: its
call of `process_binding` does. -/
def dispatch_accepts_stage3 (tick button : Bool) (s : State) : Prop :=
  accepts_stage3 (process_bind_button (process_systick { s with systick := tick, GPIO_BIND := button }))

instance (tick button : Bool) (s : State) : Decidable (dispatch_accepts_stage3 tick button s) := by
  unfold dispatch_accepts_stage3; infer_instance

/-- No dispatch of the run `es` from `s` accepts a stage-3 packet. -/
def stage3_free (cfg : Build) : List Event → State → Prop
  | [], _ => True
  | Event.dispatch tick button :: es, s =>
      ¬ dispatch_accepts_stage3 tick button s ∧
        stage3_free cfg es (step cfg (Event.dispatch tick button) s)
  | Event.frame f :: es, s => stage3_free cfg es (step cfg (Event.frame f) s)
  | Event.rf_interrupt :: es, s => stage3_free cfg es (step cfg Event.rf_interrupt s)
  | Event.hop_timer :: es, s => stage3_free cfg es (step cfg Event.hop_timer s)
  | Event.servo_pulse_timer :: es, s => stage3_free cfg es (step cfg Event.servo_pulse_timer s)

/-- A bind session for another transmitter in which stages 0, 1 and 2 are
accepted: address 9,8,7,6,5, 4-channel marker, hop bytes 40..53. -/
def three_stage_trace : List Event :=
  [Event.frame (bind_packet_0 0xab 0x56 9 8 7 6 5 0 0), Event.rf_interrupt,
   Event.dispatch true BUTTON_PRESSED,
   Event.frame (bind_packet_n 35 0 40 41 42 43 44 45 46), Event.rf_interrupt,
   Event.dispatch true BUTTON_PRESSED,
   Event.frame (bind_packet_n 35 1 47 48 49 50 51 52 53), Event.rf_interrupt,
   Event.dispatch true BUTTON_PRESSED,
   Event.dispatch true BUTTON_PRESSED]

/-- The state after the pending frame has been taken over: the flag cleared,
the queue drained into `payload`, the radio interrupt acknowledged. -/
def drained (s : State) : State :=
  rf_clear_irq (rf_drain { s with rf_int_fired := false })

/-- The state in which `receive_frame` classifies the frame: `drained`, then
the hop timer restarted. -/
def received (cfg : Build) (s : State) : State :=
  restart_hop_timer cfg (drained s)

/-! ## Stick data on the wire -/

/-- The 10-byte stick-data frame for the channel values `v0..v3`, identifier
`id` in byte 7 and `b8` in byte 8: channels 0..2 low byte first in bytes 0..5,
channel 3 with its low byte in byte 6 and its high byte in byte 9. -/
def stick_frame (v0 v1 v2 v3 id b8 : Nat) : List Nat :=
  [v0 % 256, v0 / 256, v1 % 256, v1 / 256, v2 % 256, v2 / 256, v3 % 256, id, b8, v3 / 256]

/-- What `receive_frame` needs from the state: the pending flag, the receive
queue and the two packet identifiers. -/
def pending (s : State) : Bool × List (List Nat) × Nat × Nat :=
  (s.rf_int_fired, s.rf_rx_fifo, s.stickdata_packetid, s.failsafe_packetid)

/-- The pulse-buffer slot the selector designates. -/
def active_slot (s : State) : List Nat :=
  if s.use_buffer_0 then
    [s.pulse_buffer_0_0, s.pulse_buffer_0_1, s.pulse_buffer_0_2, s.pulse_buffer_0_3]
  else
    [s.pulse_buffer_1_0, s.pulse_buffer_1_1, s.pulse_buffer_1_2, s.pulse_buffer_1_3]

/-! ## Failsafe -/

/-- The channel values and the pulse buffers with their selector. -/
def outputs (s : State) : (Nat → Nat) × Bool × List Nat × List Nat :=
  (s.channels, s.use_buffer_0,
   [s.pulse_buffer_0_0, s.pulse_buffer_0_1, s.pulse_buffer_0_2, s.pulse_buffer_0_3],
   [s.pulse_buffer_1_0, s.pulse_buffer_1_1, s.pulse_buffer_1_2, s.pulse_buffer_1_3])

/-- The four channel values a stick-data payload carries. -/
def stick_values (p : List Nat) : List Nat :=
  [rd16 p 1 0, rd16 p 3 2, rd16 p 5 4, rd16 p 9 6]

/-- The status is not Failsafe as long as no stick data has been accepted. -/
def no_failsafe_before_data (s : State) : Prop :=
  s.successful_stick_data = false → s.led_state ≠ LED_STATE_FAILSAFE

/-- Forty-one ticks without any frame after `init_receiver`: the failsafe
timer has run out. -/
def silent_trace : List Event := List.replicate 41 (Event.dispatch true BUTTON_RELEASED)

/-! ## Pulse train -/

/-- The four channel outputs `GPIO_CH1 .. GPIO_CH4`. -/
def pins (s : State) : List Bool := [s.GPIO_CH1, s.GPIO_CH2, s.GPIO_CH3, s.GPIO_CH4]

/-- The state after `n` successive invocations of `servo_pulse_timer_handler`
with nothing else running in between. -/
def after_pulses (cfg : Build) : Nat → State → State
  | 0, s => s
  | n + 1, s => servo_pulse_timer_handler cfg (after_pulses cfg n s)

/-- What a pulse train depends on and produces: the step counter, the channel
outputs, the pulse timer and its run bit, the active slot and the identifier of
the bound protocol. -/
def pulse_view (s : State) : Nat × List Bool × Nat × Bool × List Nat × Nat :=
  (s.servo_pulse_state, pins s, s.TIMER1, s.TCON_tr1, active_slot s, s.stickdata_packetid)

/-! ## Failsafe with the 4-channel protocol -/

/-- A bind record with a blank address and hop table and the 4-channel
protocol identifier. -/
def nv_4ch : List Nat := List.replicate 25 0 ++ [PROTOCOL_4CH]

/-- A 4-channel failsafe-configuration frame enabling the values 2000, 2001,
2002, 2003. -/
def failsafe_frame_4ch : List Nat :=
  [2000 % 256, 2000 / 256, 2001 % 256, 2001 / 256, 2002 % 256, 2002 / 256, 2003 % 256,
   FAILSAFE_PACKETID_4CH, 0x5a, 2003 / 256]

/-- A 4-channel stick-data frame with the values 1000, 1001, 1002, 1003. -/
def stick_frame_4ch : List Nat := stick_frame 1000 1001 1002 1003 STICKDATA_PACKETID_4CH 0

/-- The failsafe values are configured, one stick-data frame is accepted, and
then no frame arrives for `FAILSAFE_TIMEOUT` ticks. -/
def link_lost_trace : List Event :=
  [Event.frame failsafe_frame_4ch, Event.rf_interrupt, Event.dispatch false BUTTON_RELEASED,
   Event.frame stick_frame_4ch, Event.rf_interrupt, Event.dispatch false BUTTON_RELEASED] ++
  idle_ticks BUTTON_RELEASED FAILSAFE_TIMEOUT

/-! ## Hop scheduler -/

/-- What a hop step depends on: the binding flags, the pending-frame flag, the
hop request, the hop index and the miss counter. -/
def hop_ctx (s : State) : Bool × Bool × Bool × Bool × Nat × Nat :=
  (s.binding, s.binding_requested, s.rf_int_fired, s.perform_hop_requested, s.hop_index,
   s.hops_without_packet)

/-- A dispatch in which a hop is requested and no frame is received: the hop
timer has expired since the last dispatch, the radio has not interrupted, the
bind button is released. -/
def missed_hop (cfg : Build) (tick : Bool) (s : State) : State :=
  dispatch cfg tick BUTTON_RELEASED (hop_timer_handler cfg s)

/-- Consecutive missed hops, one per entry of `ticks` (the tick flag seen by
that dispatch). -/
def missed_hops (cfg : Build) (ticks : List Bool) (s : State) : State :=
  ticks.foldl (fun s tick => missed_hop cfg tick s) s

/-- The bounds of the hop index and of the miss counter. -/
def hop_bounds (s : State) : Prop :=
  s.hop_index ≤ 19 ∧ s.hops_without_packet ≤ MAX_HOP_WITHOUT_PACKET

/-! ## Bind handshake by whole dispatches -/

/-- What a bind step reads and what a completed handshake produces. -/
def bind_view (s : State) :
    Bool × Nat × Nat × List Nat × List (List Nat) × List Nat × List Nat × List Nat × Bool ×
      List (List Nat) × List Nat :=
  (s.binding, s.bind_state, s.checksum, s.bind_storage_area, s.saved_records,
   s.persistent_storage, s.model_address, s.hop_data, s.rf_int_fired, s.rf_rx_fifo, s.payload)

/-- A whole dispatch in which the frame `f` has been received. -/
def dispatch_frame (cfg : Build) (tick button : Bool) (f : List Nat) (s : State) : State :=
  dispatch cfg tick button (deliver f s)

/-- The four dispatches of a complete handshake, each with its own tick flag
and button level. -/
def bind_session_dispatched (cfg : Build) (t0 b0 t1 b1 t2 b2 t3 b3 : Bool)
    (p0 p1 p2 p3 : List Nat) (s : State) : State :=
  dispatch_frame cfg t3 b3 p3 (dispatch_frame cfg t2 b2 p2
    (dispatch_frame cfg t1 b1 p1 (dispatch_frame cfg t0 b0 p0 s)))

/-! ## The buffer swap, assignment by assignment -/

/-- The state of `output_pulses` after its first `k` assignments (all five
from `k = 5` on): four entries of the slot the selector does not designate,
then the selector. -/
def output_pulses_after (k : Nat) (s : State) : State :=
  if s.use_buffer_0 then
    let s := if 1 ≤ k then { s with pulse_buffer_1_0 := s.channels 0 } else s
    let s := if 2 ≤ k then { s with pulse_buffer_1_1 := s.channels 1 } else s
    let s := if 3 ≤ k then { s with pulse_buffer_1_2 := s.channels 2 } else s
    let s := if 4 ≤ k then { s with pulse_buffer_1_3 := s.channels 3 } else s
    if 5 ≤ k then { s with use_buffer_0 := false } else s
  else
    let s := if 1 ≤ k then { s with pulse_buffer_0_0 := s.channels 0 } else s
    let s := if 2 ≤ k then { s with pulse_buffer_0_1 := s.channels 1 } else s
    let s := if 3 ≤ k then { s with pulse_buffer_0_2 := s.channels 2 } else s
    let s := if 4 ≤ k then { s with pulse_buffer_0_3 := s.channels 3 } else s
    if 5 ≤ k then { s with use_buffer_0 := true } else s

/-- The four entries of pulse-buffer slot 0 (`zero = true`) or slot 1. -/
def slot (zero : Bool) (s : State) : List Nat :=
  if zero then
    [s.pulse_buffer_0_0, s.pulse_buffer_0_1, s.pulse_buffer_0_2, s.pulse_buffer_0_3]
  else
    [s.pulse_buffer_1_0, s.pulse_buffer_1_1, s.pulse_buffer_1_2, s.pulse_buffer_1_3]

/-! ## The transmitter's scaling -/

/-- The value the transmitter sends for a 12-bit UART value, as the comment
above `stickdata2txdata` gives it: `(uart_data * 14 / 10) + 0xf200`. -/
def value_sent (uart_data : Nat) : Nat := uart_data * 14 / 10 + 0xf200

/-! ## Bind button -/

/-- Successive calls of `process_bind_button`, one per entry of `inputs`: the
tick flag and the level of the bind-button pin the call finds. -/
def button_calls (inputs : List (Bool × Bool)) (s : State) : State :=
  inputs.foldl
    (fun s i => process_bind_button { s with systick := i.1, GPIO_BIND := i.2 }) s

/-- The button sample of the latest tick among `inputs`; released when there
has been no tick yet. -/
def last_sample (inputs : List (Bool × Bool)) : Bool :=
  inputs.foldl (fun prev i => if i.1 then i.2 else prev) BUTTON_RELEASED

/-- The state `init_receiver` works on after `load_persistent_storage`. -/
def loaded (nv : List Nat) : State := load_persistent_storage (power_on nv)

/-! ## Frames that are not stick data -/

/-- A frame whose discriminator byte 7 is neither identifier of the 3-channel
protocol. -/
def unknown_frame : List Nat := [1, 2, 3, 4, 5, 6, 7, 0, 9, 10]

/-- After a stick-data frame one hop was missed: the miss counter is 1. -/
def one_miss_trace : List Event :=
  receiving_trace ++ [Event.hop_timer, Event.dispatch true BUTTON_RELEASED]

/-- A 4-channel failsafe-configuration frame whose byte 8 is not 0x5A:
failsafe disabled. -/
def failsafe_off_frame_4ch : List Nat := [0, 0, 0, 0, 0, 0, 0, FAILSAFE_PACKETID_4CH, 0x5b, 0]

/-! ## Inside a dispatch -/

/-- The state in which a dispatch calls `process_receiving`: after
`process_systick`, `process_bind_button` and `process_binding`. -/
def receiving_entry (tick button : Bool) (s : State) : State :=
  process_binding (process_bind_button
    (process_systick { s with systick := tick, GPIO_BIND := button }))

/-- The state in which a dispatch calls `process_led`. -/
def led_entry (cfg : Build) (tick button : Bool) (s : State) : State :=
  process_receiving cfg (receiving_entry tick button s)

/-- What the hop section of `process_receiving` reads and writes. -/
def hop_view (s : State) : Bool × Bool × Bool × Nat × Nat × List Nat × Nat × Nat :=
  (s.binding, s.rf_int_fired, s.perform_hop_requested, s.hop_index, s.hops_without_packet,
   s.hop_data, s.T2CON, s.rf_channel)

/-- A hop is requested with miss counter 0: the hop timer expired once after a
stick-data frame. -/
def hop_requested_trace : List Event := receiving_trace ++ [Event.hop_timer]

/-- Two dispatches after power-up, the second one with a tick: the status Idle
has been observed and the blink timer has been loaded once. -/
def idle_blinking_trace : List Event :=
  [Event.dispatch false BUTTON_RELEASED, Event.dispatch true BUTTON_RELEASED]

/-! ## A buffer swap inside a pulse train -/

/-- A 3-channel stick-data frame with the values 1000, 1001, 1002, 1003. -/
def stick_frame_new : List Nat := stick_frame 1000 1001 1002 1003 STICKDATA_PACKETID_3CH 0

/-- One pulse-timer interrupt, then a dispatch that handles a new stick-data
frame (`channels` assigned, `output_pulses`), then the remaining pulse-timer
interrupts of the train. -/
def mixed_train_schedule : List Event :=
  [Event.servo_pulse_timer,
   Event.frame stick_frame_new, Event.rf_interrupt, Event.dispatch false BUTTON_RELEASED,
   Event.servo_pulse_timer, Event.servo_pulse_timer, Event.servo_pulse_timer]

/-- The state after the first `k` events of `mixed_train_schedule`, started
when the stick values of `stick_frame_3ch` are in the active slot and no pulse
train is running. -/
def mixed_train (k : Nat) : State :=
  reach cfg0 nv_blank (receiving_trace ++ mixed_train_schedule.take k)

/-! ## Frames handled while bound to the 3-channel protocol -/

/-- A 3-channel failsafe-configuration frame whose byte 8 is not 0x5A:
failsafe disabled. -/
def failsafe_off_frame_3ch : List Nat := [0, 0, 0, 0, 0, 0, 0, FAILSAFE_PACKETID_3CH, 0x5b, 0]

/-- A stick-data frame has been accepted and one tick has passed: the
failsafe timer is at `FAILSAFE_TIMEOUT - 1`. -/
def one_tick_trace : List Event :=
  receiving_trace ++ [Event.dispatch true BUTTON_RELEASED]

/-- A bind session entered after stick data was received, `FAILSAFE_TIMEOUT`
ticks later: the failsafe timer is at 0; then the hop timer expires and a
stick-data frame arrives. -/
def binding_busy_trace : List Event :=
  bind_entered_trace ++ idle_ticks BUTTON_PRESSED FAILSAFE_TIMEOUT ++
    [Event.hop_timer, Event.frame stick_frame_3ch, Event.rf_interrupt]

/-! ## Channel outputs and the pulse-train step counter -/

/-- The pulse-train step counter and the four channel outputs. -/
def pin_view (s : State) : Nat × List Bool := (s.servo_pulse_state, pins s)

/-- The step counter is in 0..4 and channel k is high exactly when the step
counter is k. -/
def pins_follow_state (s : State) : Prop :=
  s.servo_pulse_state ≤ 4 ∧
  pins s = [decide (s.servo_pulse_state = 1), decide (s.servo_pulse_state = 2),
            decide (s.servo_pulse_state = 3), decide (s.servo_pulse_state = 4)]

instance (s : State) : Decidable (pins_follow_state s) := by
  unfold pins_follow_state; infer_instance

/-- Successive invocations of `servo_pulse_timer_handler`, the k-th one with
the k-th entry of `ids` as `stickdata_packetid`. -/
def pulses_with (cfg : Build) (ids : List Nat) (s : State) : State :=
  ids.foldl (fun s id => servo_pulse_timer_handler cfg { s with stickdata_packetid := id }) s

/-- The identifiers in force at six successive invocations: the protocol
changes to 4 channels for the fourth invocation, back for the fifth, and to
4 channels again for the sixth. -/
def mixed_ids : List Nat :=
  [STICKDATA_PACKETID_3CH, STICKDATA_PACKETID_3CH, STICKDATA_PACKETID_3CH,
   STICKDATA_PACKETID_4CH, STICKDATA_PACKETID_3CH, STICKDATA_PACKETID_4CH]

/-! ## The bind checksum -/

/-- Every element of the frame is an 8-bit value, as delivered by the radio. -/
def byte_frame (f : List Nat) : Bool := f.all (fun b => decide (b < 256))

/-- The frames among the events carry 8-bit values. -/
def byte_events (es : List Event) : Bool :=
  es.all (fun e => match e with
    | Event.frame f => byte_frame f
    | _ => true)

/-- The sum of the five address bytes `bind_storage_area[0..4]`. -/
def address_sum (area : List Nat) : Nat :=
  rd area 0 + rd area 1 + rd area 2 + rd area 3 + rd area 4

/-- What the bind checksum depends on: the storage area, the frames in the
radio queue, the payload buffer, the checksum and the bind stage. -/
def checksum_view (s : State) : List Nat × List (List Nat) × List Nat × Nat × Nat :=
  (s.bind_storage_area, s.rf_rx_fifo, s.payload, s.checksum, s.bind_state)

/-- The storage area has its 26 bytes, queue and payload hold 8-bit values,
the checksum is at most 5 * 255, and once stage 0 was accepted it is the sum
of the stored address bytes. -/
def checksum_inv (v : List Nat × List (List Nat) × List Nat × Nat × Nat) : Prop :=
  v.1.length = 26 ∧ (∀ f ∈ v.2.1, byte_frame f = true) ∧ byte_frame v.2.2.1 = true ∧
  v.2.2.2.1 ≤ 1275 ∧ (v.2.2.2.2 ≠ 0 → v.2.2.2.1 = address_sum v.1)

/-- The stage-0 marker packet of the 3-channel protocol for the address
1,2,3,4,5; the transmitter repeats it every fourth packet. -/
def marker_packet : List Nat := bind_packet_0 0xaa 0x55 1 2 3 4 5 0 0

/-- A bind session entered after power-up in which the marker packet has been
accepted: the bind stage is 1. -/
def stage_1_trace : List Event :=
  [Event.dispatch true BUTTON_PRESSED, Event.frame marker_packet, Event.rf_interrupt,
   Event.dispatch false BUTTON_PRESSED]

/-! ## `process_receiving` and `output_pulses` with array bounds -/

/-- A read `a[i]` of an array with `n` elements: `none` when `i` is outside
the array. -/
def read_cell (n : Nat) (a : Nat → Nat) (i : Nat) : Option Nat :=
  if i < n then some (a i) else none

/-- An assignment `a[i] = v` to an array with `n` elements: `none` when `i`
is outside the array. -/
def write_cell (n : Nat) (a : Nat → Nat) (i v : Nat) : Option (Nat → Nat) :=
  if i < n then some (write16 a i v) else none

/-- The loop `for (i = 0; i < n; i++)` with a body that can fail. -/
def forLoopM {α : Type} : Nat → (Nat → α → Option α) → α → Option α
  | 0, _, a => some a
  | k + 1, body, a => (forLoopM k body a).bind (body k)

/-- The function `output_pulses` when `channels[]` has `n` elements. -/
def output_pulses_checked (n : Nat) (s : State) : Option State :=
  if s.use_buffer_0 then
    (read_cell n s.channels 0).bind fun c0 =>
    (read_cell n s.channels 1).bind fun c1 =>
    (read_cell n s.channels 2).bind fun c2 =>
    (read_cell n s.channels 3).bind fun c3 =>
    some { s with pulse_buffer_1_0 := c0,
                  pulse_buffer_1_1 := c1,
                  pulse_buffer_1_2 := c2,
                  pulse_buffer_1_3 := c3,
                  use_buffer_0 := false }
  else
    (read_cell n s.channels 0).bind fun c0 =>
    (read_cell n s.channels 1).bind fun c1 =>
    (read_cell n s.channels 2).bind fun c2 =>
    (read_cell n s.channels 3).bind fun c3 =>
    some { s with pulse_buffer_0_0 := c0,
                  pulse_buffer_0_1 := c1,
                  pulse_buffer_0_2 := c2,
                  pulse_buffer_0_3 := c3,
                  use_buffer_0 := true }

/-- The function `initialize_failsafe` when `failsafe[]` has `n` elements. -/
def initialize_failsafe_checked (n : Nat) (s : State) : Option State :=
  let s := { s with failsafe_enabled := false }
  let s := { s with failsafe_timer := FAILSAFE_TIMEOUT }
  (forLoopM NUMBER_OF_CHANNELS (fun i f => write_cell n f i SERVO_PULSE_CENTER)
    s.failsafe).bind fun f =>
  some { s with failsafe := f }

/-- Section 2 of `process_receiving` when `channels[]` and `failsafe[]` have
`n` elements. -/
def apply_failsafe_checked (n : Nat) (s : State) : Option State :=
  if s.successful_stick_data then
    if s.failsafe_timer = 0 then
      (forLoopM NUMBER_OF_CHANNELS
        (fun i c => (read_cell n s.failsafe i).bind fun v => write_cell n c i v)
        s.channels).bind fun c =>
      (output_pulses_checked n { s with channels := c }).bind fun s =>
      some { s with led_state := LED_STATE_FAILSAFE }
    else some s
  else some s

/-- Sections 4 and 5 of `process_receiving` when `channels[]` and `failsafe[]`
have `n` elements. -/
def receive_frame_checked (n : Nat) (cfg : Build) (s : State) : Option State :=
  if s.rf_int_fired = false then some s
  else
    let s := { s with rf_int_fired := false }
    let s := rf_drain s
    let s := rf_clear_irq s
    let s := restart_hop_timer cfg s
    if rd s.payload 7 = s.stickdata_packetid then
      (write_cell n s.channels 0 (rd16 s.payload 1 0)).bind fun c =>
      (write_cell n c 1 (rd16 s.payload 3 2)).bind fun c =>
      (write_cell n c 2 (rd16 s.payload 5 4)).bind fun c =>
      (write_cell n c 3 (rd16 s.payload 9 6)).bind fun c =>
      (output_pulses_checked n { s with channels := c }).bind fun s =>
      let s := { s with successful_stick_data := true }
      let s := { s with failsafe_timer := FAILSAFE_TIMEOUT }
      some { s with led_state := LED_STATE_RECEIVING }
    else if rd s.payload 7 = s.failsafe_packetid then
      if rd s.payload 8 = 0x5a then
        let s := { s with failsafe_enabled := true }
        (write_cell n s.failsafe 0 (rd16 s.payload 1 0)).bind fun f =>
        (write_cell n f 1 (rd16 s.payload 3 2)).bind fun f =>
        (write_cell n f 2 (rd16 s.payload 5 4)).bind fun f =>
        (write_cell n f 3 (rd16 s.payload 9 6)).bind fun f =>
        some { s with failsafe := f }
      else
        initialize_failsafe_checked n s
    else some s

/-- The function `process_receiving` when `channels[]` and `failsafe[]` have
`n` elements: `none` when an access falls outside them. -/
def process_receiving_checked (n : Nat) (cfg : Build) (s : State) : Option State :=
  if s.binding then some s
  else
    (apply_failsafe_checked n s).bind fun s =>
    receive_frame_checked n cfg (perform_hop s)

/-! ## A frame that arrives when a resynchronisation is due -/

/-- After a stick-data frame fifteen hops were missed and the hop timer has
expired once more: the miss counter is 15 and a hop is requested. -/
def resync_due_trace : List Event :=
  receiving_trace ++ idle_ticks BUTTON_RELEASED 15 ++ [Event.hop_timer]

/-! ## Channel outputs CH1..CH3 -/

/-- The channel outputs CH1, CH2, CH3, which have a pin of their own on every
board. -/
def pins3 (s : State) : List Bool := [s.GPIO_CH1, s.GPIO_CH2, s.GPIO_CH3]

/-- A build for the XR3100, where `GPIO_CH4` and `GPIO_PPM` are the port bit
P1_1. -/
def cfg_xr3100 : Build := { HARDWARE := Hardware.XR3100, SYSTEM_CLOCK := 16000000 }

/-- The step counter is in 0..4 and channel k is high exactly when the step
counter is k, for the channels 1, 2, 3. -/
def pins3_follow_state (s : State) : Prop :=
  s.servo_pulse_state ≤ 4 ∧
  pins3 s = [decide (s.servo_pulse_state = 1), decide (s.servo_pulse_state = 2),
             decide (s.servo_pulse_state = 3)]

instance (s : State) : Decidable (pins3_follow_state s) := by
  unfold pins3_follow_state; infer_instance

/-! ## `systick.c` of the transmitter -/

def MAX_SYSTICK_CALLBACKS : Nat := 1

/-- An element of `callbacks[]` (`systick_callback_t`).  A function pointer is
a number, `NULL` is 0. -/
structure SystickCallback where
  callback : Nat
  trigger_ms : Nat
deriving DecidableEq, Repr

/-- The variables of `systick.c`: the 32-bit counter `milliseconds` and the
array `callbacks`.  `invoked` records every call `(*cb)()` made by
`sys_tick_handler`: the function called, the value of `milliseconds` and the
`callback` members of `callbacks[]` at that moment. -/
structure Systick where
  milliseconds : Nat
  callbacks : List SystickCallback
  invoked : List (Nat × Nat × List Nat)
deriving DecidableEq, Repr

/-- The element `callbacks[i]`. -/
def Systick.slot (s : Systick) (i : Nat) : SystickCallback :=
  s.callbacks.getD i { callback := 0, trigger_ms := 0 }

/-- The index of the element `find_callback` returns a pointer to; `none` is
`NULL`. -/
def find_callback (cb : Nat) (s : Systick) : Option Nat :=
  (List.range MAX_SYSTICK_CALLBACKS).find? (fun i => (s.slot i).callback == cb)

def get_emtpy_callback_slot (s : Systick) : Option Nat :=
  find_callback 0 s

/-- The assignments to `slot->callback` and `slot->trigger_ms` at the end of
`systick_set_callback`. -/
def arm_callback (i cb duration_ms : Nat) (s : Systick) : Systick :=
  let armed : SystickCallback :=
    { callback := cb, trigger_ms := (s.milliseconds + duration_ms) % 2 ^ 32 }
  { s with callbacks := s.callbacks.set i armed }

def systick_set_callback (cb duration_ms : Nat) (s : Systick) : Systick :=
  let duration_ms := if duration_ms = 0 then 1 else duration_ms
  match find_callback cb s with
  | some i => arm_callback i cb duration_ms s
  | none =>
    match get_emtpy_callback_slot s with
    | none => s
    | some i => arm_callback i cb duration_ms s

def systick_clear_callback (cb : Nat) (s : Systick) : Systick :=
  match find_callback cb s with
  | some i =>
    let cleared : SystickCallback := { s.slot i with callback := 0 }
    { s with callbacks := s.callbacks.set i cleared }
  | none => s

/-- The call `(*cb)()` of a callback that itself sets or clears no callback:
it is recorded with what it can observe. -/
def invoke_callback (cb : Nat) (s : Systick) : Systick :=
  { s with invoked :=
      s.invoked ++ [(cb, s.milliseconds, s.callbacks.map SystickCallback.callback)] }

def sys_tick_handler (s : Systick) : Systick :=
  let s := { s with milliseconds := (s.milliseconds + 1) % 2 ^ 32 }
  forLoop MAX_SYSTICK_CALLBACKS (fun i s =>
    if (s.slot i).callback ≠ 0 ∧ (s.slot i).trigger_ms = s.milliseconds then
      let cb := (s.slot i).callback
      let cleared : SystickCallback := { s.slot i with callback := 0 }
      let s := { s with callbacks := s.callbacks.set i cleared }
      invoke_callback cb s
    else s) s

/-- The state after `n` system ticks with no other call in between. -/
def sys_ticks : Nat → Systick → Systick
  | 0, s => s
  | n + 1, s => sys_tick_handler (sys_ticks n s)

/-! ## Auxiliary lemmas -/

theorem drain_fifo_snoc (q : List (List Nat)) (f p : List Nat) :
    drain_fifo (q ++ [f]) p = rf_read_fifo f := by
  induction q generalizing p with
  | nil => simp [drain_fifo]
  | cons g q ih => simp [drain_fifo, ih]

theorem rf_read_fifo_ten (b0 b1 b2 b3 b4 b5 b6 b7 b8 b9 : Nat) :
    rf_read_fifo [b0, b1, b2, b3, b4, b5, b6, b7, b8, b9] =
      [b0, b1, b2, b3, b4, b5, b6, b7, b8, b9] := by
  rfl

theorem process_binding_deliver (s : State) (f : List Nat)
    (hb : s.binding = true) (ht : s.bind_timer ≠ 0) :
    process_binding (deliver f s) = bind_switch (bind_input f s) := by
  simp [process_binding, deliver, rf_interrupt_handler, rf_receive, hb, ht, rf_drain,
    rf_clear_irq, drain_fifo_snoc, bind_input]

theorem list_length_26 (l : List Nat) (h : l.length = 26) :
    ∃ b0 b1 b2 b3 b4 b5 b6 b7 b8 b9 b10 b11 b12 b13 b14 b15 b16 b17 b18 b19 b20 b21 b22 b23
      b24 b25, l = [b0, b1, b2, b3, b4, b5, b6, b7, b8, b9, b10, b11, b12, b13, b14, b15, b16,
        b17, b18, b19, b20, b21, b22, b23, b24, b25] := by
  match l, h with
  | [b0, b1, b2, b3, b4, b5, b6, b7, b8, b9, b10, b11, b12, b13, b14, b15, b16, b17, b18, b19,
        b20, b21, b22, b23, b24, b25], _ =>
    exact ⟨b0, b1, b2, b3, b4, b5, b6, b7, b8, b9, b10, b11, b12, b13, b14, b15, b16, b17, b18,
      b19, b20, b21, b22, b23, b24, b25, rfl⟩

/-! ## Bind handshake -/

/-- The states a complete handshake goes through, one call of
`process_binding` per packet. -/
theorem bind_session_states (s : State)
    (P M a0 a1 a2 a3 a4 : Nat)
    (h0 h1 h2 h3 h4 h5 h6 h7 h8 h9 h10 h11 h12 h13 h14 h15 h16 h17 h18 h19 : Nat)
    (x8 x9 y9 : Nat)
    (hP : (P = 0xaa ∧ M = 0x55) ∨ (P = 0xab ∧ M = 0x56))
    (ha0 : a0 < 256) (ha1 : a1 < 256) (ha2 : a2 < 256) (ha3 : a3 < 256) (ha4 : a4 < 256)
    (hbind : s.binding = true) (hstage : s.bind_state = 0) (htimer : s.bind_timer ≠ 0)
    (hlen : s.bind_storage_area.length = 26) :
    ∃ b5 b6 b7 b8 b9 b10 b11 b12 b13 b14 b15 b16 b17 b18 b19 b20 b21 b22 b23 b24,
    process_binding (deliver (bind_packet_0 P M a0 a1 a2 a3 a4 x8 x9) s) =
      { bind_input (bind_packet_0 P M a0 a1 a2 a3 a4 x8 x9) s with
        bind_storage_area := [a0, a1, a2, a3, a4, b5, b6, b7, b8, b9, b10, b11, b12, b13, b14,
          b15, b16, b17, b18, b19, b20, b21, b22, b23, b24, P],
        checksum := a0 + a1 + a2 + a3 + a4, bind_state := 1 } ∧
    process_binding (deliver (bind_packet_n (a0 + a1 + a2 + a3 + a4) 0 h0 h1 h2 h3 h4 h5 h6)
      (process_binding (deliver (bind_packet_0 P M a0 a1 a2 a3 a4 x8 x9) s))) =
      { bind_input (bind_packet_n (a0 + a1 + a2 + a3 + a4) 0 h0 h1 h2 h3 h4 h5 h6) s with
        bind_storage_area := [a0, a1, a2, a3, a4, h0, h1, h2, h3, h4, h5, h6, b12, b13, b14,
          b15, b16, b17, b18, b19, b20, b21, b22, b23, b24, P],
        checksum := a0 + a1 + a2 + a3 + a4, bind_state := 2 } ∧
    process_binding (deliver (bind_packet_n (a0 + a1 + a2 + a3 + a4) 1 h7 h8 h9 h10 h11 h12 h13)
      (process_binding (deliver (bind_packet_n (a0 + a1 + a2 + a3 + a4) 0 h0 h1 h2 h3 h4 h5 h6)
      (process_binding (deliver (bind_packet_0 P M a0 a1 a2 a3 a4 x8 x9) s))))) =
      { bind_input (bind_packet_n (a0 + a1 + a2 + a3 + a4) 1 h7 h8 h9 h10 h11 h12 h13) s with
        bind_storage_area := [a0, a1, a2, a3, a4, h0, h1, h2, h3, h4, h5, h6, h7, h8, h9, h10,
          h11, h12, h13, b19, b20, b21, b22, b23, b24, P],
        checksum := a0 + a1 + a2 + a3 + a4, bind_state := 3 } ∧
    bind_session
      (bind_packet_0 P M a0 a1 a2 a3 a4 x8 x9)
      (bind_packet_n (a0 + a1 + a2 + a3 + a4) 0 h0 h1 h2 h3 h4 h5 h6)
      (bind_packet_n (a0 + a1 + a2 + a3 + a4) 1 h7 h8 h9 h10 h11 h12 h13)
      (bind_packet_n (a0 + a1 + a2 + a3 + a4) 2 h14 h15 h16 h17 h18 h19 y9) s =
      binding_done (parse_bind_data (save_persistent_storage
      { bind_input (bind_packet_n (a0 + a1 + a2 + a3 + a4) 2 h14 h15 h16 h17 h18 h19 y9) s with
        bind_storage_area := [a0, a1, a2, a3, a4, h0, h1, h2, h3, h4, h5, h6, h7, h8, h9, h10,
          h11, h12, h13, h14, h15, h16, h17, h18, h19, P],
        checksum := a0 + a1 + a2 + a3 + a4, bind_state := 3 })) := by
  obtain ⟨b0, b1, b2, b3, b4, b5, b6, b7, b8, b9, b10, b11, b12, b13, b14, b15, b16, b17, b18,
    b19, b20, b21, b22, b23, b24, b25, hl⟩ := list_length_26 _ hlen
  refine ⟨b5, b6, b7, b8, b9, b10, b11, b12, b13, b14, b15, b16, b17, b18, b19, b20, b21, b22,
    b23, b24, ?_⟩
  generalize hck : a0 + a1 + a2 + a3 + a4 = ck
  have e1 : process_binding (deliver (bind_packet_0 P M a0 a1 a2 a3 a4 x8 x9) s) =
      { bind_input (bind_packet_0 P M a0 a1 a2 a3 a4 x8 x9) s with
        bind_storage_area := [a0, a1, a2, a3, a4, b5, b6, b7, b8, b9, b10, b11, b12, b13, b14,
          b15, b16, b17, b18, b19, b20, b21, b22, b23, b24, P],
        checksum := ck, bind_state := 1 } := by
    rw [process_binding_deliver s _ hbind htimer]
    simp [bind_switch, bind_input, bind_packet_0, rf_read_fifo_ten, hstage, rd, hP, forLoop, hl,
      PROTOCOLID_INDEX]
    omega
  have e2 : process_binding (deliver (bind_packet_n ck 0 h0 h1 h2 h3 h4 h5 h6)
      (process_binding (deliver (bind_packet_0 P M a0 a1 a2 a3 a4 x8 x9) s))) =
      { bind_input (bind_packet_n ck 0 h0 h1 h2 h3 h4 h5 h6) s with
        bind_storage_area := [a0, a1, a2, a3, a4, h0, h1, h2, h3, h4, h5, h6, b12, b13, b14,
          b15, b16, b17, b18, b19, b20, b21, b22, b23, b24, P],
        checksum := ck, bind_state := 2 } := by
    rw [e1, process_binding_deliver _ _ (by simpa [bind_input] using hbind)
      (by simpa [bind_input] using htimer)]
    simp [bind_switch, bind_input, bind_packet_n, rf_read_fifo_ten, rd, forLoop, copy_hop_block]
  have e3 : process_binding (deliver (bind_packet_n ck 1 h7 h8 h9 h10 h11 h12 h13)
      (process_binding (deliver (bind_packet_n ck 0 h0 h1 h2 h3 h4 h5 h6)
      (process_binding (deliver (bind_packet_0 P M a0 a1 a2 a3 a4 x8 x9) s))))) =
      { bind_input (bind_packet_n ck 1 h7 h8 h9 h10 h11 h12 h13) s with
        bind_storage_area := [a0, a1, a2, a3, a4, h0, h1, h2, h3, h4, h5, h6, h7, h8, h9, h10,
          h11, h12, h13, b19, b20, b21, b22, b23, b24, P],
        checksum := ck, bind_state := 3 } := by
    rw [e2, process_binding_deliver _ _ (by simpa [bind_input] using hbind)
      (by simpa [bind_input] using htimer)]
    simp [bind_switch, bind_input, bind_packet_n, rf_read_fifo_ten, rd, forLoop, copy_hop_block]
  refine ⟨e1, e2, e3, ?_⟩
  unfold bind_session
  rw [e3, process_binding_deliver _ _ (by simpa [bind_input] using hbind)
    (by simpa [bind_input] using htimer)]
  simp [bind_switch, bind_input, bind_packet_n, rf_read_fifo_ten, rd, forLoop, copy_hop_block]

/-- What a completed handshake leaves, read off `bind_view`. -/
theorem bind_view_completed (x : State) (record : List Nat) :
    bind_view (binding_done (parse_bind_data (save_persistent_storage
      { x with bind_storage_area := record }))) =
      (false, x.bind_state, x.checksum, record, x.saved_records ++ [record], record,
       (List.range ADDRESS_WIDTH).map (fun i => rd record i),
       (List.range NUMBER_OF_HOP_CHANNELS).map (fun i => rd record (ADDRESS_WIDTH + i)),
       false, [], x.payload) := by
  simp [bind_view, binding_done, parse_bind_data, save_persistent_storage,
    restart_packet_receiving, stop_hop_timer, rf_clear_ce, rf_set_rx_address, rf_set_channel,
    rf_flush_rx_fifo, rf_clear_irq, rf_set_ce, init_uart0, disable_uart0, apply_ite]

theorem rd_rf_read_fifo (f : List Nat) (i : Nat) (h : i < 10) :
    rd (rf_read_fifo f) i = rd f i := by
  interval_cases i <;> simp [rf_read_fifo, rd, PAYLOAD_SIZE, List.range, List.range.loop]

theorem bind_switch_reject (s : State) (f : List Nat) (hstage : s.bind_state ≤ 3)
    (hrej : ¬ stage_accepts s.bind_state s.checksum f) :
    bind_switch (bind_input f s) = bind_input f s := by
  have hs : (bind_input f s).bind_state = s.bind_state := rfl
  have hc : (bind_input f s).checksum = s.checksum := rfl
  have hp : (bind_input f s).payload = rf_read_fifo f := rfl
  unfold bind_switch
  rw [hs, hc, hp]
  simp only [rd_rf_read_fifo f 0 (by omega), rd_rf_read_fifo f 1 (by omega), rd_rf_read_fifo f 2 (by omega)]
  unfold stage_accepts at hrej
  generalize s.bind_state = st at *
  interval_cases st
  · rw [if_pos rfl] at hrej
    rw [if_pos rfl]
    by_cases h0 : rd f 0 = 0xff
    · have h1 : ¬ ((rd f 1 = 0xaa ∧ rd f 2 = 0x55) ∨ (rd f 1 = 0xab ∧ rd f 2 = 0x56)) :=
        fun h => hrej ⟨h0, h⟩
      rw [if_pos h0, if_neg h1]
    · rw [if_neg h0]
  all_goals
    simp only [Nat.succ_ne_zero, OfNat.ofNat_ne_zero, one_ne_zero, if_false, if_true,
      Nat.reduceEqDiff, ↓reduceIte] at hrej ⊢
    by_cases h0 : rd f 0 = s.checksum % 256
    · by_cases h1 : rd f 1 = s.checksum / 256
      · have h2 : ¬ rd f 2 = _ := fun h => hrej ⟨h0, h1, h⟩
        simp only [Nat.add_one_sub_one, Nat.reduceSub] at h2
        rw [if_pos h0, if_pos h1, if_neg h2]
      · rw [if_pos h0, if_neg h1]
    · rw [if_neg h0]

theorem bind_input_bind_input (f g : List Nat) (s : State) :
    bind_input g (bind_input f s) = bind_input g s := rfl

/-- C2: while binding with a running bind timer, at each stage 0..3 a received
packet that fails the predicate of the stage leaves the bind stage, the stored
checksum, the bind storage area, the binding flag and the status as they were,
and whatever packet is received next is handled exactly as if the rejected
packet had never arrived. -/
theorem C2_rejected_bind_packet_is_ignored (s : State) (f : List Nat)
    (hbind : s.binding = true) (htimer : s.bind_timer ≠ 0) (hstage : s.bind_state ≤ 3)
    (hrej : ¬ stage_accepts s.bind_state s.checksum f) :
    (process_binding (deliver f s)).bind_state = s.bind_state ∧
    (process_binding (deliver f s)).checksum = s.checksum ∧
    (process_binding (deliver f s)).bind_storage_area = s.bind_storage_area ∧
    (process_binding (deliver f s)).binding = s.binding ∧
    (process_binding (deliver f s)).led_state = s.led_state ∧
    ∀ g : List Nat,
      process_binding (deliver g (process_binding (deliver f s))) =
        process_binding (deliver g s) := by
  have e : process_binding (deliver f s) = bind_input f s := by
    rw [process_binding_deliver s f hbind htimer, bind_switch_reject s f hstage hrej]
  rw [e]
  refine ⟨rfl, rfl, rfl, rfl, rfl, ?_⟩
  intro g
  rw [process_binding_deliver (bind_input f s) g hbind htimer,
    process_binding_deliver s g hbind htimer, bind_input_bind_input]

set_option maxRecDepth 100000 in
/-- C2, at a concrete input: after stage 0 was accepted for address 1,2,3,4,5,
the marker packet arrives again and is rejected at stage 1. -/
theorem C2_rejected_bind_packet_is_ignored_witness :
    (stage_1_session.binding = true ∧ stage_1_session.bind_timer ≠ 0 ∧
      stage_1_session.bind_state ≤ 3 ∧
      ¬ stage_accepts stage_1_session.bind_state stage_1_session.checksum
        (bind_packet_0 0xaa 0x55 1 2 3 4 5 0 0)) ∧
    (process_binding (deliver (bind_packet_0 0xaa 0x55 1 2 3 4 5 0 0) stage_1_session)).bind_state
      = stage_1_session.bind_state :=
  ⟨by decide,
   (C2_rejected_bind_packet_is_ignored stage_1_session (bind_packet_0 0xaa 0x55 1 2 3 4 5 0 0)
      (by decide) (by decide) (by decide) (by decide)).1⟩

/-! ## Footprints of the dispatch steps -/

theorem process_led_footprint (cfg : Build) (s : State) :
    process_led cfg s =
      { s with blink_timer := (process_led cfg s).blink_timer,
               GPIO_LED := (process_led cfg s).GPIO_LED,
               GPIO_LED_GREEN := (process_led cfg s).GPIO_LED_GREEN,
               old_led_state := (process_led cfg s).old_led_state,
               blinking := (process_led cfg s).blinking,
               blink_timer_reload_value := (process_led cfg s).blink_timer_reload_value } := by
  unfold process_led
  dsimp only
  split_ifs <;> rfl

theorem process_systick_footprint (s : State) :
    process_systick s =
      { s with failsafe_timer := (process_systick s).failsafe_timer,
               bind_timer := (process_systick s).bind_timer,
               blink_timer := (process_systick s).blink_timer } := by
  unfold process_systick
  dsimp only
  split_ifs <;> rfl

theorem process_bind_button_footprint (s : State) :
    process_bind_button s =
      { s with old_button_state := (process_bind_button s).old_button_state,
               binding_requested := (process_bind_button s).binding_requested } := by
  unfold process_bind_button
  dsimp only
  split_ifs <;> rfl

theorem process_systick_bind_timer (s : State) :
    (process_systick s).bind_timer =
      if s.systick = true then s.bind_timer - 1 else s.bind_timer := by
  unfold process_systick
  dsimp only
  split_ifs <;> simp_all

theorem process_bind_button_no_edge (s : State) (h : s.GPIO_BIND = s.old_button_state) :
    process_bind_button s = s := by
  unfold process_bind_button
  dsimp only
  split_ifs
  · rfl
  · rfl

theorem process_receiving_quiet (cfg : Build) (s : State)
    (hb : s.binding = false) (hf : s.successful_stick_data = true → s.failsafe_timer ≠ 0)
    (hh : s.perform_hop_requested = false) (hr : s.rf_int_fired = false) :
    process_receiving cfg s = s := by
  have h1 : apply_failsafe s = s := by
    unfold apply_failsafe
    by_cases h : s.successful_stick_data = true
    · simp [h, hf h]
    · simp [h]
  have h2 : perform_hop s = s := by simp [perform_hop, hh]
  have h3 : receive_frame cfg s = s := by simp [receive_frame, hr]
  simp [process_receiving, hb, h1, h2, h3]

theorem process_receiving_binding (cfg : Build) (s : State) (hb : s.binding = true) :
    process_receiving cfg s = s := by
  simp [process_receiving, hb]

theorem process_binding_timeout (s : State) (hb : s.binding = true) (ht : s.bind_timer = 0) :
    process_binding s = binding_done s := by
  simp [process_binding, hb, ht]

theorem process_binding_waiting (s : State) (hb : s.binding = true) (ht : s.bind_timer ≠ 0)
    (hr : s.rf_int_fired = false) : process_binding s = s := by
  simp [process_binding, hb, ht, hr]

theorem process_receiving_binding_done (cfg : Build) (s : State) :
    process_receiving cfg (binding_done s) = binding_done s := by
  apply process_receiving_quiet cfg _ rfl _ rfl rfl
  intro _
  show FAILSAFE_TIMEOUT ≠ 0
  decide

theorem dispatch_timeout (cfg : Build) (s : State) (tick button : Bool)
    (hbind : s.binding = true)
    (htimer : s.bind_timer = 0 ∨ (tick = true ∧ s.bind_timer = 1)) :
    dispatch cfg tick button s = process_led cfg (binding_done
      (process_bind_button (process_systick { s with systick := tick, GPIO_BIND := button }))) := by
  have e1 := process_systick_footprint { s with systick := tick, GPIO_BIND := button }
  have t1 := process_systick_bind_timer { s with systick := tick, GPIO_BIND := button }
  have e2 := process_bind_button_footprint
    (process_systick { s with systick := tick, GPIO_BIND := button })
  have b2 : (process_bind_button
      (process_systick { s with systick := tick, GPIO_BIND := button })).binding = true := by
    have h := congrArg State.binding e2
    have h' := congrArg State.binding e1
    exact h.trans (h'.trans hbind)
  have t2 : (process_bind_button
      (process_systick { s with systick := tick, GPIO_BIND := button })).bind_timer = 0 := by
    have h := congrArg State.bind_timer e2
    refine h.trans (t1.trans ?_)
    rcases htimer with h0 | ⟨h1, h2⟩
    · show (if tick = true then s.bind_timer - 1 else s.bind_timer) = 0
      split_ifs <;> omega
    · show (if tick = true then s.bind_timer - 1 else s.bind_timer) = 0
      rw [if_pos h1, h2]
  unfold dispatch process_receiver
  dsimp only
  rw [process_binding_timeout _ b2 t2]
  rw [process_receiving_binding_done]

theorem dispatch_timeout_status (cfg : Build) (s : State) (tick button : Bool)
    (hbind : s.binding = true)
    (htimer : s.bind_timer = 0 ∨ (tick = true ∧ s.bind_timer = 1)) :
    (dispatch cfg tick button s).led_state = LED_STATE_IDLE ∧
    (dispatch cfg tick button s).binding = false := by
  rw [dispatch_timeout cfg s tick button hbind htimer]
  constructor
  · have h := congrArg State.led_state (process_led_footprint cfg (binding_done
      (process_bind_button (process_systick { s with systick := tick, GPIO_BIND := button }))))
    exact h
  · have h := congrArg State.binding (process_led_footprint cfg (binding_done
      (process_bind_button (process_systick { s with systick := tick, GPIO_BIND := button }))))
    exact h

/-- A dispatch with a tick during a bind session whose timer has at least two
ticks left, no frame pending and the button unchanged: the session goes on with
one tick less. -/
theorem dispatch_bind_waiting (cfg : Build) (s : State) (button : Bool) (k : Nat)
    (hb : s.binding = true) (hr : s.rf_int_fired = false)
    (hbtn : s.old_button_state = button) (ht : s.bind_timer = k + 2) :
    (dispatch cfg true button s).binding = true ∧
    (dispatch cfg true button s).rf_int_fired = false ∧
    (dispatch cfg true button s).old_button_state = button ∧
    (dispatch cfg true button s).bind_timer = k + 1 := by
  have e1 := process_systick_footprint { s with systick := true, GPIO_BIND := button }
  have t1 : (process_systick { s with systick := true, GPIO_BIND := button }).bind_timer
      = k + 1 := by
    rw [process_systick_bind_timer]
    show (if true = true then s.bind_timer - 1 else s.bind_timer) = k + 1
    rw [if_pos rfl, ht]
    rfl
  have e2 : process_bind_button (process_systick { s with systick := true, GPIO_BIND := button })
      = process_systick { s with systick := true, GPIO_BIND := button } := by
    apply process_bind_button_no_edge
    have h1 := congrArg State.GPIO_BIND e1
    have h2 := congrArg State.old_button_state e1
    exact h1.trans (h2.trans hbtn).symm
  have b1 : (process_systick { s with systick := true, GPIO_BIND := button }).binding = true :=
    (congrArg State.binding e1).trans hb
  have r1 : (process_systick { s with systick := true, GPIO_BIND := button }).rf_int_fired
      = false := (congrArg State.rf_int_fired e1).trans hr
  have o1 : (process_systick { s with systick := true, GPIO_BIND := button }).old_button_state
      = button := (congrArg State.old_button_state e1).trans hbtn
  have e : dispatch cfg true button s =
      process_led cfg (process_systick { s with systick := true, GPIO_BIND := button }) := by
    unfold dispatch process_receiver
    dsimp only
    rw [e2, process_binding_waiting _ b1 (by omega) r1, process_receiving_binding cfg _ b1]
  rw [e]
  have f := process_led_footprint cfg
    (process_systick { s with systick := true, GPIO_BIND := button })
  exact ⟨(congrArg State.binding f).trans b1, (congrArg State.rf_int_fired f).trans r1,
    (congrArg State.old_button_state f).trans o1, (congrArg State.bind_timer f).trans t1⟩

theorem run_append (cfg : Build) (es fs : List Event) (s : State) :
    run cfg (es ++ fs) s = run cfg fs (run cfg es s) := by
  simp [run, List.foldl_append]

theorem run_cons (cfg : Build) (e : Event) (es : List Event) (s : State) :
    run cfg (e :: es) s = run cfg es (step cfg e s) := rfl

theorem run_nil (cfg : Build) (s : State) : run cfg [] s = s := rfl

theorem step_dispatch (cfg : Build) (tick button : Bool) (s : State) :
    step cfg (Event.dispatch tick button) s = dispatch cfg tick button s := rfl

theorem step_hop_timer (cfg : Build) (s : State) :
    step cfg Event.hop_timer s = hop_timer_handler cfg s := rfl

theorem idle_ticks_succ (button : Bool) (n : Nat) :
    idle_ticks button (n + 1) =
      Event.hop_timer :: Event.dispatch true button :: idle_ticks button n := rfl

/-- A bind session left alone for as many ticks as its timer holds ends with
status Idle. -/
theorem bind_session_times_out (cfg : Build) (button : Bool) (n : Nat) (s : State)
    (hb : s.binding = true) (hr : s.rf_int_fired = false)
    (hbtn : s.old_button_state = button) (ht : s.bind_timer = n + 1) :
    (run cfg (idle_ticks button (n + 1)) s).led_state = LED_STATE_IDLE ∧
    (run cfg (idle_ticks button (n + 1)) s).binding = false := by
  induction n generalizing s with
  | zero =>
    rw [idle_ticks_succ, run_cons, run_cons, step_hop_timer, step_dispatch]
    have e : idle_ticks button 0 = [] := rfl
    rw [e, run_nil]
    exact dispatch_timeout_status cfg (hop_timer_handler cfg s) true button hb
      (Or.inr ⟨rfl, ht⟩)
  | succ n ih =>
    rw [idle_ticks_succ, run_cons, run_cons, step_hop_timer, step_dispatch]
    obtain ⟨h1, h2, h3, h4⟩ :=
      dispatch_bind_waiting cfg (hop_timer_handler cfg s) button n hb hr hbtn ht
    exact ih (dispatch cfg true button (hop_timer_handler cfg s)) h1 h2 h3 h4

/-! ## Bind timeout and status -/

/-- C3 (amended): a dispatch in which the bind timer of a running bind session
is found at zero ends the session with the status Idle, whatever the status
was before the session was entered. -/
theorem C3_bind_timeout_sets_status_idle (cfg : Build) (s : State) (tick button : Bool)
    (hbind : s.binding = true)
    (htimer : s.bind_timer = 0 ∨ (tick = true ∧ s.bind_timer = 1)) :
    (dispatch cfg tick button s).led_state = LED_STATE_IDLE ∧
    (dispatch cfg tick button s).binding = false :=
  dispatch_timeout_status cfg s tick button hbind htimer

set_option maxRecDepth 100000 in
/-- C3 (amended), at a concrete input: a bind session with one tick left. -/
theorem C3_bind_timeout_sets_status_idle_witness :
    ({ fresh_bind_session with bind_timer := 1 }.binding = true ∧
      ({ fresh_bind_session with bind_timer := 1 }.bind_timer = 0 ∨
        (true = true ∧ { fresh_bind_session with bind_timer := 1 }.bind_timer = 1))) ∧
    (dispatch cfg0 true BUTTON_PRESSED { fresh_bind_session with bind_timer := 1 }).led_state
      = LED_STATE_IDLE :=
  ⟨by decide,
   (C3_bind_timeout_sets_status_idle cfg0 { fresh_bind_session with bind_timer := 1 } true
      BUTTON_PRESSED (by decide) (by decide)).1⟩

set_option maxRecDepth 100000 in
/-- C3 as stated fails: the receiver is in status Receiving when the bind
button is pressed; the session is entered, no bind packet arrives, the bind
timer runs out, and the status is then Idle, not Receiving. -/
theorem C3_counterexample_receiving_before_timeout :
    (reach cfg0 nv_blank receiving_trace).binding = false ∧
    (reach cfg0 nv_blank receiving_trace).led_state = LED_STATE_RECEIVING ∧
    (reach cfg0 nv_blank bind_entered_trace).binding = true ∧
    (reach cfg0 nv_blank bind_timed_out_trace).binding = false ∧
    (reach cfg0 nv_blank bind_timed_out_trace).led_state
      ≠ (reach cfg0 nv_blank receiving_trace).led_state := by
  have hto := bind_session_times_out cfg0 BUTTON_PRESSED 311
    (reach cfg0 nv_blank bind_entered_trace) (by decide) (by decide) (by decide) (by decide)
  have e : reach cfg0 nv_blank bind_timed_out_trace =
      run cfg0 (idle_ticks BUTTON_PRESSED (311 + 1))
        (reach cfg0 nv_blank bind_entered_trace) := by
    unfold reach bind_timed_out_trace
    rw [run_append]
    rfl
  refine ⟨by decide, by decide, by decide, ?_, ?_⟩
  · rw [e]; exact hto.2
  · rw [e, hto.1]; decide
/-! ## The functions with their tests stated on the entry state -/

theorem perform_hop_eq (s : State) :
    perform_hop s =
      if s.perform_hop_requested = true then
        if (s.hops_without_packet + 1) % 256 > MAX_HOP_WITHOUT_PACKET then
          restart_packet_receiving
            { s with perform_hop_requested := false,
                     hops_without_packet := (s.hops_without_packet + 1) % 256 }
        else
          { s with perform_hop_requested := false,
                   hops_without_packet := (s.hops_without_packet + 1) % 256,
                   rf_ce := true,
                   hop_index := (s.hop_index + 1) % NUMBER_OF_HOP_CHANNELS,
                   rf_channel := rd s.hop_data ((s.hop_index + 1) % NUMBER_OF_HOP_CHANNELS) }
      else s := rfl

theorem receive_frame_eq (cfg : Build) (s : State) :
    receive_frame cfg s =
      if s.rf_int_fired = false then s
      else if rd (received cfg s).payload 7 = (received cfg s).stickdata_packetid then
        { output_pulses
            { received cfg s with
              channels := (write16 (write16 (write16 (write16 (received cfg s).channels
                0 (rd16 (received cfg s).payload 1 0))
                1 (rd16 (received cfg s).payload 3 2))
                2 (rd16 (received cfg s).payload 5 4))
                3 (rd16 (received cfg s).payload 9 6)) } with
          successful_stick_data := true,
          failsafe_timer := FAILSAFE_TIMEOUT,
          led_state := LED_STATE_RECEIVING }
      else if rd (received cfg s).payload 7 = (received cfg s).failsafe_packetid then
        if rd (received cfg s).payload 8 = 0x5a then
          { received cfg s with
            failsafe_enabled := true,
            failsafe := (write16 (write16 (write16 (write16 (received cfg s).failsafe
                0 (rd16 (received cfg s).payload 1 0))
                1 (rd16 (received cfg s).payload 3 2))
                2 (rd16 (received cfg s).payload 5 4))
                3 (rd16 (received cfg s).payload 9 6)) }
        else initialize_failsafe (received cfg s)
      else received cfg s := rfl

theorem process_binding_eq (s : State) :
    process_binding s =
      if s.binding = false then
        if s.binding_requested = false then s
        else
          { s with led_state := LED_STATE_BINDING, binding := true, bind_state := 0,
                   bind_timer := BIND_TIMEOUT, rf_rx_address := BIND_ADDRESS,
                   rf_channel := BIND_CHANNEL, rf_ce := true }
      else if s.bind_timer = 0 then binding_done s
      else if s.rf_int_fired = false then s
      else bind_switch (drained s) := rfl

theorem process_receiving_eq (cfg : Build) (s : State) :
    process_receiving cfg s =
      if s.binding = true then s else receive_frame cfg (perform_hop (apply_failsafe s)) := rfl

theorem apply_failsafe_eq (s : State) :
    apply_failsafe s =
      if s.successful_stick_data = true then
        if s.failsafe_timer = 0 then
          { output_pulses
              { s with
                channels := (write16 (write16 (write16 s.channels 0 (s.failsafe 0))
                  1 (s.failsafe 1)) 2 (s.failsafe 2)) } with
            led_state := LED_STATE_FAILSAFE }
        else s
      else s := rfl
theorem bound_config_restart_packet_receiving (s : State) :
    bound_config (restart_packet_receiving s) = bound_config s := by
  simp [bound_config, restart_packet_receiving, stop_hop_timer, rf_clear_ce, rf_set_rx_address,
    rf_set_channel, rf_flush_rx_fifo, rf_clear_irq, rf_set_ce]

theorem bound_config_perform_hop (s : State) :
    bound_config (perform_hop s) = bound_config s := by
  rw [perform_hop_eq]
  split_ifs
  · rw [bound_config_restart_packet_receiving]; simp [bound_config]
  · simp [bound_config]
  · rfl

theorem bound_config_output_pulses (s : State) :
    bound_config (output_pulses s) = bound_config s := by
  unfold output_pulses
  split_ifs <;> simp [bound_config]

theorem bound_config_apply_failsafe (s : State) :
    bound_config (apply_failsafe s) = bound_config s := by
  rw [apply_failsafe_eq]
  split_ifs
  · show bound_config (output_pulses _) = _
    rw [bound_config_output_pulses]
    simp [bound_config]
  · rfl
  · rfl

theorem bound_config_received (cfg : Build) (s : State) :
    bound_config (received cfg s) = bound_config s := by
  simp [bound_config, received, drained, restart_hop_timer, rf_clear_irq, rf_drain]

theorem bound_config_initialize_failsafe (s : State) :
    bound_config (initialize_failsafe s) = bound_config s := by
  simp [bound_config, initialize_failsafe, forLoop, NUMBER_OF_CHANNELS]

theorem bound_config_receive_frame (cfg : Build) (s : State) :
    bound_config (receive_frame cfg s) = bound_config s := by
  rw [receive_frame_eq]
  split_ifs
  · rfl
  · show bound_config (output_pulses _) = _
    rw [bound_config_output_pulses]
    exact bound_config_received cfg s
  · exact bound_config_received cfg s
  · rw [bound_config_initialize_failsafe]; exact bound_config_received cfg s
  · exact bound_config_received cfg s

/-! ## The bound configuration changes only on a completed handshake -/

theorem bound_config_process_systick (s : State) :
    bound_config (process_systick s) = bound_config s := by
  have h := congrArg bound_config (process_systick_footprint s)
  exact h

theorem bound_config_process_bind_button (s : State) :
    bound_config (process_bind_button s) = bound_config s := by
  have h := congrArg bound_config (process_bind_button_footprint s)
  exact h

theorem bound_config_process_led (cfg : Build) (s : State) :
    bound_config (process_led cfg s) = bound_config s := by
  have h := congrArg bound_config (process_led_footprint cfg s)
  exact h

theorem bound_config_process_receiving (cfg : Build) (s : State) :
    bound_config (process_receiving cfg s) = bound_config s := by
  rw [process_receiving_eq]
  split_ifs
  · rfl
  · rw [bound_config_receive_frame, bound_config_perform_hop, bound_config_apply_failsafe]

theorem bound_config_bind_switch (s : State)
    (h : ¬ (s.bind_state = 3 ∧ stage_accepts 3 s.checksum s.payload)) :
    bound_config (bind_switch s) = bound_config s := by
  unfold stage_accepts at h
  unfold bind_switch
  split_ifs
  all_goals first
    | (exfalso; apply h; refine ⟨by assumption, ?_⟩; rw [if_neg (by decide)];
       exact ⟨by assumption, by assumption, by assumption⟩)
    | simp [bound_config, forLoop, copy_hop_block]

theorem bound_config_binding_done (s : State) :
    bound_config (binding_done s) = bound_config s := by
  unfold binding_done
  rw [bound_config_restart_packet_receiving]
  simp [bound_config]

theorem bound_config_drained (s : State) :
    bound_config (drained s) = bound_config s := by
  simp [bound_config, drained, rf_clear_irq, rf_drain]

theorem bound_config_process_binding (s : State) (h : ¬ accepts_stage3 s) :
    bound_config (process_binding s) = bound_config s := by
  rw [process_binding_eq]
  split_ifs with h1 h2 h3 h4
  · rfl
  · simp [bound_config]
  · exact bound_config_binding_done s
  · rfl
  · rw [bound_config_bind_switch, bound_config_drained]
    intro hacc
    apply h
    exact ⟨by simpa using h1, h3, by simpa using h4, hacc.1, hacc.2⟩

theorem bound_config_dispatch (cfg : Build) (s : State) (tick button : Bool)
    (h : ¬ dispatch_accepts_stage3 tick button s) :
    bound_config (dispatch cfg tick button s) = bound_config s := by
  unfold dispatch process_receiver
  dsimp only
  rw [bound_config_process_led, bound_config_process_receiving,
    bound_config_process_binding _ h, bound_config_process_bind_button,
    bound_config_process_systick]
  simp [bound_config]

theorem write_ppm_footprint (cfg : Build) (v : Bool) (s : State) :
    write_ppm cfg v s = { s with GPIO_PPM := (write_ppm cfg v s).GPIO_PPM,
                                 GPIO_CH4 := (write_ppm cfg v s).GPIO_CH4 } := by
  unfold write_ppm
  split_ifs <;> rfl

theorem write_ch4_footprint (cfg : Build) (v : Bool) (s : State) :
    write_ch4 cfg v s = { s with GPIO_PPM := (write_ch4 cfg v s).GPIO_PPM,
                                 GPIO_CH4 := (write_ch4 cfg v s).GPIO_CH4 } := by
  unfold write_ch4
  split_ifs <;> rfl

/-- The handler writes the pulse timer and its run bit, the step counter and
the output pins, nothing else. -/
theorem servo_pulse_step_footprint (cfg : Build) (s : State) :
    servo_pulse_step cfg s =
      { s with GPIO_CH1 := (servo_pulse_step cfg s).GPIO_CH1,
               GPIO_CH2 := (servo_pulse_step cfg s).GPIO_CH2,
               GPIO_CH3 := (servo_pulse_step cfg s).GPIO_CH3,
               GPIO_CH4 := (servo_pulse_step cfg s).GPIO_CH4,
               GPIO_PPM := (servo_pulse_step cfg s).GPIO_PPM,
               TIMER1 := (servo_pulse_step cfg s).TIMER1,
               TCON_tr1 := (servo_pulse_step cfg s).TCON_tr1,
               servo_pulse_state := (servo_pulse_step cfg s).servo_pulse_state } := by
  unfold servo_pulse_step write_ch4
  dsimp only
  split_ifs <;> rfl

theorem bound_config_write_ppm (cfg : Build) (v : Bool) (s : State) :
    bound_config (write_ppm cfg v s) = bound_config s := by
  have h := congrArg bound_config (write_ppm_footprint cfg v s)
  exact h

theorem bound_config_servo_pulse_step (cfg : Build) (s : State) :
    bound_config (servo_pulse_step cfg s) = bound_config s := by
  have h := congrArg bound_config (servo_pulse_step_footprint cfg s)
  exact h

theorem bound_config_servo_pulse_timer_handler (cfg : Build) (s : State) :
    bound_config (servo_pulse_timer_handler cfg s) = bound_config s := by
  unfold servo_pulse_timer_handler
  dsimp only
  rw [bound_config_write_ppm, bound_config_servo_pulse_step]
  show bound_config (write_ppm cfg false _) = _
  rw [bound_config_write_ppm]
  simp [bound_config]

theorem bound_config_run (cfg : Build) (es : List Event) (s : State)
    (h : stage3_free cfg es s) : bound_config (run cfg es s) = bound_config s := by
  induction es generalizing s with
  | nil => rfl
  | cons e es ih =>
    rw [run_cons]
    cases e with
    | dispatch tick button =>
      rw [ih _ h.2]
      exact bound_config_dispatch cfg s tick button h.1
    | frame f => rw [ih _ h]; rfl
    | rf_interrupt => rw [ih _ h]; rfl
    | hop_timer => rw [ih _ h]; rfl
    | servo_pulse_timer =>
      rw [ih _ h]
      exact bound_config_servo_pulse_timer_handler cfg s

/-- C4: a dispatch in which no conforming stage-3 bind packet is accepted leaves
`model_address`, `hop_data`, `stickdata_packetid` and `failsafe_packetid`
unchanged; so does every run of dispatches and interrupts without such a
dispatch, in particular a bind session that is abandoned by timeout after its
stages 0, 1 and 2 were accepted. -/
theorem C4_configuration_kept_without_stage3 (cfg : Build) (s : State) :
    (∀ tick button : Bool, ¬ dispatch_accepts_stage3 tick button s →
      (dispatch cfg tick button s).model_address = s.model_address ∧
      (dispatch cfg tick button s).hop_data = s.hop_data ∧
      (dispatch cfg tick button s).stickdata_packetid = s.stickdata_packetid ∧
      (dispatch cfg tick button s).failsafe_packetid = s.failsafe_packetid) ∧
    (∀ es : List Event, stage3_free cfg es s →
      (run cfg es s).model_address = s.model_address ∧
      (run cfg es s).hop_data = s.hop_data ∧
      (run cfg es s).stickdata_packetid = s.stickdata_packetid ∧
      (run cfg es s).failsafe_packetid = s.failsafe_packetid) := by
  constructor
  · intro tick button h
    have e := bound_config_dispatch cfg s tick button h
    unfold bound_config at e
    simp only [Prod.mk.injEq] at e
    exact e
  · intro es h
    have e := bound_config_run cfg es s h
    unfold bound_config at e
    simp only [Prod.mk.injEq] at e
    exact e

set_option maxRecDepth 100000 in
/-- C4, at a concrete input: a receiver bound to the blank record enters a bind
session in which stages 0, 1 and 2 are accepted for the address 9,8,7,6,5 with
the 4-channel marker; its address and identifiers stay those of the old bind. -/
theorem C4_configuration_kept_without_stage3_witness :
    stage3_free cfg0 three_stage_trace fresh_bind_session ∧
    (run cfg0 three_stage_trace fresh_bind_session).bind_state = 3 ∧
    ((run cfg0 three_stage_trace fresh_bind_session).model_address
        = fresh_bind_session.model_address ∧
      (run cfg0 three_stage_trace fresh_bind_session).hop_data = fresh_bind_session.hop_data ∧
      (run cfg0 three_stage_trace fresh_bind_session).stickdata_packetid
        = fresh_bind_session.stickdata_packetid ∧
      (run cfg0 three_stage_trace fresh_bind_session).failsafe_packetid
        = fresh_bind_session.failsafe_packetid) :=
  ⟨⟨by decide, by decide, by decide, by decide, trivial⟩, by decide,
   (C4_configuration_kept_without_stage3 cfg0 fresh_bind_session).2 three_stage_trace
     ⟨by decide, by decide, by decide, by decide, trivial⟩⟩

/-! ## Stick data -/

theorem pending_output_pulses (s : State) : pending (output_pulses s) = pending s := by
  unfold output_pulses
  split_ifs <;> simp [pending]

theorem pending_apply_failsafe (s : State) : pending (apply_failsafe s) = pending s := by
  rw [apply_failsafe_eq]
  split_ifs
  · show pending (output_pulses _) = _
    rw [pending_output_pulses]
    simp [pending]
  · rfl
  · rfl

theorem pending_perform_hop (s : State)
    (h : s.perform_hop_requested = false ∨
      (s.hops_without_packet + 1) % 256 ≤ MAX_HOP_WITHOUT_PACKET) :
    pending (perform_hop s) = pending s := by
  rw [perform_hop_eq]
  split_ifs with h1 h2
  · rcases h with h | h
    · rw [h] at h1; exact absurd h1 (by decide)
    · omega
  · simp [pending]
  · rfl

theorem channels_output_pulses (s : State) : (output_pulses s).channels = s.channels := by
  unfold output_pulses
  split_ifs <;> rfl

theorem active_slot_output_pulses (s : State) :
    active_slot (output_pulses s) = [s.channels 0, s.channels 1, s.channels 2, s.channels 3] := by
  by_cases h : s.use_buffer_0 = true
  · simp [output_pulses, active_slot, h]
  · simp [output_pulses, active_slot, h]

theorem rd16_split (v : Nat) (h : v < 65536) (p : List Nat) (hi lo : Nat)
    (hhi : rd p hi = v / 256) (hlo : rd p lo = v % 256) : rd16 p hi lo = v := by
  unfold rd16
  rw [hhi, hlo]
  omega

/-- A pending stick-data frame handled by `receive_frame`. -/
theorem receive_frame_stick (cfg : Build) (t : State) (f : List Nat) (q : List (List Nat))
    (hr : t.rf_int_fired = true) (hq : t.rf_rx_fifo = q ++ [f])
    (hid : rd f 7 = t.stickdata_packetid) :
    receive_frame cfg t =
      { output_pulses
          { received cfg t with
            channels := (write16 (write16 (write16 (write16 t.channels
              0 (rd16 f 1 0)) 1 (rd16 f 3 2)) 2 (rd16 f 5 4)) 3 (rd16 f 9 6)) } with
        successful_stick_data := true,
        failsafe_timer := FAILSAFE_TIMEOUT,
        led_state := LED_STATE_RECEIVING } := by
  have hp : (received cfg t).payload = rf_read_fifo f := by
    show drain_fifo t.rf_rx_fifo t.payload = _
    rw [hq, drain_fifo_snoc]
  have hs : (received cfg t).stickdata_packetid = t.stickdata_packetid := rfl
  have hc : (received cfg t).channels = t.channels := rfl
  rw [receive_frame_eq, if_neg (by simp [hr]), hp, hs, hc, rd_rf_read_fifo f 7 (by omega),
    if_pos hid]
  simp only [rd16, rd_rf_read_fifo f 0 (by omega), rd_rf_read_fifo f 1 (by omega),
    rd_rf_read_fifo f 2 (by omega), rd_rf_read_fifo f 3 (by omega),
    rd_rf_read_fifo f 4 (by omega), rd_rf_read_fifo f 5 (by omega),
    rd_rf_read_fifo f 6 (by omega), rd_rf_read_fifo f 9 (by omega)]

/-! ## The shape of a bind step -/

theorem bind_switch_eq (s : State) :
    bind_switch s =
      if s.bind_state = 0 then
        if rd s.payload 0 = 0xff then
          if (rd s.payload 1 = 0xaa ∧ rd s.payload 2 = 0x55) ∨
             (rd s.payload 1 = 0xab ∧ rd s.payload 2 = 0x56) then
            { s with
              bind_storage_area := forLoop 5 (fun i a => a.set i (rd s.payload (3 + i)))
                (s.bind_storage_area.set (PROTOCOLID_INDEX s) (rd s.payload 1)),
              checksum := forLoop 5 (fun i c => (c + rd s.payload (3 + i)) % 65536) 0,
              bind_state := 1 }
          else s
        else s
      else if s.bind_state = 1 then
        if rd s.payload 0 = s.checksum % 256 then
          if rd s.payload 1 = s.checksum / 256 then
            if rd s.payload 2 = 0 then
              { s with bind_storage_area := (copy_hop_block 5 7 s).bind_storage_area,
                       bind_state := 2 }
            else s
          else s
        else s
      else if s.bind_state = 2 then
        if rd s.payload 0 = s.checksum % 256 then
          if rd s.payload 1 = s.checksum / 256 then
            if rd s.payload 2 = 1 then
              { s with bind_storage_area := (copy_hop_block 12 7 s).bind_storage_area,
                       bind_state := 3 }
            else s
          else s
        else s
      else if s.bind_state = 3 then
        if rd s.payload 0 = s.checksum % 256 then
          if rd s.payload 1 = s.checksum / 256 then
            if rd s.payload 2 = 2 then
              binding_done (parse_bind_data (save_persistent_storage
                { s with bind_storage_area := (copy_hop_block 19 6 s).bind_storage_area }))
            else s
          else s
        else s
      else { s with bind_state := 0 } := rfl

/-- A call of `bind_switch` changes nothing, or it only advances the handshake
(storage area, checksum, stage), or it completes the handshake: save, reparse,
`binding_done`. -/
theorem bind_switch_shape (s : State) :
    bind_switch s = s ∨
    (∃ area ck st, bind_switch s =
      { s with bind_storage_area := area, checksum := ck, bind_state := st }) ∨
    (∃ area, bind_switch s = binding_done (parse_bind_data (save_persistent_storage
      { s with bind_storage_area := area }))) := by
  have key : ∀ r, r = bind_switch s → (r = s ∨
      (∃ area ck st, r = { s with bind_storage_area := area, checksum := ck, bind_state := st }) ∨
      (∃ area, r = binding_done (parse_bind_data (save_persistent_storage
        { s with bind_storage_area := area })))) := by
    intro r hr
    rw [bind_switch_eq] at hr
    split_ifs at hr
    · exact Or.inr (Or.inl ⟨_, _, _, hr⟩)
    · exact Or.inl hr
    · exact Or.inl hr
    · exact Or.inr (Or.inl ⟨_, _, _, hr⟩)
    · exact Or.inl hr
    · exact Or.inl hr
    · exact Or.inl hr
    · exact Or.inr (Or.inl ⟨_, _, _, hr⟩)
    · exact Or.inl hr
    · exact Or.inl hr
    · exact Or.inl hr
    · exact Or.inr (Or.inr ⟨_, hr⟩)
    · exact Or.inl hr
    · exact Or.inl hr
    · exact Or.inl hr
    · exact Or.inr (Or.inl ⟨_, _, _, hr⟩)
  exact key _ rfl

/-- The four ways a call of `process_binding` can go. -/
theorem process_binding_shape (s : State) :
    process_binding s = s ∨
    process_binding s =
      { s with led_state := LED_STATE_BINDING, binding := true, bind_state := 0,
               bind_timer := BIND_TIMEOUT, rf_rx_address := BIND_ADDRESS,
               rf_channel := BIND_CHANNEL, rf_ce := true } ∨
    process_binding s = binding_done s ∨
    (∃ area ck st, process_binding s =
      { drained s with bind_storage_area := area, checksum := ck, bind_state := st }) ∨
    (∃ area, process_binding s = binding_done (parse_bind_data (save_persistent_storage
      { drained s with bind_storage_area := area }))) := by
  have key : ∀ r, r = process_binding s → (r = s ∨
      r = { s with led_state := LED_STATE_BINDING, binding := true, bind_state := 0,
                   bind_timer := BIND_TIMEOUT, rf_rx_address := BIND_ADDRESS,
                   rf_channel := BIND_CHANNEL, rf_ce := true } ∨
      r = binding_done s ∨
      (∃ area ck st, r =
        { drained s with bind_storage_area := area, checksum := ck, bind_state := st }) ∨
      (∃ area, r = binding_done (parse_bind_data (save_persistent_storage
        { drained s with bind_storage_area := area })))) := by
    intro r hr
    rw [process_binding_eq] at hr
    split_ifs at hr
    · exact Or.inl hr
    · exact Or.inr (Or.inl hr)
    · exact Or.inr (Or.inr (Or.inl hr))
    · exact Or.inl hr
    · rcases bind_switch_shape (drained s) with h | h | h
      · exact Or.inr (Or.inr (Or.inr (Or.inl ⟨_, _, _, (hr.trans h).trans rfl⟩)))
      · obtain ⟨a, c, st, h⟩ := h
        exact Or.inr (Or.inr (Or.inr (Or.inl ⟨a, c, st, hr.trans h⟩)))
      · obtain ⟨a, h⟩ := h
        exact Or.inr (Or.inr (Or.inr (Or.inr ⟨a, hr.trans h⟩)))
  exact key _ rfl

/-! ## No failsafe before the first stick data -/

theorem outputs_restart_packet_receiving (s : State) :
    outputs (restart_packet_receiving s) = outputs s ∧
    (restart_packet_receiving s).successful_stick_data = s.successful_stick_data := by
  simp [outputs, restart_packet_receiving, stop_hop_timer, rf_clear_ce, rf_set_rx_address,
    rf_set_channel, rf_flush_rx_fifo, rf_clear_irq, rf_set_ce]

theorem outputs_binding_done (s : State) :
    outputs (binding_done s) = outputs s ∧
    (binding_done s).successful_stick_data = s.successful_stick_data := by
  unfold binding_done
  dsimp only
  rw [(outputs_restart_packet_receiving _).1, (outputs_restart_packet_receiving _).2]
  exact ⟨rfl, rfl⟩

theorem outputs_parse_bind_data (s : State) :
    outputs (parse_bind_data s) = outputs s ∧
    (parse_bind_data s).successful_stick_data = s.successful_stick_data := by
  unfold parse_bind_data
  dsimp only
  split_ifs <;> exact ⟨rfl, rfl⟩

theorem outputs_process_binding (s : State) :
    outputs (process_binding s) = outputs s ∧
    (process_binding s).successful_stick_data = s.successful_stick_data := by
  rcases process_binding_shape s with h | h | h | ⟨a, c, st, h⟩ | ⟨a, h⟩
  · rw [h]; exact ⟨rfl, rfl⟩
  · rw [h]; exact ⟨rfl, rfl⟩
  · rw [h]; exact outputs_binding_done s
  · rw [h]; exact ⟨rfl, rfl⟩
  · rw [h, (outputs_binding_done _).1, (outputs_binding_done _).2,
      (outputs_parse_bind_data _).1, (outputs_parse_bind_data _).2]
    exact ⟨rfl, rfl⟩

theorem led_state_process_binding (s : State) :
    (process_binding s).led_state = s.led_state ∨
    (process_binding s).led_state = LED_STATE_BINDING ∨
    (process_binding s).led_state = LED_STATE_IDLE := by
  rcases process_binding_shape s with h | h | h | ⟨a, c, st, h⟩ | ⟨a, h⟩
  · rw [h]; exact Or.inl rfl
  · rw [h]; exact Or.inr (Or.inl rfl)
  · rw [h]; exact Or.inr (Or.inr rfl)
  · rw [h]; exact Or.inl rfl
  · rw [h]; exact Or.inr (Or.inr rfl)

theorem view_perform_hop (s : State) :
    outputs (perform_hop s) = outputs s ∧
    (perform_hop s).successful_stick_data = s.successful_stick_data ∧
    (perform_hop s).led_state = s.led_state := by
  rw [perform_hop_eq]
  split_ifs
  · simp [outputs, restart_packet_receiving, stop_hop_timer, rf_clear_ce, rf_set_rx_address,
      rf_set_channel, rf_flush_rx_fifo, rf_clear_irq, rf_set_ce]
  · exact ⟨rfl, rfl, rfl⟩
  · exact ⟨rfl, rfl, rfl⟩

theorem payload_output_pulses (s : State) : (output_pulses s).payload = s.payload := by
  unfold output_pulses
  split_ifs <;> rfl

/-- What `receive_frame` does to the status, the stick-data flag and the
outputs: nothing, or it accepts a stick-data frame. -/
theorem view_receive_frame (cfg : Build) (s : State) :
    (outputs (receive_frame cfg s) = outputs s ∧
      (receive_frame cfg s).successful_stick_data = s.successful_stick_data ∧
      (receive_frame cfg s).led_state = s.led_state) ∨
    ((receive_frame cfg s).successful_stick_data = true ∧
      (receive_frame cfg s).led_state = LED_STATE_RECEIVING ∧
      [(receive_frame cfg s).channels 0, (receive_frame cfg s).channels 1,
        (receive_frame cfg s).channels 2, (receive_frame cfg s).channels 3]
        = stick_values (receive_frame cfg s).payload ∧
      active_slot (receive_frame cfg s) = stick_values (receive_frame cfg s).payload) := by
  rw [receive_frame_eq]
  split_ifs
  · exact Or.inl ⟨rfl, rfl, rfl⟩
  · refine Or.inr ⟨rfl, rfl, ?_, ?_⟩
    · show [(output_pulses _).channels 0, (output_pulses _).channels 1,
        (output_pulses _).channels 2, (output_pulses _).channels 3]
        = stick_values (output_pulses _).payload
      rw [channels_output_pulses, payload_output_pulses]
      simp [write16, stick_values]
    · show active_slot (output_pulses _) = stick_values (output_pulses _).payload
      rw [active_slot_output_pulses, payload_output_pulses]
      simp [write16, stick_values]
  · exact Or.inl ⟨rfl, rfl, rfl⟩
  · exact Or.inl ⟨rfl, rfl, rfl⟩
  · exact Or.inl ⟨rfl, rfl, rfl⟩

theorem apply_failsafe_before_data (s : State) (h : s.successful_stick_data = false) :
    apply_failsafe s = s := by
  rw [apply_failsafe_eq, if_neg (by simp [h])]

theorem successful_apply_failsafe (s : State) :
    (apply_failsafe s).successful_stick_data = s.successful_stick_data := by
  rw [apply_failsafe_eq]
  split_ifs
  · show (output_pulses _).successful_stick_data = _
    unfold output_pulses
    split_ifs <;> rfl
  · rfl
  · rfl

theorem successful_process_receiving (cfg : Build) (s : State)
    (h : s.successful_stick_data = true) :
    (process_receiving cfg s).successful_stick_data = true := by
  rw [process_receiving_eq]
  split_ifs
  · exact h
  · rcases view_receive_frame cfg (perform_hop (apply_failsafe s)) with h1 | h1
    · rw [h1.2.1, (view_perform_hop _).2.1, successful_apply_failsafe]
      exact h
    · exact h1.1

theorem process_receiving_before_data (cfg : Build) (s : State)
    (h : s.successful_stick_data = false) :
    (outputs (process_receiving cfg s) = outputs s ∧
      (process_receiving cfg s).successful_stick_data = false ∧
      (process_receiving cfg s).led_state = s.led_state) ∨
    ((process_receiving cfg s).successful_stick_data = true ∧
      (process_receiving cfg s).led_state = LED_STATE_RECEIVING ∧
      [(process_receiving cfg s).channels 0, (process_receiving cfg s).channels 1,
        (process_receiving cfg s).channels 2, (process_receiving cfg s).channels 3]
        = stick_values (process_receiving cfg s).payload ∧
      active_slot (process_receiving cfg s) = stick_values (process_receiving cfg s).payload) := by
  rw [process_receiving_eq]
  split_ifs
  · exact Or.inl ⟨rfl, h, rfl⟩
  · rw [apply_failsafe_before_data s h]
    rcases view_receive_frame cfg (perform_hop s) with h1 | h1
    · left
      rw [h1.1, h1.2.1, h1.2.2, (view_perform_hop s).1, (view_perform_hop s).2.1,
        (view_perform_hop s).2.2]
      exact ⟨rfl, h, rfl⟩
    · exact Or.inr h1

theorem view_before_receiving (s : State) (tick button : Bool) :
    outputs (process_binding (process_bind_button
      (process_systick { s with systick := tick, GPIO_BIND := button }))) = outputs s ∧
    (process_binding (process_bind_button
      (process_systick { s with systick := tick, GPIO_BIND := button }))).successful_stick_data
      = s.successful_stick_data ∧
    ((process_binding (process_bind_button
      (process_systick { s with systick := tick, GPIO_BIND := button }))).led_state
      = s.led_state ∨
     (process_binding (process_bind_button
      (process_systick { s with systick := tick, GPIO_BIND := button }))).led_state
      = LED_STATE_BINDING ∨
     (process_binding (process_bind_button
      (process_systick { s with systick := tick, GPIO_BIND := button }))).led_state
      = LED_STATE_IDLE) := by
  have e1 := process_systick_footprint { s with systick := tick, GPIO_BIND := button }
  have e2 := process_bind_button_footprint
    (process_systick { s with systick := tick, GPIO_BIND := button })
  have o1 : outputs (process_bind_button
      (process_systick { s with systick := tick, GPIO_BIND := button })) = outputs s := by
    have h1 := congrArg outputs e1
    have h2 := congrArg outputs e2
    exact h2.trans h1
  have s1 : (process_bind_button
      (process_systick { s with systick := tick, GPIO_BIND := button })).successful_stick_data
      = s.successful_stick_data := by
    have h1 := congrArg State.successful_stick_data e1
    have h2 := congrArg State.successful_stick_data e2
    exact h2.trans h1
  have l1 : (process_bind_button
      (process_systick { s with systick := tick, GPIO_BIND := button })).led_state
      = s.led_state := by
    have h1 := congrArg State.led_state e1
    have h2 := congrArg State.led_state e2
    exact h2.trans h1
  refine ⟨(outputs_process_binding _).1.trans o1, (outputs_process_binding _).2.trans s1, ?_⟩
  rcases led_state_process_binding (process_bind_button
      (process_systick { s with systick := tick, GPIO_BIND := button })) with h | h | h
  · exact Or.inl (h.trans l1)
  · exact Or.inr (Or.inl h)
  · exact Or.inr (Or.inr h)

theorem view_process_led (cfg : Build) (s : State) :
    outputs (process_led cfg s) = outputs s ∧
    (process_led cfg s).successful_stick_data = s.successful_stick_data ∧
    (process_led cfg s).led_state = s.led_state ∧
    (process_led cfg s).payload = s.payload ∧
    active_slot (process_led cfg s) = active_slot s := by
  have e := process_led_footprint cfg s
  have h1 := congrArg outputs e
  have h2 := congrArg State.successful_stick_data e
  have h3 := congrArg State.led_state e
  have h4 := congrArg State.payload e
  have h5 := congrArg active_slot e
  exact ⟨h1, h2, h3, h4, h5⟩

theorem dispatch_eq (cfg : Build) (s : State) (tick button : Bool) :
    dispatch cfg tick button s =
      process_led cfg (process_receiving cfg (process_binding (process_bind_button
        (process_systick { s with systick := tick, GPIO_BIND := button })))) := rfl

/-- A dispatch entered before any stick data was accepted, from a status
other than Failsafe. -/
theorem dispatch_before_data (cfg : Build) (s : State) (tick button : Bool)
    (h : s.successful_stick_data = false) (hl : s.led_state ≠ LED_STATE_FAILSAFE) :
    (dispatch cfg tick button s).led_state ≠ LED_STATE_FAILSAFE ∧
    ((dispatch cfg tick button s).successful_stick_data = false →
      outputs (dispatch cfg tick button s) = outputs s) ∧
    ((dispatch cfg tick button s).successful_stick_data = true →
      [(dispatch cfg tick button s).channels 0, (dispatch cfg tick button s).channels 1,
        (dispatch cfg tick button s).channels 2, (dispatch cfg tick button s).channels 3]
        = stick_values (dispatch cfg tick button s).payload ∧
      active_slot (dispatch cfg tick button s)
        = stick_values (dispatch cfg tick button s).payload) := by
  obtain ⟨o, sd, l⟩ := view_before_receiving s tick button
  have hl' : (process_binding (process_bind_button
      (process_systick { s with systick := tick, GPIO_BIND := button }))).led_state
      ≠ LED_STATE_FAILSAFE := by
    rcases l with l | l | l
    · rw [l]; exact hl
    · rw [l]; decide
    · rw [l]; decide
  rw [dispatch_eq]
  obtain ⟨lo, ls, ll, lp, la⟩ := view_process_led cfg (process_receiving cfg (process_binding
    (process_bind_button (process_systick { s with systick := tick, GPIO_BIND := button }))))
  rw [ls, ll, lp, la, lo]
  have v := view_process_led cfg (process_receiving cfg (process_binding
    (process_bind_button (process_systick { s with systick := tick, GPIO_BIND := button }))))
  have c : ∀ k, (process_led cfg (process_receiving cfg (process_binding (process_bind_button
      (process_systick { s with systick := tick, GPIO_BIND := button }))))).channels k =
      (process_receiving cfg (process_binding (process_bind_button
      (process_systick { s with systick := tick, GPIO_BIND := button })))).channels k := by
    intro k
    have e := congrArg State.channels (process_led_footprint cfg (process_receiving cfg
      (process_binding (process_bind_button
        (process_systick { s with systick := tick, GPIO_BIND := button })))))
    exact congrFun e k
  rw [c 0, c 1, c 2, c 3]
  rcases process_receiving_before_data cfg _ (sd.trans h) with r | r
  · refine ⟨?_, ?_, ?_⟩
    · rw [r.2.2]; exact hl'
    · intro _; rw [r.1]; exact o
    · intro ht; rw [r.2.1] at ht; exact absurd ht (by decide)
  · refine ⟨?_, ?_, ?_⟩
    · rw [r.2.1]; decide
    · intro hf; rw [r.1] at hf; exact absurd hf (by decide)
    · intro _; exact r.2.2

theorem dispatch_after_data (cfg : Build) (s : State) (tick button : Bool)
    (h : s.successful_stick_data = true) :
    (dispatch cfg tick button s).successful_stick_data = true := by
  rw [dispatch_eq, (view_process_led cfg _).2.1]
  apply successful_process_receiving
  rw [(view_before_receiving s tick button).2.1]
  exact h

theorem view_servo_pulse_timer_handler (cfg : Build) (s : State) :
    (servo_pulse_timer_handler cfg s).successful_stick_data = s.successful_stick_data ∧
    (servo_pulse_timer_handler cfg s).led_state = s.led_state := by
  have step : ∀ t : State,
      (servo_pulse_step cfg t).successful_stick_data = t.successful_stick_data ∧
      (servo_pulse_step cfg t).led_state = t.led_state := by
    intro t
    have e := servo_pulse_step_footprint cfg t
    have h1 := congrArg State.successful_stick_data e
    have h2 := congrArg State.led_state e
    exact ⟨h1, h2⟩
  have ppm : ∀ (v : Bool) (t : State),
      (write_ppm cfg v t).successful_stick_data = t.successful_stick_data ∧
      (write_ppm cfg v t).led_state = t.led_state := by
    intro v t
    have e := write_ppm_footprint cfg v t
    have h1 := congrArg State.successful_stick_data e
    have h2 := congrArg State.led_state e
    exact ⟨h1, h2⟩
  unfold servo_pulse_timer_handler
  dsimp only
  rw [(ppm true _).1, (ppm true _).2, (step _).1, (step _).2]
  exact ⟨(ppm false _).1, (ppm false _).2⟩

theorem no_failsafe_before_data_step (cfg : Build) (e : Event) (s : State)
    (h : no_failsafe_before_data s) : no_failsafe_before_data (step cfg e s) := by
  cases e with
  | dispatch tick button =>
    intro hs
    cases hsd : s.successful_stick_data with
    | true =>
      have := dispatch_after_data cfg s tick button hsd
      rw [show step cfg (Event.dispatch tick button) s = dispatch cfg tick button s from rfl] at hs
      rw [this] at hs
      exact absurd hs (by decide)
    | false => exact (dispatch_before_data cfg s tick button hsd (h hsd)).1
  | frame f => exact h
  | rf_interrupt => exact h
  | hop_timer => exact h
  | servo_pulse_timer =>
    intro hs
    have v := view_servo_pulse_timer_handler cfg s
    show (servo_pulse_timer_handler cfg s).led_state ≠ _
    rw [v.2]
    apply h
    rw [← v.1]
    exact hs

theorem no_failsafe_before_data_run (cfg : Build) (es : List Event) (s : State)
    (h : no_failsafe_before_data s) : no_failsafe_before_data (run cfg es s) := by
  induction es generalizing s with
  | nil => exact h
  | cons e es ih =>
    rw [run_cons]
    exact ih _ (no_failsafe_before_data_step cfg e s h)

theorem no_failsafe_before_data_reach (cfg : Build) (nv : List Nat) (es : List Event) :
    no_failsafe_before_data (reach cfg nv es) := by
  apply no_failsafe_before_data_run
  intro _
  show LED_STATE_IDLE ≠ LED_STATE_FAILSAFE
  decide

/-! ## Pulse generator -/

/-! ## Failsafe fallback with four channels -/

/-! ## Missed hops and resynchronisation -/

theorem hop_ctx_output_pulses (s : State) : hop_ctx (output_pulses s) = hop_ctx s := by
  unfold output_pulses
  split_ifs <;> rfl

theorem hop_ctx_apply_failsafe (s : State) : hop_ctx (apply_failsafe s) = hop_ctx s := by
  rw [apply_failsafe_eq]
  split_ifs
  · show hop_ctx (output_pulses _) = _
    rw [hop_ctx_output_pulses]
    rfl
  · rfl
  · rfl

theorem process_bind_button_released (s : State) (h : s.GPIO_BIND = BUTTON_RELEASED) :
    (process_bind_button s).binding_requested = s.binding_requested := by
  unfold process_bind_button
  dsimp only
  split_ifs with h1 h2 h3
  · rfl
  · rfl
  · rw [h] at h3; exact absurd h3 (by decide)
  · rfl

theorem restart_packet_receiving_hop (s : State) :
    (restart_packet_receiving s).hop_index = 0 ∧
    (restart_packet_receiving s).hops_without_packet = 0 ∧
    (restart_packet_receiving s).binding = s.binding ∧
    (restart_packet_receiving s).binding_requested = s.binding_requested ∧
    (restart_packet_receiving s).rf_int_fired = false ∧
    (restart_packet_receiving s).perform_hop_requested = false := by
  simp [restart_packet_receiving, stop_hop_timer, rf_clear_ce, rf_set_rx_address,
    rf_set_channel, rf_flush_rx_fifo, rf_clear_irq, rf_set_ce]

/-- The state just before `process_receiving` in a missed-hop dispatch. -/
theorem missed_hop_before_receiving (cfg : Build) (s : State) (tick : Bool)
    (hb : s.binding = false) (hq : s.binding_requested = false) (hr : s.rf_int_fired = false) :
    hop_ctx (process_binding (process_bind_button (process_systick
      { hop_timer_handler cfg s with systick := tick, GPIO_BIND := BUTTON_RELEASED }))) =
      (false, false, false, true, s.hop_index, s.hops_without_packet) := by
  have e1 := process_systick_footprint
    { hop_timer_handler cfg s with systick := tick, GPIO_BIND := BUTTON_RELEASED }
  have e2 := process_bind_button_footprint (process_systick
    { hop_timer_handler cfg s with systick := tick, GPIO_BIND := BUTTON_RELEASED })
  have g1 := congrArg State.GPIO_BIND e1
  have q2 := process_bind_button_released (process_systick
    { hop_timer_handler cfg s with systick := tick, GPIO_BIND := BUTTON_RELEASED }) g1
  have q1 := congrArg State.binding_requested e1
  have b1 := congrArg State.binding e1
  have b2 := congrArg State.binding e2
  have r1 := congrArg State.rf_int_fired e1
  have r2 := congrArg State.rf_int_fired e2
  have p1 := congrArg State.perform_hop_requested e1
  have p2 := congrArg State.perform_hop_requested e2
  have i1 := congrArg State.hop_index e1
  have i2 := congrArg State.hop_index e2
  have c1 := congrArg State.hops_without_packet e1
  have c2 := congrArg State.hops_without_packet e2
  have hb' : (process_bind_button (process_systick
      { hop_timer_handler cfg s with systick := tick, GPIO_BIND := BUTTON_RELEASED })).binding
      = false := b2.trans (b1.trans hb)
  have hq' : (process_bind_button (process_systick
      { hop_timer_handler cfg s with systick := tick, GPIO_BIND := BUTTON_RELEASED })
      ).binding_requested = false :=
    q2.trans (q1.trans hq)
  rw [process_binding_eq, if_pos hb', if_pos hq']
  unfold hop_ctx
  rw [hb', hq', r2.trans (r1.trans hr), p2.trans p1, i2.trans i1, c2.trans c1]
  rfl

/-- One missed-hop dispatch: the miss counter is incremented; when it then
exceeds `MAX_HOP_WITHOUT_PACKET` the receiver resynchronises (hop index 0,
counter 0), otherwise the hop index advances modulo 20. -/
theorem missed_hop_effect (cfg : Build) (s : State) (tick : Bool)
    (hb : s.binding = false) (hq : s.binding_requested = false) (hr : s.rf_int_fired = false) :
    hop_ctx (missed_hop cfg tick s) =
      if (s.hops_without_packet + 1) % 256 > MAX_HOP_WITHOUT_PACKET then
        (false, false, false, false, 0, 0)
      else
        (false, false, false, false, (s.hop_index + 1) % NUMBER_OF_HOP_CHANNELS,
          (s.hops_without_packet + 1) % 256) := by
  have hpre := missed_hop_before_receiving cfg s tick hb hq hr
  unfold missed_hop
  rw [dispatch_eq]
  generalize process_binding (process_bind_button (process_systick
      { hop_timer_handler cfg s with systick := tick, GPIO_BIND := BUTTON_RELEASED })) = p
    at hpre ⊢
  have hl := congrArg hop_ctx (process_led_footprint cfg (process_receiving cfg p))
  have hl' : hop_ctx (process_led cfg (process_receiving cfg p))
      = hop_ctx (process_receiving cfg p) := hl
  rw [hl']
  have ha := hop_ctx_apply_failsafe p
  rw [hpre] at ha
  generalize hA : apply_failsafe p = a at ha
  unfold hop_ctx at ha hpre
  simp only [Prod.mk.injEq] at ha hpre
  obtain ⟨a1, a2, a3, a4, a5, a6⟩ := ha
  rw [process_receiving_eq, if_neg (by simp [hpre.1]), hA, perform_hop_eq, if_pos a4]
  by_cases hgt : (s.hops_without_packet + 1) % 256 > MAX_HOP_WITHOUT_PACKET
  · rw [if_pos hgt, if_pos (by rw [a6]; exact hgt)]
    obtain ⟨r1, r2, r3, r4, r5, r6⟩ := restart_packet_receiving_hop
      { a with perform_hop_requested := false,
               hops_without_packet := (a.hops_without_packet + 1) % 256 }
    rw [receive_frame_eq, if_pos r5]
    unfold hop_ctx
    rw [r1, r2, r3, r4, r5, r6]
    simp [a1, a2]
  · rw [if_neg hgt, if_neg (by rw [a6]; exact hgt), receive_frame_eq, if_pos (by exact a3)]
    simp [hop_ctx, a1, a2, a3, a5, a6]

theorem missed_hops_cons (cfg : Build) (tick : Bool) (ticks : List Bool) (s : State) :
    missed_hops cfg (tick :: ticks) s = missed_hops cfg ticks (missed_hop cfg tick s) := rfl

/-- Below the threshold every missed hop only counts. -/
theorem missed_hops_below_threshold (cfg : Build) (ticks : List Bool) (s : State) (c : Nat)
    (hb : s.binding = false) (hq : s.binding_requested = false) (hr : s.rf_int_fired = false)
    (hc : s.hops_without_packet = c) (hle : c + ticks.length ≤ MAX_HOP_WITHOUT_PACKET) :
    (missed_hops cfg ticks s).hops_without_packet = c + ticks.length ∧
    (missed_hops cfg ticks s).hop_index % NUMBER_OF_HOP_CHANNELS
      = (s.hop_index + ticks.length) % NUMBER_OF_HOP_CHANNELS := by
  induction ticks generalizing s c with
  | nil => exact ⟨hc, rfl⟩
  | cons t ts ih =>
    have hlen : (t :: ts).length = ts.length + 1 := rfl
    rw [hlen] at hle ⊢
    unfold MAX_HOP_WITHOUT_PACKET at hle
    have he := missed_hop_effect cfg s t hb hq hr
    rw [hc, if_neg (by unfold MAX_HOP_WITHOUT_PACKET; omega)] at he
    unfold hop_ctx at he
    simp only [Prod.mk.injEq] at he
    obtain ⟨e1, e2, e3, -, e5, e6⟩ := he
    rw [missed_hops_cons]
    have hc' : (missed_hop cfg t s).hops_without_packet = c + 1 := by
      rw [e6]; omega
    obtain ⟨i1, i2⟩ := ih (missed_hop cfg t s) (c + 1) e1 e2 e3 hc'
      (by unfold MAX_HOP_WITHOUT_PACKET; omega)
    refine ⟨by rw [i1]; omega, ?_⟩
    rw [i2, e5]
    unfold NUMBER_OF_HOP_CHANNELS
    omega

/-- The missed hop that takes the counter past the threshold resynchronises. -/
theorem missed_hops_reach_threshold (cfg : Build) (ticks : List Bool) (s : State) (c : Nat)
    (hb : s.binding = false) (hq : s.binding_requested = false) (hr : s.rf_int_fired = false)
    (hc : s.hops_without_packet = c) (hcle : c ≤ MAX_HOP_WITHOUT_PACKET)
    (hlen : c + ticks.length = MAX_HOP_WITHOUT_PACKET + 1) :
    (missed_hops cfg ticks s).hop_index = 0 ∧
    (missed_hops cfg ticks s).hops_without_packet = 0 := by
  induction ticks generalizing s c with
  | nil =>
    exfalso
    have h0 : ([] : List Bool).length = 0 := rfl
    rw [h0] at hlen
    omega
  | cons t ts ih =>
    have hl : (t :: ts).length = ts.length + 1 := rfl
    rw [hl] at hlen
    unfold MAX_HOP_WITHOUT_PACKET at hlen
    have he := missed_hop_effect cfg s t hb hq hr
    rw [hc] at he
    rw [missed_hops_cons]
    by_cases hlast : c = 15
    · have hts : ts = [] := by
        apply List.eq_nil_of_length_eq_zero
        omega
      rw [if_pos (by unfold MAX_HOP_WITHOUT_PACKET; omega)] at he
      unfold hop_ctx at he
      simp only [Prod.mk.injEq] at he
      rw [hts]
      exact ⟨he.2.2.2.2.1, he.2.2.2.2.2⟩
    · rw [if_neg (by unfold MAX_HOP_WITHOUT_PACKET; omega)] at he
      unfold hop_ctx at he
      simp only [Prod.mk.injEq] at he
      obtain ⟨e1, e2, e3, -, -, e6⟩ := he
      have hc' : (missed_hop cfg t s).hops_without_packet = c + 1 := by
        rw [e6]; omega
      unfold MAX_HOP_WITHOUT_PACKET at hcle
      exact ih (missed_hop cfg t s) (c + 1) e1 e2 e3 hc'
        (by unfold MAX_HOP_WITHOUT_PACKET; omega) (by unfold MAX_HOP_WITHOUT_PACKET; omega)

/-- C8 (amended): starting from any hop index and a miss counter of 0, the
first 15 consecutive missed-hop dispatches only count (after `k ≤ 15` of them
the miss counter is `k`), and after 16 of them, one more than
`MAX_HOP_WITHOUT_PACKET`, the hop index is 0 and the miss counter is 0. -/
theorem C8_resync_after_sixteen_missed_hops (cfg : Build) (s : State) (ticks : List Bool)
    (hb : s.binding = false) (hq : s.binding_requested = false) (hr : s.rf_int_fired = false)
    (hc : s.hops_without_packet = 0) :
    (ticks.length ≤ MAX_HOP_WITHOUT_PACKET →
      (missed_hops cfg ticks s).hops_without_packet = ticks.length) ∧
    (ticks.length = MAX_HOP_WITHOUT_PACKET + 1 →
      (missed_hops cfg ticks s).hop_index = 0 ∧
      (missed_hops cfg ticks s).hops_without_packet = 0) := by
  constructor
  · intro hlen
    have h := (missed_hops_below_threshold cfg ticks s 0 hb hq hr hc (by omega)).1
    omega
  · intro hlen
    exact missed_hops_reach_threshold cfg ticks s 0 hb hq hr hc (Nat.zero_le _) (by omega)

set_option maxRecDepth 1000000 in
/-- C8 (amended), at a concrete input: sixteen missed hops after a stick-data
frame was received (which starts the hop timer and clears the miss counter). -/
theorem C8_resync_after_sixteen_missed_hops_witness :
    ((reach cfg0 nv_blank receiving_trace).binding = false ∧
      (reach cfg0 nv_blank receiving_trace).binding_requested = false ∧
      (reach cfg0 nv_blank receiving_trace).rf_int_fired = false ∧
      (reach cfg0 nv_blank receiving_trace).hops_without_packet = 0 ∧
      (List.replicate 16 true).length = MAX_HOP_WITHOUT_PACKET + 1) ∧
    ((missed_hops cfg0 (List.replicate 16 true)
        (reach cfg0 nv_blank receiving_trace)).hop_index = 0 ∧
      (missed_hops cfg0 (List.replicate 16 true)
        (reach cfg0 nv_blank receiving_trace)).hops_without_packet = 0) :=
  ⟨by decide,
   (C8_resync_after_sixteen_missed_hops cfg0 (reach cfg0 nv_blank receiving_trace)
      (List.replicate 16 true) (by decide) (by decide) (by decide) (by decide)).2 (by decide)⟩

set_option maxRecDepth 1000000 in
/-- C8 as stated fails: a stick-data frame has just been received (hop timer
running, hop index 0, miss counter 0); 15 consecutive missed-hop dispatches
later the hop index is 15 and the miss counter is 15. -/
theorem C8_counterexample_fifteen_missed_hops :
    (reach cfg0 nv_blank receiving_trace).T2CON = 1 ∧
    (reach cfg0 nv_blank receiving_trace).hop_index = 0 ∧
    (reach cfg0 nv_blank receiving_trace).hops_without_packet = 0 ∧
    (List.replicate 15 true).length = MAX_HOP_WITHOUT_PACKET ∧
    (missed_hops cfg0 (List.replicate 15 true)
      (reach cfg0 nv_blank receiving_trace)).hop_index = 15 ∧
    (missed_hops cfg0 (List.replicate 15 true)
      (reach cfg0 nv_blank receiving_trace)).hops_without_packet = 15 := by
  decide

/-! ## Bounds of the hop index and of the miss counter -/

theorem hop_bounds_of_eq (s t : State) (hi : t.hop_index = s.hop_index)
    (hc : t.hops_without_packet = s.hops_without_packet) (h : hop_bounds s) : hop_bounds t := by
  unfold hop_bounds at h ⊢
  rw [hi, hc]
  exact h

theorem hop_bounds_of_zero (t : State) (hi : t.hop_index = 0)
    (hc : t.hops_without_packet = 0) : hop_bounds t := by
  unfold hop_bounds
  rw [hi, hc]
  exact ⟨Nat.zero_le _, Nat.zero_le _⟩

theorem hop_bounds_binding_done (s : State) : hop_bounds (binding_done s) := by
  unfold binding_done
  dsimp only
  exact hop_bounds_of_zero _ (restart_packet_receiving_hop _).1
    (restart_packet_receiving_hop _).2.1

theorem hop_bounds_process_binding (s : State) (h : hop_bounds s) :
    hop_bounds (process_binding s) := by
  rcases process_binding_shape s with e | e | e | ⟨a, c, st, e⟩ | ⟨a, e⟩
  · rw [e]; exact h
  · rw [e]; exact hop_bounds_of_eq s _ rfl rfl h
  · rw [e]; exact hop_bounds_binding_done s
  · rw [e]; exact hop_bounds_of_eq s _ rfl rfl h
  · rw [e]; exact hop_bounds_binding_done _

theorem hop_bounds_perform_hop (s : State) (h : hop_bounds s) : hop_bounds (perform_hop s) := by
  rw [perform_hop_eq]
  split_ifs with h1 h2
  · exact hop_bounds_of_zero _ (restart_packet_receiving_hop _).1
      (restart_packet_receiving_hop _).2.1
  · unfold hop_bounds
    constructor
    · show (s.hop_index + 1) % NUMBER_OF_HOP_CHANNELS ≤ 19
      unfold NUMBER_OF_HOP_CHANNELS
      omega
    · show (s.hops_without_packet + 1) % 256 ≤ MAX_HOP_WITHOUT_PACKET
      omega
  · exact h

theorem hop_bounds_received (cfg : Build) (s : State) (h : hop_bounds s) :
    hop_bounds (received cfg s) := by
  unfold hop_bounds at h ⊢
  exact ⟨h.1, Nat.zero_le _⟩

theorem hop_bounds_receive_frame (cfg : Build) (s : State) (h : hop_bounds s) :
    hop_bounds (receive_frame cfg s) := by
  have hr := hop_bounds_received cfg s h
  rw [receive_frame_eq]
  split_ifs
  · exact h
  · have e := hop_ctx_output_pulses
      { received cfg s with
        channels := (write16 (write16 (write16 (write16 (received cfg s).channels
          0 (rd16 (received cfg s).payload 1 0))
          1 (rd16 (received cfg s).payload 3 2))
          2 (rd16 (received cfg s).payload 5 4))
          3 (rd16 (received cfg s).payload 9 6)) }
    unfold hop_ctx at e
    simp only [Prod.mk.injEq] at e
    exact hop_bounds_of_eq (received cfg s) _ e.2.2.2.2.1 e.2.2.2.2.2 hr
  · exact hop_bounds_of_eq (received cfg s) _ rfl rfl hr
  · exact hop_bounds_of_eq (received cfg s) _ rfl rfl hr
  · exact hr

theorem hop_bounds_process_receiving (cfg : Build) (s : State) (h : hop_bounds s) :
    hop_bounds (process_receiving cfg s) := by
  rw [process_receiving_eq]
  split_ifs
  · exact h
  · apply hop_bounds_receive_frame
    apply hop_bounds_perform_hop
    have e := hop_ctx_apply_failsafe s
    unfold hop_ctx at e
    simp only [Prod.mk.injEq] at e
    exact hop_bounds_of_eq s _ e.2.2.2.2.1 e.2.2.2.2.2 h

theorem hop_bounds_dispatch (cfg : Build) (s : State) (tick button : Bool)
    (h : hop_bounds s) : hop_bounds (dispatch cfg tick button s) := by
  rw [dispatch_eq]
  have e1 := process_systick_footprint { s with systick := tick, GPIO_BIND := button }
  have e2 := process_bind_button_footprint
    (process_systick { s with systick := tick, GPIO_BIND := button })
  have i1 := congrArg State.hop_index e1
  have i2 := congrArg State.hop_index e2
  have c1 := congrArg State.hops_without_packet e1
  have c2 := congrArg State.hops_without_packet e2
  have h2 : hop_bounds (process_bind_button
      (process_systick { s with systick := tick, GPIO_BIND := button })) :=
    hop_bounds_of_eq s _ (i2.trans i1) (c2.trans c1) h
  have h4 := hop_bounds_process_receiving cfg _ (hop_bounds_process_binding _ h2)
  have e5 := process_led_footprint cfg (process_receiving cfg (process_binding
    (process_bind_button (process_systick { s with systick := tick, GPIO_BIND := button }))))
  have i5 := congrArg State.hop_index e5
  have c5 := congrArg State.hops_without_packet e5
  exact hop_bounds_of_eq _ _ i5 c5 h4

theorem hop_bounds_servo_pulse_timer_handler (cfg : Build) (s : State) (h : hop_bounds s) :
    hop_bounds (servo_pulse_timer_handler cfg s) := by
  have step : ∀ t : State, (servo_pulse_step cfg t).hop_index = t.hop_index ∧
      (servo_pulse_step cfg t).hops_without_packet = t.hops_without_packet := by
    intro t
    have e := servo_pulse_step_footprint cfg t
    have h1 := congrArg State.hop_index e
    have h2 := congrArg State.hops_without_packet e
    exact ⟨h1, h2⟩
  have ppm : ∀ (v : Bool) (t : State),
      (write_ppm cfg v t).hop_index = t.hop_index ∧
      (write_ppm cfg v t).hops_without_packet = t.hops_without_packet := by
    intro v t
    have e := write_ppm_footprint cfg v t
    have h1 := congrArg State.hop_index e
    have h2 := congrArg State.hops_without_packet e
    exact ⟨h1, h2⟩
  apply hop_bounds_of_eq s _ _ _ h
  · unfold servo_pulse_timer_handler
    dsimp only
    rw [(ppm true _).1, (step _).1]
    exact (ppm false _).1
  · unfold servo_pulse_timer_handler
    dsimp only
    rw [(ppm true _).2, (step _).2]
    exact (ppm false _).2

theorem hop_bounds_step (cfg : Build) (e : Event) (s : State) (h : hop_bounds s) :
    hop_bounds (step cfg e s) := by
  cases e with
  | dispatch tick button => exact hop_bounds_dispatch cfg s tick button h
  | frame f => exact h
  | rf_interrupt => exact h
  | hop_timer => exact h
  | servo_pulse_timer => exact hop_bounds_servo_pulse_timer_handler cfg s h

theorem hop_bounds_run (cfg : Build) (es : List Event) (s : State) (h : hop_bounds s) :
    hop_bounds (run cfg es s) := by
  induction es generalizing s with
  | nil => exact h
  | cons e es ih =>
    rw [run_cons]
    exact ih _ (hop_bounds_step cfg e s h)

/-- C9: in every state reached from `init_receiver` by any sequence of
dispatches, frame arrivals, radio, hop-timer and pulse-timer interrupts, for
any stored bind record, the hop index is at most 19 and the miss counter is at
most 15; in particular after each dispatch. -/
theorem C9_hop_index_and_miss_counter_bounded (cfg : Build) (nv : List Nat) (es : List Event) :
    (reach cfg nv es).hop_index ≤ 19 ∧
    (reach cfg nv es).hops_without_packet ≤ MAX_HOP_WITHOUT_PACKET ∧
    ∀ tick button : Bool,
      (dispatch cfg tick button (reach cfg nv es)).hop_index ≤ 19 ∧
      (dispatch cfg tick button (reach cfg nv es)).hops_without_packet
        ≤ MAX_HOP_WITHOUT_PACKET := by
  have h0 : hop_bounds (init_receiver (power_on nv)) := by
    unfold init_receiver
    dsimp only
    exact hop_bounds_of_eq (restart_packet_receiving _) _ rfl rfl
      (hop_bounds_of_zero _ (restart_packet_receiving_hop _).1
        (restart_packet_receiving_hop _).2.1)
  have h := hop_bounds_run cfg es _ h0
  exact ⟨h.1, h.2, fun tick button => hop_bounds_dispatch cfg _ tick button h⟩

theorem active_slot_of_outputs (s t : State) (h : outputs s = outputs t) :
    active_slot s = active_slot t := by
  unfold outputs at h
  simp only [Prod.mk.injEq, List.cons.injEq, and_true] at h
  obtain ⟨-, hu, ⟨a0, a1, a2, a3⟩, ⟨b0, b1, b2, b3⟩⟩ := h
  unfold active_slot
  rw [hu, a0, a1, a2, a3, b0, b1, b2, b3]

/-- The failsafe fallback in general: with stick data seen before, the
failsafe timer at 0, binding inactive and no frame pending, `process_receiving`
sets the status Failsafe and the active slot to the failsafe values of
channels 1..3 followed by the unchanged `channels[3]`. -/
theorem failsafe_fallback_effect (cfg : Build) (s : State)
    (hs : s.successful_stick_data = true) (ht : s.failsafe_timer = 0)
    (hb : s.binding = false) (hr : s.rf_int_fired = false) :
    (process_receiving cfg s).led_state = LED_STATE_FAILSAFE ∧
    active_slot (process_receiving cfg s) =
      [s.failsafe 0, s.failsafe 1, s.failsafe 2, s.channels 3] := by
  have ha : apply_failsafe s =
      { output_pulses
          { s with
            channels := (write16 (write16 (write16 s.channels 0 (s.failsafe 0))
              1 (s.failsafe 1)) 2 (s.failsafe 2)) } with
        led_state := LED_STATE_FAILSAFE } := by
    rw [apply_failsafe_eq, if_pos hs, if_pos ht]
  have hctx := hop_ctx_apply_failsafe s
  have hl : (apply_failsafe s).led_state = LED_STATE_FAILSAFE := by rw [ha]
  have hslot : active_slot (apply_failsafe s) =
      [s.failsafe 0, s.failsafe 1, s.failsafe 2, s.channels 3] := by
    rw [ha]
    show active_slot (output_pulses _) = _
    rw [active_slot_output_pulses]
    simp [write16]
  obtain ⟨v1, -, v3⟩ := view_perform_hop (apply_failsafe s)
  have hfired : (perform_hop (apply_failsafe s)).rf_int_fired = false := by
    rw [perform_hop_eq]
    have hr' : (apply_failsafe s).rf_int_fired = false := by
      have h := congrArg (fun p => p.2.2.1) hctx
      exact h.trans hr
    split_ifs
    · exact (restart_packet_receiving_hop _).2.2.2.2.1
    · exact hr'
    · exact hr'
  rw [process_receiving_eq, if_neg (by simp [hb]), receive_frame_eq, if_pos hfired]
  exact ⟨v3.trans hl, (active_slot_of_outputs _ _ v1).trans hslot⟩

/-! ## A dispatch during binding is a bind step -/

theorem bind_view_binding_done (s : State) :
    bind_view (binding_done s) =
      (false, s.bind_state, s.checksum, s.bind_storage_area, s.saved_records,
       s.persistent_storage, s.model_address, s.hop_data, false, [], s.payload) := by
  simp [bind_view, binding_done, restart_packet_receiving, stop_hop_timer, rf_clear_ce,
    rf_set_rx_address, rf_set_channel, rf_flush_rx_fifo, rf_clear_irq, rf_set_ce]

theorem bind_view_parse_bind_data (s : State) :
    bind_view (parse_bind_data s) =
      (s.binding, s.bind_state, s.checksum, s.bind_storage_area, s.saved_records,
       s.persistent_storage,
       (List.range ADDRESS_WIDTH).map (fun i => rd s.bind_storage_area i),
       (List.range NUMBER_OF_HOP_CHANNELS).map (fun i => rd s.bind_storage_area (ADDRESS_WIDTH + i)),
       s.rf_int_fired, s.rf_rx_fifo, s.payload) := by
  unfold parse_bind_data
  dsimp only
  split_ifs <;> rfl

theorem bind_view_binding_done_congr (a b : State) (h : bind_view a = bind_view b) :
    bind_view (binding_done a) = bind_view (binding_done b) := by
  rw [bind_view_binding_done, bind_view_binding_done]
  unfold bind_view at h
  simp only [Prod.mk.injEq] at h
  obtain ⟨-, e2, e3, e4, e5, e6, e7, e8, -, -, e11⟩ := h
  rw [e2, e3, e4, e5, e6, e7, e8, e11]

theorem bind_view_parse_bind_data_congr (a b : State) (h : bind_view a = bind_view b) :
    bind_view (parse_bind_data a) = bind_view (parse_bind_data b) := by
  rw [bind_view_parse_bind_data, bind_view_parse_bind_data]
  unfold bind_view at h
  simp only [Prod.mk.injEq] at h
  obtain ⟨e1, e2, e3, e4, e5, e6, -, -, e9, e10, e11⟩ := h
  rw [e1, e2, e3, e4, e5, e6, e9, e10, e11]

theorem bind_view_save_persistent_storage_congr (a b : State) (h : bind_view a = bind_view b) :
    bind_view (save_persistent_storage a) = bind_view (save_persistent_storage b) := by
  unfold bind_view at h
  simp only [Prod.mk.injEq] at h
  obtain ⟨e1, e2, e3, e4, e5, e6, e7, e8, e9, e10, e11⟩ := h
  simp only [bind_view, save_persistent_storage, e1, e2, e3, e4, e5, e7, e8, e9, e10, e11]

theorem bind_view_bind_switch (a b : State) (h : bind_view a = bind_view b) :
    bind_view (bind_switch a) = bind_view (bind_switch b) := by
  have h' := h
  unfold bind_view at h'
  simp only [Prod.mk.injEq] at h'
  obtain ⟨e1, e2, e3, e4, e5, e6, e7, e8, e9, e10, e11⟩ := h'
  have hidx : PROTOCOLID_INDEX a = PROTOCOLID_INDEX b := by
    unfold PROTOCOLID_INDEX; rw [e4]
  have hcopy : ∀ off n, (copy_hop_block off n a).bind_storage_area
      = (copy_hop_block off n b).bind_storage_area := by
    intro off n
    unfold copy_hop_block
    dsimp only
    rw [e4, e11]
  rw [bind_switch_eq a, bind_switch_eq b, ← e2, ← e3, ← e11]
  split_ifs
  · simp only [bind_view, e1, e4, e5, e6, e7, e8, e9, e10, e11, hidx]
  · exact h
  · exact h
  · simp only [bind_view, e1, e3, e5, e6, e7, e8, e9, e10, e11, hcopy]
  · exact h
  · exact h
  · exact h
  · simp only [bind_view, e1, e3, e5, e6, e7, e8, e9, e10, e11, hcopy]
  · exact h
  · exact h
  · exact h
  · apply bind_view_binding_done_congr
    apply bind_view_parse_bind_data_congr
    apply bind_view_save_persistent_storage_congr
    simp only [bind_view, e1, e2, e3, e5, e6, e7, e8, e9, e10, e11, hcopy]
  · exact h
  · exact h
  · exact h
  · simp only [bind_view, e1, e3, e4, e5, e6, e7, e8, e9, e10, e11]

theorem bind_view_drained_congr (a b : State) (h : bind_view a = bind_view b) :
    bind_view (drained a) = bind_view (drained b) := by
  unfold bind_view at h
  simp only [Prod.mk.injEq] at h
  obtain ⟨e1, e2, e3, e4, e5, e6, e7, e8, e9, e10, e11⟩ := h
  simp only [bind_view, drained, rf_clear_irq, rf_drain, e1, e2, e3, e4, e5, e6, e7, e8, e10,
    e11]

theorem bind_view_process_binding_congr (a b : State) (h : bind_view a = bind_view b)
    (hb : a.binding = true) (ha : a.bind_timer ≠ 0) (hbt : b.bind_timer ≠ 0) :
    bind_view (process_binding a) = bind_view (process_binding b) := by
  have h' := h
  unfold bind_view at h'
  simp only [Prod.mk.injEq] at h'
  obtain ⟨e1, -, -, -, -, -, -, -, e9, -, -⟩ := h'
  have hb' : b.binding = true := e1 ▸ hb
  rw [process_binding_eq a, process_binding_eq b,
    if_neg (show ¬ a.binding = false by simp [hb]),
    if_neg (show ¬ b.binding = false by simp [hb']), if_neg ha, if_neg hbt, ← e9]
  split_ifs
  · exact h
  · exact bind_view_bind_switch _ _ (bind_view_drained_congr a b h)

/-- During binding `process_binding` is `binding_done`, or nothing, or
`bind_switch` on the drained state. -/
theorem process_binding_while_binding (s : State) (hb : s.binding = true) :
    process_binding s = binding_done s ∨ process_binding s = s ∨
    process_binding s = bind_switch (drained s) := by
  rw [process_binding_eq, if_neg (show ¬ s.binding = false by simp [hb])]
  split_ifs
  · exact Or.inl rfl
  · exact Or.inr (Or.inl rfl)
  · exact Or.inr (Or.inr rfl)

/-- After a call of `process_binding` made during binding, `process_receiving`
has nothing to do in the same dispatch. -/
theorem process_receiving_after_binding (cfg : Build) (s : State) (hb : s.binding = true) :
    process_receiving cfg (process_binding s) = process_binding s := by
  rcases process_binding_while_binding s hb with e | e | e
  · rw [e]; exact process_receiving_binding_done cfg s
  · rw [e]; exact process_receiving_binding cfg s hb
  · rw [e]
    rcases bind_switch_shape (drained s) with h | ⟨a, c, st, h⟩ | ⟨a, h⟩
    · rw [h]; exact process_receiving_binding cfg _ hb
    · rw [h]; exact process_receiving_binding cfg _ hb
    · rw [h]; exact process_receiving_binding_done cfg _

/-- A call of `process_binding` during binding that leaves binding active
leaves the bind timer as it was. -/
theorem bind_timer_process_binding (s : State) (hb : s.binding = true)
    (h : (process_binding s).binding = true) :
    (process_binding s).bind_timer = s.bind_timer := by
  rcases process_binding_while_binding s hb with e | e | e
  · rw [e] at h
    have : (binding_done s).binding = false := rfl
    rw [this] at h
    exact absurd h (by decide)
  · rw [e]
  · rw [e] at h ⊢
    rcases bind_switch_shape (drained s) with h1 | ⟨a, c, st, h1⟩ | ⟨a, h1⟩
    · rw [h1]; rfl
    · rw [h1]; rfl
    · rw [h1] at h
      have : (binding_done (parse_bind_data (save_persistent_storage
          { drained s with bind_storage_area := a }))).binding = false := rfl
      rw [this] at h
      exact absurd h (by decide)

/-- A whole dispatch during binding with at least two ticks left on the bind
timer acts on `bind_view` like the call of `process_binding` alone, and costs
the bind timer at most one tick. -/
theorem dispatch_frame_simulates (cfg : Build) (tick button : Bool) (f : List Nat)
    (s d : State) (h : bind_view s = bind_view d) (hb : s.binding = true)
    (hs : s.bind_timer ≠ 0) (hd : 2 ≤ d.bind_timer) :
    bind_view (process_binding (deliver f s)) = bind_view (dispatch_frame cfg tick button f d) ∧
    ((dispatch_frame cfg tick button f d).binding = true →
      d.bind_timer - 1 ≤ (dispatch_frame cfg tick button f d).bind_timer) := by
  have h' := h
  unfold bind_view at h'
  simp only [Prod.mk.injEq] at h'
  obtain ⟨e1, e2, e3, e4, e5, e6, e7, e8, e9, e10, e11⟩ := h'
  have e1f := process_systick_footprint
    { deliver f d with systick := tick, GPIO_BIND := button }
  have e2f := process_bind_button_footprint (process_systick
    { deliver f d with systick := tick, GPIO_BIND := button })
  have hv1 := congrArg bind_view e1f
  have hv2 := congrArg bind_view e2f
  have hvd : bind_view (process_bind_button (process_systick
      { deliver f d with systick := tick, GPIO_BIND := button })) = bind_view (deliver f s) := by
    refine hv2.trans (hv1.trans ?_)
    simp only [bind_view, deliver, rf_interrupt_handler, rf_receive, e1, e2, e3, e4, e5, e6, e7,
      e8, e10, e11]
  have ht1 := process_systick_bind_timer { deliver f d with systick := tick, GPIO_BIND := button }
  have ht2 := congrArg State.bind_timer e2f
  have htd : (process_bind_button (process_systick
      { deliver f d with systick := tick, GPIO_BIND := button })).bind_timer
      = if tick = true then d.bind_timer - 1 else d.bind_timer := ht2.trans ht1
  have hbd : (process_bind_button (process_systick
      { deliver f d with systick := tick, GPIO_BIND := button })).binding = true := by
    have b1 := congrArg State.binding e1f
    have b2 := congrArg State.binding e2f
    exact b2.trans (b1.trans (e1 ▸ hb))
  have hne : (process_bind_button (process_systick
      { deliver f d with systick := tick, GPIO_BIND := button })).bind_timer ≠ 0 := by
    rw [htd]; split_ifs <;> omega
  have hsim := bind_view_process_binding_congr _ _ hvd hbd hne
    (show (deliver f s).bind_timer ≠ 0 from hs)
  have hdisp : dispatch_frame cfg tick button f d = process_led cfg (process_binding
      (process_bind_button (process_systick
        { deliver f d with systick := tick, GPIO_BIND := button }))) := by
    unfold dispatch_frame
    rw [dispatch_eq, process_receiving_after_binding cfg _ hbd]
  have hled := process_led_footprint cfg (process_binding
      (process_bind_button (process_systick
        { deliver f d with systick := tick, GPIO_BIND := button })))
  have hlv := congrArg bind_view hled
  have hlb := congrArg State.binding hled
  have hlt := congrArg State.bind_timer hled
  rw [hdisp]
  refine ⟨hsim.symm.trans hlv.symm, ?_⟩
  intro hstill
  have hstill' := hlb.symm.trans hstill
  have := bind_timer_process_binding _ hbd hstill'
  rw [hlt, this, htd]
  split_ifs <;> omega

/-! ## The complete handshake -/

/-- C1: from a bind session at stage 0 with a running bind timer and a 26-byte
storage area, the four packets of a handshake for address `a0..a4`, hop bytes
`h0..h19` and marker pair `(P, M)`, one per call of `process_binding`, make the
receiver hand exactly `record = a0..a4 ‖ h0..h19 ‖ P` to
`save_persistent_storage` (once), and leave `model_address = a0..a4`,
`hop_data = h0..h19` and `binding` cleared.  The same holds when each packet is
handled by a whole dispatch (`process_receiver`, any tick flags and button
levels), provided the bind timer has at least 5 ticks left, as it has in a
freshly entered session. -/
theorem C1_bind_session_persists_record (cfg : Build) (s : State)
    (P M a0 a1 a2 a3 a4 : Nat)
    (h0 h1 h2 h3 h4 h5 h6 h7 h8 h9 h10 h11 h12 h13 h14 h15 h16 h17 h18 h19 : Nat)
    (x8 x9 y9 : Nat) (t0 b0 t1 b1 t2 b2 t3 b3 : Bool)
    (p0 p1 p2 p3 record : List Nat)
    (hp0 : p0 = bind_packet_0 P M a0 a1 a2 a3 a4 x8 x9)
    (hp1 : p1 = bind_packet_n (a0 + a1 + a2 + a3 + a4) 0 h0 h1 h2 h3 h4 h5 h6)
    (hp2 : p2 = bind_packet_n (a0 + a1 + a2 + a3 + a4) 1 h7 h8 h9 h10 h11 h12 h13)
    (hp3 : p3 = bind_packet_n (a0 + a1 + a2 + a3 + a4) 2 h14 h15 h16 h17 h18 h19 y9)
    (hrec : record = [a0, a1, a2, a3, a4, h0, h1, h2, h3, h4, h5, h6, h7, h8, h9, h10,
      h11, h12, h13, h14, h15, h16, h17, h18, h19, P])
    (hP : (P = 0xaa ∧ M = 0x55) ∨ (P = 0xab ∧ M = 0x56))
    (ha0 : a0 < 256) (ha1 : a1 < 256) (ha2 : a2 < 256) (ha3 : a3 < 256) (ha4 : a4 < 256)
    (hbind : s.binding = true) (hstage : s.bind_state = 0) (htimer : s.bind_timer ≠ 0)
    (hlen : s.bind_storage_area.length = 26) :
    ((bind_session p0 p1 p2 p3 s).saved_records = s.saved_records ++ [record] ∧
      (bind_session p0 p1 p2 p3 s).persistent_storage = record ∧
      (bind_session p0 p1 p2 p3 s).model_address = [a0, a1, a2, a3, a4] ∧
      (bind_session p0 p1 p2 p3 s).hop_data = [h0, h1, h2, h3, h4, h5, h6, h7, h8, h9, h10,
        h11, h12, h13, h14, h15, h16, h17, h18, h19] ∧
      (bind_session p0 p1 p2 p3 s).binding = false) ∧
    (5 ≤ s.bind_timer →
      (bind_session_dispatched cfg t0 b0 t1 b1 t2 b2 t3 b3 p0 p1 p2 p3 s).saved_records
        = s.saved_records ++ [record] ∧
      (bind_session_dispatched cfg t0 b0 t1 b1 t2 b2 t3 b3 p0 p1 p2 p3 s).persistent_storage
        = record ∧
      (bind_session_dispatched cfg t0 b0 t1 b1 t2 b2 t3 b3 p0 p1 p2 p3 s).model_address
        = [a0, a1, a2, a3, a4] ∧
      (bind_session_dispatched cfg t0 b0 t1 b1 t2 b2 t3 b3 p0 p1 p2 p3 s).hop_data
        = [h0, h1, h2, h3, h4, h5, h6, h7, h8, h9, h10, h11, h12, h13, h14, h15, h16, h17,
            h18, h19] ∧
      (bind_session_dispatched cfg t0 b0 t1 b1 t2 b2 t3 b3 p0 p1 p2 p3 s).binding = false) := by
  obtain ⟨c5, c6, c7, c8, c9, c10, c11, c12, c13, c14, c15, c16, c17, c18, c19, c20, c21, c22,
    c23, c24, e1, e2, e3, e4⟩ := bind_session_states s P M a0 a1 a2 a3 a4
      h0 h1 h2 h3 h4 h5 h6 h7 h8 h9 h10 h11 h12 h13 h14 h15 h16 h17 h18 h19 x8 x9 y9
      hP ha0 ha1 ha2 ha3 ha4 hbind hstage htimer hlen
  rw [← hp0] at e1 e2 e3 e4
  rw [← hp1] at e2 e3 e4
  rw [← hp2] at e3 e4
  rw [← hp3, ← hrec] at e4
  have hview : bind_view (bind_session p0 p1 p2 p3 s) =
      (false, 3, a0 + a1 + a2 + a3 + a4, record, s.saved_records ++ [record], record,
       (List.range ADDRESS_WIDTH).map (fun i => rd record i),
       (List.range NUMBER_OF_HOP_CHANNELS).map (fun i => rd record (ADDRESS_WIDTH + i)),
       false, [], rf_read_fifo p3) := by
    rw [e4]
    exact bind_view_completed
      { bind_input p3 s with checksum := a0 + a1 + a2 + a3 + a4, bind_state := 3 } record
  have hfinal : ∀ r : State, bind_view r = bind_view (bind_session p0 p1 p2 p3 s) →
      r.saved_records = s.saved_records ++ [record] ∧ r.persistent_storage = record ∧
      r.model_address = [a0, a1, a2, a3, a4] ∧
      r.hop_data = [h0, h1, h2, h3, h4, h5, h6, h7, h8, h9, h10, h11, h12, h13, h14, h15, h16,
        h17, h18, h19] ∧ r.binding = false := by
    intro r hr
    rw [hview] at hr
    unfold bind_view at hr
    simp only [Prod.mk.injEq] at hr
    obtain ⟨r1, -, -, -, r5, r6, r7, r8, -, -, -⟩ := hr
    refine ⟨r5, r6, ?_, ?_, r1⟩
    · rw [r7, hrec]; rfl
    · rw [r8, hrec]; rfl
  refine ⟨hfinal _ rfl, ?_⟩
  intro h5
  -- first packet
  obtain ⟨s1, k1⟩ := dispatch_frame_simulates cfg t0 b0 p0 s s rfl hbind htimer (by omega)
  have hb1 : (process_binding (deliver p0 s)).binding = true := by rw [e1]; exact hbind
  have ht1 : (process_binding (deliver p0 s)).bind_timer = s.bind_timer := by rw [e1]; rfl
  have hd1 : (dispatch_frame cfg t0 b0 p0 s).binding = true := by
    have h := congrArg (fun v => v.1) s1
    exact h.symm.trans hb1
  have k1' := k1 hd1
  -- second packet
  obtain ⟨s2, k2⟩ := dispatch_frame_simulates cfg t1 b1 p1 _ _ s1 hb1 (by rw [ht1]; exact htimer)
    (by omega)
  have hb2 : (process_binding (deliver p1 (process_binding (deliver p0 s)))).binding = true := by
    rw [e2]; exact hbind
  have ht2 : (process_binding (deliver p1 (process_binding (deliver p0 s)))).bind_timer
      = s.bind_timer := by rw [e2]; rfl
  have hd2 : (dispatch_frame cfg t1 b1 p1 (dispatch_frame cfg t0 b0 p0 s)).binding = true := by
    have h := congrArg (fun v => v.1) s2
    exact h.symm.trans hb2
  have k2' := k2 hd2
  -- third packet
  obtain ⟨s3, k3⟩ := dispatch_frame_simulates cfg t2 b2 p2 _ _ s2 hb2 (by rw [ht2]; exact htimer)
    (by omega)
  have hb3 : (process_binding (deliver p2 (process_binding (deliver p1
      (process_binding (deliver p0 s)))))).binding = true := by
    rw [e3]; exact hbind
  have ht3 : (process_binding (deliver p2 (process_binding (deliver p1
      (process_binding (deliver p0 s)))))).bind_timer = s.bind_timer := by rw [e3]; rfl
  have hd3 : (dispatch_frame cfg t2 b2 p2 (dispatch_frame cfg t1 b1 p1
      (dispatch_frame cfg t0 b0 p0 s))).binding = true := by
    have h := congrArg (fun v => v.1) s3
    exact h.symm.trans hb3
  have k3' := k3 hd3
  -- fourth packet
  obtain ⟨s4, -⟩ := dispatch_frame_simulates cfg t3 b3 p3 _ _ s3 hb3 (by rw [ht3]; exact htimer)
    (by omega)
  exact hfinal _ s4.symm

set_option maxRecDepth 100000 in
/-- C1, at a concrete input: a freshly entered bind session receives the
handshake for address 1,2,3,4,5 and hop bytes 10..29 with the 4-channel marker,
one packet per dispatch, with a tick in every dispatch. -/
theorem C1_bind_session_persists_record_witness :
    (fresh_bind_session.binding = true ∧ fresh_bind_session.bind_state = 0 ∧
      fresh_bind_session.bind_timer ≠ 0 ∧ fresh_bind_session.bind_storage_area.length = 26 ∧
      5 ≤ fresh_bind_session.bind_timer) ∧
    (bind_session_dispatched cfg0 true BUTTON_PRESSED true BUTTON_PRESSED true BUTTON_RELEASED
      true BUTTON_RELEASED
      (bind_packet_0 0xab 0x56 1 2 3 4 5 0 0)
      (bind_packet_n (1 + 2 + 3 + 4 + 5) 0 10 11 12 13 14 15 16)
      (bind_packet_n (1 + 2 + 3 + 4 + 5) 1 17 18 19 20 21 22 23)
      (bind_packet_n (1 + 2 + 3 + 4 + 5) 2 24 25 26 27 28 29 0)
      fresh_bind_session).persistent_storage
      = [1, 2, 3, 4, 5, 10, 11, 12, 13, 14, 15, 16, 17, 18, 19, 20, 21, 22, 23, 24, 25, 26, 27,
          28, 29, 0xab] :=
  ⟨by decide,
   ((C1_bind_session_persists_record cfg0 fresh_bind_session 0xab 0x56 1 2 3 4 5
      10 11 12 13 14 15 16 17 18 19 20 21 22 23 24 25 26 27 28 29 0 0 0
      true BUTTON_PRESSED true BUTTON_PRESSED true BUTTON_RELEASED true BUTTON_RELEASED
      (bind_packet_0 0xab 0x56 1 2 3 4 5 0 0)
      (bind_packet_n (1 + 2 + 3 + 4 + 5) 0 10 11 12 13 14 15 16)
      (bind_packet_n (1 + 2 + 3 + 4 + 5) 1 17 18 19 20 21 22 23)
      (bind_packet_n (1 + 2 + 3 + 4 + 5) 2 24 25 26 27 28 29 0)
      [1, 2, 3, 4, 5, 10, 11, 12, 13, 14, 15, 16, 17, 18, 19, 20, 21, 22, 23, 24, 25, 26, 27,
          28, 29, 0xab]
      rfl rfl rfl rfl rfl
      (by decide) (by decide) (by decide) (by decide) (by decide) (by decide)
      (by decide) (by decide) (by decide) (by decide)).2 (by decide)).2.1⟩

/-! ## The buffer swap is invisible to the pulse interrupt -/

/-- C11: `output_pulses` writes none of the four entries of the slot the
selector designates at entry; when it returns the selector is flipped and the
newly designated slot holds `channels[0..3]`; after any number `k` of its five
assignments the slot the selector designates is entirely the old slot or
entirely the new channel values. -/
theorem C11_output_pulses_swaps_whole_slots (s : State) (k : Nat) :
    output_pulses_after 0 s = s ∧
    output_pulses_after 5 s = output_pulses s ∧
    slot s.use_buffer_0 (output_pulses_after k s) = slot s.use_buffer_0 s ∧
    (output_pulses s).use_buffer_0 = !s.use_buffer_0 ∧
    active_slot (output_pulses s) = [s.channels 0, s.channels 1, s.channels 2, s.channels 3] ∧
    (active_slot (output_pulses_after k s) = active_slot s ∨
     active_slot (output_pulses_after k s)
       = [s.channels 0, s.channels 1, s.channels 2, s.channels 3]) := by
  have hk : k = 0 ∨ k = 1 ∨ k = 2 ∨ k = 3 ∨ k = 4 ∨ 5 ≤ k := by omega
  cases hu : s.use_buffer_0
  · refine ⟨?_, ?_, ?_, ?_, ?_, ?_⟩
    · simp [output_pulses_after, hu]
    · simp [output_pulses_after, output_pulses, hu]
    · rcases hk with h | h | h | h | h | h
      · simp [output_pulses_after, slot, hu, h]
      · simp [output_pulses_after, slot, hu, h]
      · simp [output_pulses_after, slot, hu, h]
      · simp [output_pulses_after, slot, hu, h]
      · simp [output_pulses_after, slot, hu, h]
      · have h1 : 1 ≤ k := by omega
        have h2 : 2 ≤ k := by omega
        have h3 : 3 ≤ k := by omega
        have h4 : 4 ≤ k := by omega
        simp [output_pulses_after, slot, hu, h, h1, h2, h3, h4]
    · simp [output_pulses, hu]
    · simp [output_pulses, active_slot, hu]
    · rcases hk with h | h | h | h | h | h
      · left; simp [output_pulses_after, active_slot, hu, h]
      · left; simp [output_pulses_after, active_slot, hu, h]
      · left; simp [output_pulses_after, active_slot, hu, h]
      · left; simp [output_pulses_after, active_slot, hu, h]
      · left; simp [output_pulses_after, active_slot, hu, h]
      · right
        have h1 : 1 ≤ k := by omega
        have h2 : 2 ≤ k := by omega
        have h3 : 3 ≤ k := by omega
        have h4 : 4 ≤ k := by omega
        simp [output_pulses_after, active_slot, hu, h, h1, h2, h3, h4]
  · refine ⟨?_, ?_, ?_, ?_, ?_, ?_⟩
    · simp [output_pulses_after, hu]
    · simp [output_pulses_after, output_pulses, hu]
    · rcases hk with h | h | h | h | h | h
      · simp [output_pulses_after, slot, hu, h]
      · simp [output_pulses_after, slot, hu, h]
      · simp [output_pulses_after, slot, hu, h]
      · simp [output_pulses_after, slot, hu, h]
      · simp [output_pulses_after, slot, hu, h]
      · have h1 : 1 ≤ k := by omega
        have h2 : 2 ≤ k := by omega
        have h3 : 3 ≤ k := by omega
        have h4 : 4 ≤ k := by omega
        simp [output_pulses_after, slot, hu, h, h1, h2, h3, h4]
    · simp [output_pulses, hu]
    · simp [output_pulses, active_slot, hu]
    · rcases hk with h | h | h | h | h | h
      · left; simp [output_pulses_after, active_slot, hu, h]
      · left; simp [output_pulses_after, active_slot, hu, h]
      · left; simp [output_pulses_after, active_slot, hu, h]
      · left; simp [output_pulses_after, active_slot, hu, h]
      · left; simp [output_pulses_after, active_slot, hu, h]
      · right
        have h1 : 1 ≤ k := by omega
        have h2 : 2 ≤ k := by omega
        have h3 : 3 ≤ k := by omega
        have h4 : 4 ≤ k := by omega
        simp [output_pulses_after, active_slot, hu, h, h1, h2, h3, h4]

/-! ## Frames handled by `process_receiving` -/

theorem apply_failsafe_timer_running (s : State) (h : s.failsafe_timer ≠ 0) :
    apply_failsafe s = s := by
  rw [apply_failsafe_eq]
  split_ifs
  · rfl
  · rfl

theorem perform_hop_not_requested (s : State) (h : s.perform_hop_requested = false) :
    perform_hop s = s := by
  rw [perform_hop_eq, if_neg (show ¬ s.perform_hop_requested = true by simp [h])]

theorem received_deliver_payload (cfg : Build) (f : List Nat) (s : State) :
    (received cfg (deliver f s)).payload = rf_read_fifo f := by
  show drain_fifo (s.rf_rx_fifo ++ [f]) s.payload = _
  rw [drain_fifo_snoc]

/-- A frame delivered while binding is inactive, no hop is requested and the
failsafe timer runs is classified by `receive_frame` right away. -/
theorem process_receiving_deliver (cfg : Build) (s : State) (f : List Nat)
    (hb : s.binding = false) (hh : s.perform_hop_requested = false)
    (ht : s.failsafe_timer ≠ 0) :
    process_receiving cfg (deliver f s) = receive_frame cfg (deliver f s) := by
  have hb' : (deliver f s).binding = false := hb
  have hh' : (deliver f s).perform_hop_requested = false := hh
  have ht' : (deliver f s).failsafe_timer ≠ 0 := ht
  rw [process_receiving_eq, if_neg (show ¬ (deliver f s).binding = true by simp [hb']),
    apply_failsafe_timer_running _ ht', perform_hop_not_requested _ hh']

/-- A pending frame with an unknown discriminator handled by `receive_frame`:
only the frame is taken over and the hop timer restarted. -/
theorem receive_frame_unknown (cfg : Build) (t : State) (f : List Nat) (q : List (List Nat))
    (hr : t.rf_int_fired = true) (hq : t.rf_rx_fifo = q ++ [f])
    (h1 : rd f 7 ≠ t.stickdata_packetid) (h2 : rd f 7 ≠ t.failsafe_packetid) :
    receive_frame cfg t = received cfg t := by
  have hp : (received cfg t).payload = rf_read_fifo f := by
    show drain_fifo t.rf_rx_fifo t.payload = _
    rw [hq, drain_fifo_snoc]
  have hs : (received cfg t).stickdata_packetid = t.stickdata_packetid := rfl
  have hf : (received cfg t).failsafe_packetid = t.failsafe_packetid := rfl
  rw [receive_frame_eq, if_neg (show ¬ t.rf_int_fired = false by simp [hr]), hp, hs, hf,
    rd_rf_read_fifo f 7 (by omega), if_neg h1, if_neg h2]

/-- What `received` changes besides the payload and the frame queue. -/
theorem received_effect (cfg : Build) (t : State) :
    (received cfg t).channels = t.channels ∧
    slot true (received cfg t) = slot true t ∧
    slot false (received cfg t) = slot false t ∧
    (received cfg t).use_buffer_0 = t.use_buffer_0 ∧
    (received cfg t).failsafe_enabled = t.failsafe_enabled ∧
    (received cfg t).failsafe = t.failsafe ∧
    (received cfg t).led_state = t.led_state ∧
    (received cfg t).failsafe_timer = t.failsafe_timer ∧
    (received cfg t).hop_index = t.hop_index ∧
    (received cfg t).hops_without_packet = 0 ∧
    (received cfg t).T2CON = 1 ∧
    (received cfg t).TIMER2 = TIMER_VALUE_US cfg FIRST_HOP_TIME_IN_US :=
  ⟨rfl, rfl, rfl, rfl, rfl, rfl, rfl, rfl, rfl, rfl, rfl, rfl⟩

/-- C12 (amended): a received frame whose byte 7 is neither the stick-data nor
the failsafe identifier, handled by `process_receiving` with binding inactive,
no hop requested and the failsafe timer non-zero, leaves the channel values,
both pulse-buffer slots and the selector, the FailsafeSet, the status, the
failsafe timer and the hop index as they were; the miss counter is reset to 0
and the hop timer is restarted with the first-hop interval. -/
theorem C12_unknown_frame_only_resyncs_hop_timer (cfg : Build) (s : State) (f : List Nat)
    (hb : s.binding = false) (hh : s.perform_hop_requested = false)
    (ht : s.failsafe_timer ≠ 0)
    (h1 : rd f 7 ≠ s.stickdata_packetid) (h2 : rd f 7 ≠ s.failsafe_packetid) :
    (process_receiving cfg (deliver f s)).channels = s.channels ∧
    slot true (process_receiving cfg (deliver f s)) = slot true s ∧
    slot false (process_receiving cfg (deliver f s)) = slot false s ∧
    (process_receiving cfg (deliver f s)).use_buffer_0 = s.use_buffer_0 ∧
    (process_receiving cfg (deliver f s)).failsafe_enabled = s.failsafe_enabled ∧
    (process_receiving cfg (deliver f s)).failsafe = s.failsafe ∧
    (process_receiving cfg (deliver f s)).led_state = s.led_state ∧
    (process_receiving cfg (deliver f s)).failsafe_timer = s.failsafe_timer ∧
    (process_receiving cfg (deliver f s)).hop_index = s.hop_index ∧
    (process_receiving cfg (deliver f s)).hops_without_packet = 0 ∧
    (process_receiving cfg (deliver f s)).T2CON = 1 ∧
    (process_receiving cfg (deliver f s)).TIMER2 = TIMER_VALUE_US cfg FIRST_HOP_TIME_IN_US := by
  rw [process_receiving_deliver cfg s f hb hh ht,
    receive_frame_unknown cfg (deliver f s) f s.rf_rx_fifo rfl rfl h1 h2]
  exact received_effect cfg (deliver f s)

set_option maxRecDepth 1000000 in
/-- C12 (amended), at a concrete input: an unknown frame after one missed hop. -/
theorem C12_unknown_frame_only_resyncs_hop_timer_witness :
    ((reach cfg0 nv_blank one_miss_trace).binding = false ∧
      (reach cfg0 nv_blank one_miss_trace).perform_hop_requested = false ∧
      (reach cfg0 nv_blank one_miss_trace).failsafe_timer ≠ 0 ∧
      rd unknown_frame 7 ≠ (reach cfg0 nv_blank one_miss_trace).stickdata_packetid ∧
      rd unknown_frame 7 ≠ (reach cfg0 nv_blank one_miss_trace).failsafe_packetid) ∧
    (process_receiving cfg0 (deliver unknown_frame (reach cfg0 nv_blank one_miss_trace))).hop_index
      = (reach cfg0 nv_blank one_miss_trace).hop_index :=
  ⟨by decide,
   (C12_unknown_frame_only_resyncs_hop_timer cfg0 (reach cfg0 nv_blank one_miss_trace)
      unknown_frame (by decide) (by decide) (by decide) (by decide)
      (by decide)).2.2.2.2.2.2.2.2.1⟩

set_option maxRecDepth 1000000 in
/-- C12 as stated fails: after one missed hop the miss counter is 1; a frame
with byte 7 = 0 is then received with binding inactive, no hop requested and
the failsafe timer running, and after `process_receiving` the miss counter is
0. -/
theorem C12_counterexample_miss_counter_reset :
    (reach cfg0 nv_blank one_miss_trace).binding = false ∧
    (reach cfg0 nv_blank one_miss_trace).perform_hop_requested = false ∧
    (reach cfg0 nv_blank one_miss_trace).failsafe_timer ≠ 0 ∧
    rd unknown_frame 7 ≠ (reach cfg0 nv_blank one_miss_trace).stickdata_packetid ∧
    rd unknown_frame 7 ≠ (reach cfg0 nv_blank one_miss_trace).failsafe_packetid ∧
    (reach cfg0 nv_blank one_miss_trace).hops_without_packet = 1 ∧
    (process_receiving cfg0
      (deliver unknown_frame (reach cfg0 nv_blank one_miss_trace))).hops_without_packet = 0 := by
  decide

/-! ## Failsafe-configuration frames -/

/-- A pending failsafe-configuration frame handled by `receive_frame`. -/
theorem receive_frame_failsafe (cfg : Build) (t : State) (f : List Nat) (q : List (List Nat))
    (hr : t.rf_int_fired = true) (hq : t.rf_rx_fifo = q ++ [f])
    (h1 : rd f 7 ≠ t.stickdata_packetid) (hid : rd f 7 = t.failsafe_packetid) :
    receive_frame cfg t =
      if rd f 8 = 0x5a then
        { received cfg t with
          failsafe_enabled := true,
          failsafe := (write16 (write16 (write16 (write16 t.failsafe
            0 (rd16 f 1 0)) 1 (rd16 f 3 2)) 2 (rd16 f 5 4)) 3 (rd16 f 9 6)) }
      else initialize_failsafe (received cfg t) := by
  have hp : (received cfg t).payload = rf_read_fifo f := by
    show drain_fifo t.rf_rx_fifo t.payload = _
    rw [hq, drain_fifo_snoc]
  have hs : (received cfg t).stickdata_packetid = t.stickdata_packetid := rfl
  have hf : (received cfg t).failsafe_packetid = t.failsafe_packetid := rfl
  have hc : (received cfg t).failsafe = t.failsafe := rfl
  rw [receive_frame_eq, if_neg (show ¬ t.rf_int_fired = false by simp [hr]), hp, hs, hf, hc,
    rd_rf_read_fifo f 7 (by omega), if_neg h1, if_pos hid, rd_rf_read_fifo f 8 (by omega)]
  simp only [rd16, rd_rf_read_fifo f 0 (by omega), rd_rf_read_fifo f 1 (by omega),
    rd_rf_read_fifo f 2 (by omega), rd_rf_read_fifo f 3 (by omega),
    rd_rf_read_fifo f 4 (by omega), rd_rf_read_fifo f 5 (by omega),
    rd_rf_read_fifo f 6 (by omega), rd_rf_read_fifo f 9 (by omega)]

/-- The FailsafeSet after a failsafe-configuration frame: enabled with the
decoded values in `failsafe[0..2]` when byte 8 is 0x5A; otherwise disabled with
the centre value in `failsafe[0..2]`. -/
theorem failsafe_frame_effect (cfg : Build) (s : State) (f : List Nat)
    (hb : s.binding = false) (hh : s.perform_hop_requested = false)
    (ht : s.failsafe_timer ≠ 0)
    (h1 : rd f 7 ≠ s.stickdata_packetid) (hid : rd f 7 = s.failsafe_packetid) :
    (rd f 8 = 0x5a →
      (process_receiving cfg (deliver f s)).failsafe_enabled = true ∧
      (process_receiving cfg (deliver f s)).failsafe 0 = rd16 f 1 0 ∧
      (process_receiving cfg (deliver f s)).failsafe 1 = rd16 f 3 2 ∧
      (process_receiving cfg (deliver f s)).failsafe 2 = rd16 f 5 4) ∧
    (rd f 8 ≠ 0x5a →
      (process_receiving cfg (deliver f s)).failsafe_enabled = false ∧
      (process_receiving cfg (deliver f s)).failsafe 0 = SERVO_PULSE_CENTER ∧
      (process_receiving cfg (deliver f s)).failsafe 1 = SERVO_PULSE_CENTER ∧
      (process_receiving cfg (deliver f s)).failsafe 2 = SERVO_PULSE_CENTER) := by
  have hd : (deliver f s).failsafe = s.failsafe := rfl
  have hc : (received cfg (deliver f s)).failsafe = s.failsafe :=
    (received_effect cfg (deliver f s)).2.2.2.2.2.1.trans hd
  rw [process_receiving_deliver cfg s f hb hh ht,
    receive_frame_failsafe cfg (deliver f s) f s.rf_rx_fifo rfl rfl h1 hid, hd]
  constructor
  · intro h8
    rw [if_pos h8]
    simp [write16]
  · intro h8
    rw [if_neg h8]
    simp [initialize_failsafe, forLoop, NUMBER_OF_CHANNELS, write16, hc, SERVO_PULSE_CENTER]

/-! ## Parsing the bind record -/

/-- C14: for a 26-byte bind record in `bind_storage_area`, `parse_bind_data`
sets `model_address` to bytes 0..4 and `hop_data` to bytes 5..24, selects the
4-channel identifiers (0x56, 0xAB) exactly when byte 25 is 0xAB and the
3-channel identifiers (0x55, 0xAA) for every other value of byte 25. -/
theorem C14_parse_bind_data (s : State) (hlen : s.bind_storage_area.length = 26) :
    (parse_bind_data s).model_address = s.bind_storage_area.take 5 ∧
    (parse_bind_data s).hop_data = (s.bind_storage_area.drop 5).take 20 ∧
    (∀ i, i < 5 → rd (parse_bind_data s).model_address i = rd s.bind_storage_area i) ∧
    (∀ j, j < 20 → rd (parse_bind_data s).hop_data j = rd s.bind_storage_area (5 + j)) ∧
    (((parse_bind_data s).stickdata_packetid = 0x56 ∧
        (parse_bind_data s).failsafe_packetid = 0xab) ↔ rd s.bind_storage_area 25 = 0xab) ∧
    (rd s.bind_storage_area 25 ≠ 0xab →
      (parse_bind_data s).stickdata_packetid = 0x55 ∧
      (parse_bind_data s).failsafe_packetid = 0xaa) := by
  obtain ⟨b0, b1, b2, b3, b4, b5, b6, b7, b8, b9, b10, b11, b12, b13, b14, b15, b16, b17, b18,
    b19, b20, b21, b22, b23, b24, b25, hl⟩ := list_length_26 _ hlen
  have hm : (parse_bind_data s).model_address = [b0, b1, b2, b3, b4] := by
    unfold parse_bind_data
    dsimp only
    split_ifs <;> simp [hl, rd, init_uart0, disable_uart0, ADDRESS_WIDTH, List.range,
      List.range.loop]
  have hh : (parse_bind_data s).hop_data = [b5, b6, b7, b8, b9, b10, b11, b12, b13, b14, b15,
      b16, b17, b18, b19, b20, b21, b22, b23, b24] := by
    unfold parse_bind_data
    dsimp only
    split_ifs <;> simp [hl, rd, init_uart0, disable_uart0, ADDRESS_WIDTH,
      NUMBER_OF_HOP_CHANNELS, List.range, List.range.loop]
  have h25 : rd s.bind_storage_area 25 = b25 := by simp [hl, rd]
  have hid : (parse_bind_data s).stickdata_packetid = (if b25 = 0xab then 0x56 else 0x55) ∧
      (parse_bind_data s).failsafe_packetid = (if b25 = 0xab then 0xab else 0xaa) := by
    by_cases hb : b25 = 0xab
    · simp [parse_bind_data, PROTOCOLID_INDEX, hl, rd, hb, PROTOCOL_4CH, init_uart0,
        disable_uart0, STICKDATA_PACKETID_4CH, FAILSAFE_PACKETID_4CH]
    · simp [parse_bind_data, PROTOCOLID_INDEX, hl, rd, hb, PROTOCOL_4CH, init_uart0,
        disable_uart0, STICKDATA_PACKETID_3CH, FAILSAFE_PACKETID_3CH]
  rw [hm, hh, h25, hid.1, hid.2, hl]
  refine ⟨rfl, rfl, ?_, ?_, ?_, ?_⟩
  · intro i hi
    interval_cases i <;> rfl
  · intro j hj
    interval_cases j <;> rfl
  · by_cases hb : b25 = 0xab
    · simp [hb]
    · simp [hb]
  · intro hb
    simp [hb]

set_option maxRecDepth 100000 in
/-- C14, at a concrete input: the all-zero record of a first power-up selects
the 3-channel identifiers. -/
theorem C14_parse_bind_data_witness :
    (loaded nv_blank).bind_storage_area.length = 26 ∧
    (parse_bind_data (loaded nv_blank)).model_address = [0, 0, 0, 0, 0] ∧
    ((parse_bind_data (loaded nv_blank)).stickdata_packetid = 0x55 ∧
      (parse_bind_data (loaded nv_blank)).failsafe_packetid = 0xaa) :=
  ⟨by decide,
   (C14_parse_bind_data (loaded nv_blank) (by decide)).1,
   (C14_parse_bind_data (loaded nv_blank) (by decide)).2.2.2.2.2 (by decide)⟩

/-! ## Countdown timers -/

/-- C15: with the tick flag set `process_systick` maps each of the failsafe,
bind and blink timers `t`, independently of the others, to `t - 1` when
`t > 0` and to 0 when `t = 0`; with the tick flag clear it changes nothing. -/
theorem C15_process_systick_saturates (s : State) :
    (process_systick s).failsafe_timer =
      (if s.systick = true then (if 0 < s.failsafe_timer then s.failsafe_timer - 1 else 0)
       else s.failsafe_timer) ∧
    (process_systick s).bind_timer =
      (if s.systick = true then (if 0 < s.bind_timer then s.bind_timer - 1 else 0)
       else s.bind_timer) ∧
    (process_systick s).blink_timer =
      (if s.systick = true then (if 0 < s.blink_timer then s.blink_timer - 1 else 0)
       else s.blink_timer) ∧
    process_systick { s with systick := false } = { s with systick := false } := by
  refine ⟨?_, ?_, ?_, rfl⟩
  · unfold process_systick
    dsimp only
    split_ifs <;> simp_all
  · unfold process_systick
    dsimp only
    split_ifs <;> simp_all
  · unfold process_systick
    dsimp only
    split_ifs <;> simp_all

/-! ## Bind button edge -/

theorem process_bind_button_old_button_state (s : State) :
    (process_bind_button s).old_button_state =
      if s.systick = true then s.GPIO_BIND else s.old_button_state := by
  cases h1 : s.systick <;> cases h2 : s.GPIO_BIND <;> cases h3 : s.old_button_state <;>
    simp [process_bind_button, h1, h2, h3, BUTTON_PRESSED]

theorem process_bind_button_binding_requested (s : State) :
    (process_bind_button s).binding_requested =
      (s.binding_requested ||
        (s.systick && (s.old_button_state == BUTTON_RELEASED) &&
          (s.GPIO_BIND == BUTTON_PRESSED))) := by
  cases h1 : s.systick <;> cases h2 : s.GPIO_BIND <;> cases h3 : s.old_button_state <;>
    cases h4 : s.binding_requested <;>
    simp [process_bind_button, h1, h2, h3, h4, BUTTON_PRESSED, BUTTON_RELEASED]

theorem button_calls_old_button_state (inputs : List (Bool × Bool)) (s : State) :
    (button_calls inputs s).old_button_state =
      inputs.foldl (fun prev i => if i.1 then i.2 else prev) s.old_button_state := by
  induction inputs generalizing s with
  | nil => rfl
  | cons i rest ih =>
    show (button_calls rest (process_bind_button
      { s with systick := i.1, GPIO_BIND := i.2 })).old_button_state = _
    rw [ih, process_bind_button_old_button_state]
    cases hi : i.1 <;> simp [List.foldl, hi]

/-- C16: over any sequence of calls of `process_bind_button`, starting with the
remembered state released, the remembered state is the button sample of the
latest tick, and a call raises `binding_requested` if and only if it is made
with the tick flag set, the sample of the previous tick was released and its
own sample is pressed.  A held button and a release never raise it, a call
without tick neither raises it nor updates the remembered state, and no call
clears it. -/
theorem C16_bind_request_on_press_edge (s : State) (inputs : List (Bool × Bool))
    (tick sample : Bool) (h0 : s.old_button_state = BUTTON_RELEASED) :
    (button_calls inputs s).old_button_state = last_sample inputs ∧
    (process_bind_button
      { button_calls inputs s with systick := tick, GPIO_BIND := sample }).old_button_state
      = (if tick = true then sample else last_sample inputs) ∧
    (process_bind_button
      { button_calls inputs s with systick := tick, GPIO_BIND := sample }).binding_requested
      = ((button_calls inputs s).binding_requested ||
          (tick && (last_sample inputs == BUTTON_RELEASED) && (sample == BUTTON_PRESSED))) ∧
    ((button_calls inputs s).binding_requested = false →
      ((process_bind_button
        { button_calls inputs s with systick := tick, GPIO_BIND := sample }).binding_requested
          = true ↔
        tick = true ∧ last_sample inputs = BUTTON_RELEASED ∧ sample = BUTTON_PRESSED)) := by
  have hold : (button_calls inputs s).old_button_state = last_sample inputs := by
    rw [button_calls_old_button_state, h0]
    rfl
  have hreq := process_bind_button_binding_requested
    { button_calls inputs s with systick := tick, GPIO_BIND := sample }
  have hnew := process_bind_button_old_button_state
    { button_calls inputs s with systick := tick, GPIO_BIND := sample }
  refine ⟨hold, ?_, ?_, ?_⟩
  · rw [hnew]
    show (if tick = true then sample else (button_calls inputs s).old_button_state) = _
    rw [hold]
  · rw [hreq]
    show ((button_calls inputs s).binding_requested ||
      (tick && ((button_calls inputs s).old_button_state == BUTTON_RELEASED) &&
        (sample == BUTTON_PRESSED))) = _
    rw [hold]
  · intro hf
    rw [hreq]
    show ((button_calls inputs s).binding_requested ||
      (tick && ((button_calls inputs s).old_button_state == BUTTON_RELEASED) &&
        (sample == BUTTON_PRESSED))) = true ↔ _
    rw [hold, hf]
    simp [Bool.and_eq_true, and_assoc]

set_option maxRecDepth 100000 in
/-- C16, at a concrete input: after `init_receiver` the button is released for
a tick, pressed for two ticks, sampled without tick, released, and pressed
again; the call below is the one of that last press. -/
theorem C16_bind_request_on_press_edge_witness :
    (reach cfg0 nv_blank []).old_button_state = BUTTON_RELEASED ∧
    last_sample [(true, BUTTON_RELEASED), (true, BUTTON_PRESSED), (true, BUTTON_PRESSED),
      (false, BUTTON_RELEASED), (true, BUTTON_RELEASED)] = BUTTON_RELEASED ∧
    (process_bind_button
      { button_calls [(true, BUTTON_RELEASED), (true, BUTTON_PRESSED), (true, BUTTON_PRESSED),
          (false, BUTTON_RELEASED), (true, BUTTON_RELEASED)] (reach cfg0 nv_blank []) with
        systick := true, GPIO_BIND := BUTTON_PRESSED }).old_button_state = BUTTON_PRESSED :=
  ⟨by decide, by decide,
   (C16_bind_request_on_press_edge (reach cfg0 nv_blank [])
      [(true, BUTTON_RELEASED), (true, BUTTON_PRESSED), (true, BUTTON_PRESSED),
        (false, BUTTON_RELEASED), (true, BUTTON_RELEASED)] true BUTTON_PRESSED
      (by decide)).2.1⟩

/-! ## The hop step of a dispatch -/

theorem hop_view_output_pulses (s : State) : hop_view (output_pulses s) = hop_view s := by
  unfold output_pulses
  split_ifs <;> rfl

theorem hop_view_apply_failsafe (s : State) : hop_view (apply_failsafe s) = hop_view s := by
  rw [apply_failsafe_eq]
  split_ifs
  · show hop_view (output_pulses _) = _
    rw [hop_view_output_pulses]
    rfl
  · rfl
  · rfl

theorem hop_view_restart_packet_receiving (s : State) :
    hop_view (restart_packet_receiving s) =
      (s.binding, false, false, 0, 0, s.hop_data, 0, rd s.hop_data 0) := by
  simp [hop_view, restart_packet_receiving, stop_hop_timer, rf_clear_ce, rf_set_rx_address,
    rf_set_channel, rf_flush_rx_fifo, rf_clear_irq, rf_set_ce]

/-- A dispatch that starts with binding inactive and reaches
`process_receiving` with binding inactive has not touched the hop state. -/
theorem hop_view_receiving_entry (s : State) (tick button : Bool)
    (hb : s.binding = false) (hstay : (receiving_entry tick button s).binding = false) :
    hop_view (receiving_entry tick button s) = hop_view s := by
  have e1 := process_systick_footprint { s with systick := tick, GPIO_BIND := button }
  have e2 := process_bind_button_footprint
    (process_systick { s with systick := tick, GPIO_BIND := button })
  have v1 := congrArg hop_view e1
  have v2 := congrArg hop_view e2
  have v1' : hop_view (process_systick { s with systick := tick, GPIO_BIND := button })
      = hop_view s := v1
  have v2' : hop_view (process_bind_button
        (process_systick { s with systick := tick, GPIO_BIND := button }))
      = hop_view (process_systick { s with systick := tick, GPIO_BIND := button }) := v2
  have b1 := congrArg State.binding e1
  have b2 := congrArg State.binding e2
  have hb' : (process_bind_button
      (process_systick { s with systick := tick, GPIO_BIND := button })).binding = false :=
    b2.trans (b1.trans hb)
  unfold receiving_entry at hstay ⊢
  generalize process_bind_button
    (process_systick { s with systick := tick, GPIO_BIND := button }) = p at hstay hb' v2' ⊢
  rw [← v1', ← v2']
  rw [process_binding_eq, if_pos hb'] at hstay ⊢
  by_cases hq : p.binding_requested = false
  · rw [if_pos hq]
  · rw [if_neg hq] at hstay
    exact absurd hstay (by simp)

/-- The hop section of `process_receiving` with binding inactive, a hop
requested and no frame pending. -/
theorem hop_view_process_receiving (cfg : Build) (p : State)
    (hb : p.binding = false) (hreq : p.perform_hop_requested = true)
    (hr : p.rf_int_fired = false) :
    hop_view (process_receiving cfg p) =
      if (p.hops_without_packet + 1) % 256 > MAX_HOP_WITHOUT_PACKET then
        (false, false, false, 0, 0, p.hop_data, 0, rd p.hop_data 0)
      else
        (false, false, false, (p.hop_index + 1) % NUMBER_OF_HOP_CHANNELS,
          (p.hops_without_packet + 1) % 256, p.hop_data, p.T2CON,
          rd p.hop_data ((p.hop_index + 1) % NUMBER_OF_HOP_CHANNELS)) := by
  have ha := hop_view_apply_failsafe p
  generalize hA : apply_failsafe p = a at ha
  unfold hop_view at ha
  simp only [Prod.mk.injEq] at ha
  obtain ⟨a1, a2, a3, a4, a5, a6, a7, a8⟩ := ha
  rw [process_receiving_eq, if_neg (show ¬ p.binding = true by simp [hb]), hA, perform_hop_eq,
    if_pos (a3.trans hreq)]
  by_cases hgt : (p.hops_without_packet + 1) % 256 > MAX_HOP_WITHOUT_PACKET
  · rw [if_pos hgt, if_pos (show (a.hops_without_packet + 1) % 256 > MAX_HOP_WITHOUT_PACKET by
      rw [a5]; exact hgt)]
    have hv := hop_view_restart_packet_receiving
      { a with perform_hop_requested := false,
               hops_without_packet := (a.hops_without_packet + 1) % 256 }
    have hrf : (restart_packet_receiving
      { a with perform_hop_requested := false,
               hops_without_packet := (a.hops_without_packet + 1) % 256 }).rf_int_fired
        = false := (restart_packet_receiving_hop _).2.2.2.2.1
    rw [receive_frame_eq, if_pos hrf, hv]
    simp [a1, hb, a6]
  · rw [if_neg hgt, if_neg (show ¬ (a.hops_without_packet + 1) % 256 > MAX_HOP_WITHOUT_PACKET by
      rw [a5]; exact hgt), receive_frame_eq, if_pos (show _ = false from a2.trans hr)]
    simp [hop_view, a1, a2, a4, a5, a6, a7, hb, hr]

theorem hop_bounds_reach (cfg : Build) (nv : List Nat) (es : List Event) :
    hop_bounds (reach cfg nv es) := by
  have h0 : hop_bounds (init_receiver (power_on nv)) := by
    unfold init_receiver
    dsimp only
    exact hop_bounds_of_eq (restart_packet_receiving _) _ rfl rfl
      (hop_bounds_of_zero _ (restart_packet_receiving_hop _).1
        (restart_packet_receiving_hop _).2.1)
  exact hop_bounds_run cfg es _ h0

/-- The hop step of a whole dispatch, with the miss counter as an 8-bit
value. -/
theorem hop_view_dispatch (cfg : Build) (s : State) (tick button : Bool)
    (hb : s.binding = false) (hstay : (receiving_entry tick button s).binding = false)
    (hreq : s.perform_hop_requested = true) (hr : s.rf_int_fired = false) :
    hop_view (dispatch cfg tick button s) =
      if (s.hops_without_packet + 1) % 256 > MAX_HOP_WITHOUT_PACKET then
        (false, false, false, 0, 0, s.hop_data, 0, rd s.hop_data 0)
      else
        (false, false, false, (s.hop_index + 1) % NUMBER_OF_HOP_CHANNELS,
          (s.hops_without_packet + 1) % 256, s.hop_data, s.T2CON,
          rd s.hop_data ((s.hop_index + 1) % NUMBER_OF_HOP_CHANNELS)) := by
  have he := hop_view_receiving_entry s tick button hb hstay
  have hd : dispatch cfg tick button s
      = process_led cfg (process_receiving cfg (receiving_entry tick button s)) := rfl
  have hl := congrArg hop_view
    (process_led_footprint cfg (process_receiving cfg (receiving_entry tick button s)))
  have hl' : hop_view (process_led cfg (process_receiving cfg (receiving_entry tick button s)))
      = hop_view (process_receiving cfg (receiving_entry tick button s)) := hl
  rw [hd, hl']
  generalize receiving_entry tick button s = p at he hstay ⊢
  unfold hop_view at he
  simp only [Prod.mk.injEq] at he
  obtain ⟨p1, p2, p3, p4, p5, p6, p7, p8⟩ := he
  rw [hop_view_process_receiving cfg p hstay (p3.trans hreq) (p2.trans hr), p4, p5, p6, p7]

/-- C17: a dispatch from a reachable state with binding inactive (before the
dispatch and when it reaches `process_receiving`), a hop requested and no
frame pending, with miss counter c and hop index i before it: the
hop-requested flag is cleared; if c+1 > 15 then afterwards the hop index is 0,
the miss counter is 0, the hop timer is stopped (`T2CON` = 0) and the radio
channel is `hop_data[0]`; otherwise afterwards the hop index is (i+1) mod 20,
the miss counter is c+1 and the radio channel is `hop_data[(i+1) mod 20]`. -/
theorem C17_hop_step_of_a_dispatch (cfg : Build) (nv : List Nat) (es : List Event)
    (tick button : Bool)
    (hb : (reach cfg nv es).binding = false)
    (hstay : (receiving_entry tick button (reach cfg nv es)).binding = false)
    (hreq : (reach cfg nv es).perform_hop_requested = true)
    (hr : (reach cfg nv es).rf_int_fired = false) :
    (dispatch cfg tick button (reach cfg nv es)).perform_hop_requested = false ∧
    ((reach cfg nv es).hops_without_packet + 1 > 15 →
      (dispatch cfg tick button (reach cfg nv es)).hop_index = 0 ∧
      (dispatch cfg tick button (reach cfg nv es)).hops_without_packet = 0 ∧
      (dispatch cfg tick button (reach cfg nv es)).T2CON = 0 ∧
      (dispatch cfg tick button (reach cfg nv es)).rf_channel
        = rd (reach cfg nv es).hop_data 0) ∧
    (¬ (reach cfg nv es).hops_without_packet + 1 > 15 →
      (dispatch cfg tick button (reach cfg nv es)).hop_index
        = ((reach cfg nv es).hop_index + 1) % 20 ∧
      (dispatch cfg tick button (reach cfg nv es)).hops_without_packet
        = (reach cfg nv es).hops_without_packet + 1 ∧
      (dispatch cfg tick button (reach cfg nv es)).rf_channel
        = rd (reach cfg nv es).hop_data (((reach cfg nv es).hop_index + 1) % 20)) := by
  have hv := hop_view_dispatch cfg (reach cfg nv es) tick button hb hstay hreq hr
  have hbd := (hop_bounds_reach cfg nv es).2
  generalize reach cfg nv es = s at hv hbd
  generalize dispatch cfg tick button s = d at hv
  unfold MAX_HOP_WITHOUT_PACKET at hv hbd
  unfold NUMBER_OF_HOP_CHANNELS at hv
  have hmod : (s.hops_without_packet + 1) % 256 = s.hops_without_packet + 1 := by omega
  rw [hmod] at hv
  unfold hop_view at hv
  by_cases hgt : s.hops_without_packet + 1 > 15
  · rw [if_pos hgt] at hv
    simp only [Prod.mk.injEq] at hv
    obtain ⟨-, -, v3, v4, v5, -, v7, v8⟩ := hv
    exact ⟨v3, fun _ => ⟨v4, v5, v7, v8⟩, fun h => absurd hgt h⟩
  · rw [if_neg hgt] at hv
    simp only [Prod.mk.injEq] at hv
    obtain ⟨-, -, v3, v4, v5, -, -, v8⟩ := hv
    exact ⟨v3, fun h => absurd h hgt, fun _ => ⟨v4, v5, v8⟩⟩

set_option maxRecDepth 1000000 in
/-- C17 at a concrete input: the first hop after a stick-data frame. -/
theorem C17_hop_step_of_a_dispatch_witness :
    ((reach cfg0 nv_blank hop_requested_trace).binding = false ∧
      (receiving_entry true BUTTON_RELEASED
        (reach cfg0 nv_blank hop_requested_trace)).binding = false ∧
      (reach cfg0 nv_blank hop_requested_trace).perform_hop_requested = true ∧
      (reach cfg0 nv_blank hop_requested_trace).rf_int_fired = false) ∧
    (dispatch cfg0 true BUTTON_RELEASED
      (reach cfg0 nv_blank hop_requested_trace)).perform_hop_requested = false :=
  ⟨by decide,
   (C17_hop_step_of_a_dispatch cfg0 nv_blank hop_requested_trace true BUTTON_RELEASED
      (by decide) (by decide) (by decide) (by decide)).1⟩

/-! ## Status changes seen by `process_led` -/

theorem process_led_blink_timer (cfg : Build) (s : State) :
    (process_led cfg s).blink_timer =
      if s.blinking = true ∧ s.blink_timer = 0 then s.blink_timer_reload_value
      else s.blink_timer := by
  unfold process_led
  dsimp only
  split_ifs <;> simp_all

theorem process_led_status_change (cfg : Build) (s : State)
    (hchange : s.led_state ≠ s.old_led_state) :
    (process_led cfg s).old_led_state = s.led_state ∧
    (s.led_state = LED_STATE_BINDING →
      (process_led cfg s).blink_timer_reload_value = BLINK_TIME_BINDING ∧
      (process_led cfg s).blinking = true) ∧
    (s.led_state ≠ LED_STATE_BINDING → s.led_state ≠ LED_STATE_RECEIVING →
      (process_led cfg s).blink_timer_reload_value = BLINK_TIME_FAILSAFE ∧
      (process_led cfg s).blinking = true) ∧
    (s.led_state = LED_STATE_RECEIVING →
      (process_led cfg s).blink_timer_reload_value = s.blink_timer_reload_value ∧
      (process_led cfg s).blinking = false) := by
  unfold process_led
  dsimp only
  split_ifs <;> simp_all [LED_STATE_BINDING, LED_STATE_RECEIVING]

/-- C18 (amended): when `process_led` observes a status different from the one
it last observed, on return it has recorded the new status, set the blink
period `blink_timer_reload_value` of the new status (`BLINK_TIME_BINDING` for
Binding, `BLINK_TIME_FAILSAFE` for Idle and Failsafe) and enabled blinking
(disabled it for Receiving); the countdown `blink_timer` itself is not reset:
it is reloaded, with the period held before the call, only if the LED was
blinking and the countdown had reached 0, and is otherwise unchanged. -/
theorem C18_status_change_sets_blink_period (cfg : Build) (s : State)
    (hchange : s.led_state ≠ s.old_led_state) :
    (process_led cfg s).old_led_state = s.led_state ∧
    (s.led_state = LED_STATE_BINDING →
      (process_led cfg s).blink_timer_reload_value = BLINK_TIME_BINDING ∧
      (process_led cfg s).blinking = true) ∧
    (s.led_state = LED_STATE_IDLE ∨ s.led_state = LED_STATE_FAILSAFE →
      (process_led cfg s).blink_timer_reload_value = BLINK_TIME_FAILSAFE ∧
      (process_led cfg s).blinking = true) ∧
    (s.led_state = LED_STATE_RECEIVING → (process_led cfg s).blinking = false) ∧
    (process_led cfg s).blink_timer =
      (if s.blinking = true ∧ s.blink_timer = 0 then s.blink_timer_reload_value
       else s.blink_timer) := by
  obtain ⟨h1, h2, h3, h4⟩ := process_led_status_change cfg s hchange
  refine ⟨h1, h2, ?_, fun h => (h4 h).2, process_led_blink_timer cfg s⟩
  intro h
  apply h3
  · rcases h with h | h <;> rw [h] <;> decide
  · rcases h with h | h <;> rw [h] <;> decide

set_option maxRecDepth 1000000 in
/-- C18 (amended), at a concrete input: the dispatch that enters binding,
one tick into the Idle blink period. -/
theorem C18_status_change_sets_blink_period_witness :
    (led_entry cfg0 true BUTTON_PRESSED (reach cfg0 nv_blank idle_blinking_trace)).led_state
      ≠ (led_entry cfg0 true BUTTON_PRESSED
          (reach cfg0 nv_blank idle_blinking_trace)).old_led_state ∧
    (process_led cfg0
      (led_entry cfg0 true BUTTON_PRESSED (reach cfg0 nv_blank idle_blinking_trace))).old_led_state
      = (led_entry cfg0 true BUTTON_PRESSED
          (reach cfg0 nv_blank idle_blinking_trace)).led_state :=
  ⟨by decide,
   (C18_status_change_sets_blink_period cfg0
      (led_entry cfg0 true BUTTON_PRESSED (reach cfg0 nv_blank idle_blinking_trace))
      (by decide)).1⟩

set_option maxRecDepth 1000000 in
/-- C18 as stated fails: in the third dispatch after power-up the bind button
is pressed; `process_led` is called with the status Binding, last observed
Idle, and the blink countdown at 19.  On return the countdown is still 19, not
`BLINK_TIME_BINDING` = 3; only the reload value has become 3. -/
theorem C18_counterexample_blink_timer_not_reset :
    dispatch cfg0 true BUTTON_PRESSED (reach cfg0 nv_blank idle_blinking_trace)
      = process_led cfg0
          (led_entry cfg0 true BUTTON_PRESSED (reach cfg0 nv_blank idle_blinking_trace)) ∧
    (led_entry cfg0 true BUTTON_PRESSED (reach cfg0 nv_blank idle_blinking_trace)).led_state
      = LED_STATE_BINDING ∧
    (led_entry cfg0 true BUTTON_PRESSED (reach cfg0 nv_blank idle_blinking_trace)).old_led_state
      = LED_STATE_IDLE ∧
    (led_entry cfg0 true BUTTON_PRESSED (reach cfg0 nv_blank idle_blinking_trace)).blink_timer
      = 19 ∧
    (process_led cfg0
      (led_entry cfg0 true BUTTON_PRESSED (reach cfg0 nv_blank idle_blinking_trace))).blink_timer
      = 19 ∧
    (process_led cfg0
      (led_entry cfg0 true BUTTON_PRESSED
        (reach cfg0 nv_blank idle_blinking_trace))).blink_timer_reload_value = 3 ∧
    BLINK_TIME_BINDING = 3 :=
  ⟨rfl, by decide, by decide, by decide, by decide, by decide, by decide⟩

/-! ## A buffer swap inside a pulse train -/

/-! ## Undoing the transmitter's scaling -/

/-- On the UART input range the value sent fits in 16 bits, and
`stickdata2txdata` returns the input for multiples of 5 and one less for every
other input. -/
theorem stickdata2txdata_value_sent (u : Nat) (h : u ≤ 0x9ff) :
    value_sent u < 65536 ∧
    stickdata2txdata (value_sent u) = if u % 5 = 0 then u else u - 1 := by
  unfold stickdata2txdata value_sent
  obtain ⟨q, r, hr, hu⟩ : ∃ q r, r < 5 ∧ u = 5 * q + r :=
    ⟨u / 5, u % 5, Nat.mod_lt _ (by decide), by omega⟩
  subst hu
  interval_cases r <;> constructor <;> first | omega | (split_ifs <;> omega)

/-- C20 at a failing input: for `uart_data = 1` the transmitter sends 0xF201
and `stickdata2txdata` returns 0, not 1. -/
theorem C20_stickdata2txdata_loses_one :
    (1 : Nat) ≤ 0x9ff ∧ value_sent 1 = 0xf201 ∧ stickdata2txdata (value_sent 1) = 0 := by
  decide

/-! ## `process_receiving` during binding -/

/-- C25: for every state with `binding` set, whatever the failsafe timer, the
hop request and the pending-frame flag, `process_receiving` returns the state
unchanged: channel values, pulse buffers and selector, status, FailsafeSet,
failsafe timer, hop index, miss counter and the hop and radio flags are as
before the call. -/
theorem C25_process_receiving_idle_while_binding (cfg : Build) (s : State)
    (hb : s.binding = true) :
    process_receiving cfg s = s := by
  rw [process_receiving_eq, if_pos hb]

set_option maxRecDepth 1000000 in
/-- C25 at a concrete input: binding active, stick data seen before, the
failsafe timer at 0, a hop requested and a frame pending. -/
theorem C25_process_receiving_idle_while_binding_witness :
    ((reach cfg0 nv_blank binding_busy_trace).binding = true ∧
      (reach cfg0 nv_blank binding_busy_trace).successful_stick_data = true ∧
      (reach cfg0 nv_blank binding_busy_trace).failsafe_timer = 0 ∧
      (reach cfg0 nv_blank binding_busy_trace).perform_hop_requested = true ∧
      (reach cfg0 nv_blank binding_busy_trace).rf_int_fired = true ∧
      (reach cfg0 nv_blank binding_busy_trace).rf_rx_fifo = [stick_frame_3ch]) ∧
    process_receiving cfg0 (reach cfg0 nv_blank binding_busy_trace)
      = reach cfg0 nv_blank binding_busy_trace :=
  ⟨by decide,
   C25_process_receiving_idle_while_binding cfg0 (reach cfg0 nv_blank binding_busy_trace)
     (by decide)⟩

/-! ## Failsafe-configuration frames and the failsafe timer -/

theorem apply_failsafe_not_due (s : State)
    (h : s.successful_stick_data = true → s.failsafe_timer ≠ 0) :
    apply_failsafe s = s := by
  rw [apply_failsafe_eq]
  split_ifs with h1 h2
  · exact absurd h2 (h h1)
  · rfl
  · rfl

/-- A frame delivered while binding is inactive, no hop is requested and no
failsafe fallback is due is classified by `receive_frame` right away. -/
theorem process_receiving_deliver_not_due (cfg : Build) (s : State) (f : List Nat)
    (hb : s.binding = false) (hh : s.perform_hop_requested = false)
    (ht : s.successful_stick_data = true → s.failsafe_timer ≠ 0) :
    process_receiving cfg (deliver f s) = receive_frame cfg (deliver f s) := by
  have hb' : (deliver f s).binding = false := hb
  have hh' : (deliver f s).perform_hop_requested = false := hh
  have ht' : (deliver f s).successful_stick_data = true → (deliver f s).failsafe_timer ≠ 0 := ht
  rw [process_receiving_eq, if_neg (show ¬ (deliver f s).binding = true by simp [hb']),
    apply_failsafe_not_due _ ht', perform_hop_not_requested _ hh']

theorem initialize_failsafe_effect (t : State) :
    (initialize_failsafe t).channels = t.channels ∧
    slot true (initialize_failsafe t) = slot true t ∧
    slot false (initialize_failsafe t) = slot false t ∧
    (initialize_failsafe t).use_buffer_0 = t.use_buffer_0 ∧
    (initialize_failsafe t).led_state = t.led_state ∧
    (initialize_failsafe t).failsafe_timer = FAILSAFE_TIMEOUT :=
  ⟨rfl, rfl, rfl, rfl, rfl, rfl⟩

/-! ## Array bounds of `channels` and `failsafe` -/

/-! ## The bind checksum -/

theorem rd_set_ne (a : List Nat) (i j v : Nat) (h : i ≠ j) : rd (a.set j v) i = rd a i := by
  unfold rd
  rw [List.getD_eq_getElem?_getD, List.getD_eq_getElem?_getD, List.getElem?_set_ne (Ne.symm h)]

theorem rd_set_eq (a : List Nat) (i v : Nat) (h : i < a.length) : rd (a.set i v) i = v := by
  unfold rd
  rw [List.getD_eq_getElem?_getD, List.getElem?_set_self h]
  rfl

theorem rd_lt_of_byte_frame (f : List Nat) (h : byte_frame f = true) (i : Nat) :
    rd f i < 256 := by
  unfold byte_frame at h
  rw [List.all_eq_true] at h
  unfold rd
  rw [List.getD_eq_getElem?_getD]
  cases hg : f[i]? with
  | none => simp
  | some b =>
    have hm : b ∈ f := by
      obtain ⟨hi, he⟩ := List.getElem?_eq_some_iff.mp hg
      rw [← he]
      exact List.getElem_mem hi
    simpa using h b hm

theorem byte_frame_rf_read_fifo (f : List Nat) (h : byte_frame f = true) :
    byte_frame (rf_read_fifo f) = true := by
  unfold byte_frame rf_read_fifo
  rw [List.all_eq_true]
  intro b hb
  rw [List.mem_map] at hb
  obtain ⟨i, -, rfl⟩ := hb
  simpa using rd_lt_of_byte_frame f h i

theorem byte_frame_drain_fifo (q : List (List Nat)) (p : List Nat)
    (hq : ∀ f ∈ q, byte_frame f = true) (hp : byte_frame p = true) :
    byte_frame (drain_fifo q p) = true := by
  induction q generalizing p with
  | nil => exact hp
  | cons g q ih =>
    show byte_frame (drain_fifo q (rf_read_fifo g)) = true
    exact ih _ (fun f hf => hq f (List.mem_cons_of_mem g hf))
      (byte_frame_rf_read_fifo g (hq g (List.mem_cons_self g q)))

theorem address_sum_set (a : List Nat) (j v : Nat) (h : 5 ≤ j) :
    address_sum (a.set j v) = address_sum a := by
  unfold address_sum
  rw [rd_set_ne a 0 j v (by omega), rd_set_ne a 1 j v (by omega), rd_set_ne a 2 j v (by omega),
    rd_set_ne a 3 j v (by omega), rd_set_ne a 4 j v (by omega)]

theorem address_sum_copy (off : Nat) (h : 5 ≤ off) (p a : List Nat) (n : Nat) :
    address_sum (forLoop n (fun i a => a.set (off + i) (rd p (3 + i))) a) = address_sum a := by
  induction n with
  | zero => rfl
  | succ n ih =>
    show address_sum ((forLoop n _ a).set (off + n) _) = _
    rw [address_sum_set _ _ _ (by omega), ih]

theorem length_copy (off : Nat) (p a : List Nat) (n : Nat) :
    (forLoop n (fun i a => a.set (off + i) (rd p (3 + i))) a).length = a.length := by
  induction n with
  | zero => rfl
  | succ n ih =>
    show ((forLoop n _ a).set (off + n) _).length = _
    rw [List.length_set, ih]

theorem checksum_inv_flush (a p : List Nat) (q : List (List Nat)) (c st : Nat)
    (h : checksum_inv (a, q, p, c, st)) : checksum_inv (a, [], p, c, st) := by
  obtain ⟨h1, -, h3, h4, h5⟩ := h
  exact ⟨h1, fun f hf => absurd hf (List.not_mem_nil f), h3, h4, h5⟩

theorem checksum_inv_drain (a p : List Nat) (q : List (List Nat)) (c st : Nat)
    (h : checksum_inv (a, q, p, c, st)) : checksum_inv (a, [], drain_fifo q p, c, st) := by
  obtain ⟨h1, h2, h3, h4, h5⟩ := h
  exact ⟨h1, fun f hf => absurd hf (List.not_mem_nil f), byte_frame_drain_fifo q p h2 h3, h4, h5⟩

theorem checksum_inv_stage_0 (a p : List Nat) (q : List (List Nat)) (c st : Nat)
    (h : checksum_inv (a, q, p, c, st)) : checksum_inv (a, q, p, c, 0) := by
  obtain ⟨h1, h2, h3, h4, -⟩ := h
  exact ⟨h1, h2, h3, h4, fun h0 => absurd rfl h0⟩

theorem checksum_view_restart_packet_receiving (s : State) :
    checksum_view (restart_packet_receiving s) =
      (s.bind_storage_area, [], s.payload, s.checksum, s.bind_state) := by
  simp [checksum_view, restart_packet_receiving, stop_hop_timer, rf_clear_ce,
    rf_set_rx_address, rf_set_channel, rf_flush_rx_fifo, rf_clear_irq, rf_set_ce]

theorem checksum_view_binding_done (s : State) :
    checksum_view (binding_done s) =
      (s.bind_storage_area, [], s.payload, s.checksum, s.bind_state) := by
  unfold binding_done
  dsimp only
  rw [checksum_view_restart_packet_receiving]

theorem checksum_view_parse_bind_data (s : State) :
    checksum_view (parse_bind_data s) = checksum_view s := by
  unfold parse_bind_data
  dsimp only
  split_ifs <;> rfl

theorem checksum_view_output_pulses (s : State) :
    checksum_view (output_pulses s) = checksum_view s := by
  unfold output_pulses
  split_ifs <;> rfl

theorem checksum_view_apply_failsafe (s : State) :
    checksum_view (apply_failsafe s) = checksum_view s := by
  rw [apply_failsafe_eq]
  split_ifs
  · show checksum_view (output_pulses _) = _
    rw [checksum_view_output_pulses]
    rfl
  · rfl
  · rfl

theorem checksum_view_drained (s : State) :
    checksum_view (drained s) =
      (s.bind_storage_area, [], drain_fifo s.rf_rx_fifo s.payload, s.checksum, s.bind_state) :=
  rfl

theorem checksum_inv_perform_hop (s : State) (h : checksum_inv (checksum_view s)) :
    checksum_inv (checksum_view (perform_hop s)) := by
  rw [perform_hop_eq]
  split_ifs
  · rw [checksum_view_restart_packet_receiving]
    exact checksum_inv_flush _ _ _ _ _ h
  · exact h
  · exact h

theorem checksum_inv_receive_frame (cfg : Build) (s : State)
    (h : checksum_inv (checksum_view s)) :
    checksum_inv (checksum_view (receive_frame cfg s)) := by
  have hd : checksum_inv (checksum_view (drained s)) := by
    rw [checksum_view_drained]
    exact checksum_inv_drain _ _ _ _ _ h
  have hr : checksum_view (received cfg s) = checksum_view (drained s) := rfl
  rw [receive_frame_eq]
  split_ifs
  · exact h
  · have e : checksum_view (output_pulses
        { received cfg s with
          channels := (write16 (write16 (write16 (write16 (received cfg s).channels
            0 (rd16 (received cfg s).payload 1 0))
            1 (rd16 (received cfg s).payload 3 2))
            2 (rd16 (received cfg s).payload 5 4))
            3 (rd16 (received cfg s).payload 9 6)) })
        = checksum_view (received cfg s) := by
      rw [checksum_view_output_pulses]
      rfl
    have e2 : checksum_view
        { output_pulses
            { received cfg s with
              channels := (write16 (write16 (write16 (write16 (received cfg s).channels
                0 (rd16 (received cfg s).payload 1 0))
                1 (rd16 (received cfg s).payload 3 2))
                2 (rd16 (received cfg s).payload 5 4))
                3 (rd16 (received cfg s).payload 9 6)) } with
          successful_stick_data := true,
          failsafe_timer := FAILSAFE_TIMEOUT,
          led_state := LED_STATE_RECEIVING }
        = checksum_view (output_pulses
            { received cfg s with
              channels := (write16 (write16 (write16 (write16 (received cfg s).channels
                0 (rd16 (received cfg s).payload 1 0))
                1 (rd16 (received cfg s).payload 3 2))
                2 (rd16 (received cfg s).payload 5 4))
                3 (rd16 (received cfg s).payload 9 6)) }) := rfl
    rw [e2, e, hr]
    exact hd
  · exact hd
  · exact hd
  · exact hd

theorem checksum_inv_process_receiving (cfg : Build) (s : State)
    (h : checksum_inv (checksum_view s)) :
    checksum_inv (checksum_view (process_receiving cfg s)) := by
  rw [process_receiving_eq]
  split_ifs
  · exact h
  · apply checksum_inv_receive_frame
    apply checksum_inv_perform_hop
    rw [checksum_view_apply_failsafe]
    exact h

/-- The checksum loop of stage 0 over 8-bit values: the exact sum, no wrap. -/
theorem stage_0_checksum (p : List Nat) (h3 : byte_frame p = true) :
    forLoop 5 (fun i c => (c + rd p (3 + i)) % 65536) 0
      = rd p 3 + rd p 4 + rd p 5 + rd p 6 + rd p 7 := by
  have p3 := rd_lt_of_byte_frame p h3 3
  have p4 := rd_lt_of_byte_frame p h3 4
  have p5 := rd_lt_of_byte_frame p h3 5
  have p6 := rd_lt_of_byte_frame p h3 6
  have p7 := rd_lt_of_byte_frame p h3 7
  simp only [forLoop, Nat.reduceAdd, Nat.add_zero, Nat.zero_add]
  omega

/-- The copy loop of stage 0 stores the five address bytes. -/
theorem stage_0_address (a p : List Nat) (h1 : a.length = 26) :
    address_sum (forLoop 5 (fun i a => a.set i (rd p (3 + i)))
      (a.set (a.length - 1) (rd p 1))) = rd p 3 + rd p 4 + rd p 5 + rd p 6 + rd p 7 := by
  simp only [forLoop, address_sum, Nat.reduceAdd, Nat.add_zero]
  rw [rd_set_eq _ 4 _ (by simp only [List.length_set]; omega),
    rd_set_ne _ 3 4 _ (by omega), rd_set_eq _ 3 _ (by simp only [List.length_set]; omega),
    rd_set_ne _ 2 4 _ (by omega), rd_set_ne _ 2 3 _ (by omega),
    rd_set_eq _ 2 _ (by simp only [List.length_set]; omega),
    rd_set_ne _ 1 4 _ (by omega), rd_set_ne _ 1 3 _ (by omega), rd_set_ne _ 1 2 _ (by omega),
    rd_set_eq _ 1 _ (by simp only [List.length_set]; omega),
    rd_set_ne _ 0 4 _ (by omega), rd_set_ne _ 0 3 _ (by omega), rd_set_ne _ 0 2 _ (by omega),
    rd_set_ne _ 0 1 _ (by omega), rd_set_eq _ 0 _ (by simp only [List.length_set]; omega)]

/-- Accepting a stage-0 packet stores the address bytes and their exact sum. -/
theorem checksum_inv_accept_stage_0 (a p : List Nat) (q : List (List Nat)) (c st : Nat)
    (h : checksum_inv (a, q, p, c, st)) :
    checksum_inv
      (forLoop 5 (fun i a => a.set i (rd p (3 + i))) (a.set (a.length - 1) (rd p 1)), q, p,
       forLoop 5 (fun i c => (c + rd p (3 + i)) % 65536) 0, 1) := by
  obtain ⟨h1, h2, h3, -, -⟩ := h
  have h1 : a.length = 26 := h1
  have h3 : byte_frame p = true := h3
  have p3 := rd_lt_of_byte_frame p h3 3
  have p4 := rd_lt_of_byte_frame p h3 4
  have p5 := rd_lt_of_byte_frame p h3 5
  have p6 := rd_lt_of_byte_frame p h3 6
  have p7 := rd_lt_of_byte_frame p h3 7
  have hsum := stage_0_checksum p h3
  have harea := stage_0_address a p h1
  have hlen : (forLoop 5 (fun i a => a.set i (rd p (3 + i)))
      (a.set (a.length - 1) (rd p 1))).length = 26 := by
    simp only [forLoop, List.length_set]
    exact h1
  refine ⟨hlen, h2, h3, ?_, fun _ => ?_⟩
  · show forLoop 5 (fun i c => (c + rd p (3 + i)) % 65536) 0 ≤ 1275
    rw [hsum]
    omega
  · show forLoop 5 (fun i c => (c + rd p (3 + i)) % 65536) 0 = address_sum _
    rw [hsum, harea]

/-- Accepting a hop-table block leaves the address bytes and the checksum. -/
theorem checksum_inv_accept_block (a p : List Nat) (q : List (List Nat)) (c st st' : Nat)
    (off n : Nat) (hoff : 5 ≤ off) (hst : st ≠ 0) (h : checksum_inv (a, q, p, c, st)) :
    checksum_inv (forLoop n (fun i a => a.set (off + i) (rd p (3 + i))) a, q, p, c, st') := by
  obtain ⟨h1, h2, h3, h4, h5⟩ := h
  refine ⟨(length_copy off p a n).trans h1, h2, h3, h4, fun _ => ?_⟩
  show c = address_sum _
  rw [address_sum_copy off hoff p a n]
  exact h5 hst

theorem checksum_inv_bind_switch (s : State) (h : checksum_inv (checksum_view s)) :
    checksum_inv (checksum_view (bind_switch s)) := by
  rw [bind_switch_eq]
  split_ifs with g0 g1 g2 g3 g4 g5 g6 g7 g8 g9 g10 g11 g12 g13
  · exact checksum_inv_accept_stage_0 _ _ _ _ _ h
  · exact h
  · exact h
  · exact checksum_inv_accept_block _ _ _ _ _ 2 5 7 (by omega) (by rw [g3]; omega) h
  · exact h
  · exact h
  · exact h
  · exact checksum_inv_accept_block _ _ _ _ _ 3 12 7 (by omega) (by rw [g7]; omega) h
  · exact h
  · exact h
  · exact h
  · rw [checksum_view_binding_done]
    apply checksum_inv_flush _ _ s.rf_rx_fifo
    have e : checksum_view (parse_bind_data (save_persistent_storage
        { s with bind_storage_area := (copy_hop_block 19 6 s).bind_storage_area }))
        = ((copy_hop_block 19 6 s).bind_storage_area, s.rf_rx_fifo, s.payload, s.checksum,
            s.bind_state) := by
      rw [checksum_view_parse_bind_data]
      rfl
    have e1 := congrArg (fun v => v.1) e
    have e3 := congrArg (fun v => v.2.2.1) e
    have e4 := congrArg (fun v => v.2.2.2.1) e
    have e5 := congrArg (fun v => v.2.2.2.2) e
    simp only [checksum_view] at e1 e3 e4 e5
    rw [e1, e3, e4, e5]
    exact checksum_inv_accept_block _ _ _ _ _ s.bind_state 19 6 (by omega)
      (by rw [g11]; omega) h
  · exact h
  · exact h
  · exact h
  · exact checksum_inv_stage_0 _ _ _ _ _ h

theorem checksum_inv_process_binding (s : State) (h : checksum_inv (checksum_view s)) :
    checksum_inv (checksum_view (process_binding s)) := by
  rw [process_binding_eq]
  split_ifs
  · exact h
  · exact checksum_inv_stage_0 _ _ _ _ _ h
  · rw [checksum_view_binding_done]
    exact checksum_inv_flush _ _ _ _ _ h
  · exact h
  · apply checksum_inv_bind_switch
    rw [checksum_view_drained]
    exact checksum_inv_drain _ _ _ _ _ h

theorem checksum_inv_dispatch (cfg : Build) (s : State) (tick button : Bool)
    (h : checksum_inv (checksum_view s)) :
    checksum_inv (checksum_view (dispatch cfg tick button s)) := by
  have e1 := congrArg checksum_view
    (process_systick_footprint { s with systick := tick, GPIO_BIND := button })
  have e2 := congrArg checksum_view (process_bind_button_footprint
    (process_systick { s with systick := tick, GPIO_BIND := button }))
  have e3 := congrArg checksum_view (process_led_footprint cfg (process_receiving cfg
    (process_binding (process_bind_button
      (process_systick { s with systick := tick, GPIO_BIND := button })))))
  have v1 : checksum_view (process_systick { s with systick := tick, GPIO_BIND := button })
      = checksum_view s := e1
  have v2 : checksum_view (process_bind_button
        (process_systick { s with systick := tick, GPIO_BIND := button }))
      = checksum_view (process_systick { s with systick := tick, GPIO_BIND := button }) := e2
  have v3 : checksum_view (process_led cfg (process_receiving cfg
      (process_binding (process_bind_button
        (process_systick { s with systick := tick, GPIO_BIND := button })))))
      = checksum_view (process_receiving cfg (process_binding (process_bind_button
        (process_systick { s with systick := tick, GPIO_BIND := button })))) := e3
  rw [dispatch_eq, v3]
  apply checksum_inv_process_receiving
  apply checksum_inv_process_binding
  rw [v2, v1]
  exact h

theorem checksum_view_servo_pulse_timer_handler (cfg : Build) (s : State) :
    checksum_view (servo_pulse_timer_handler cfg s) = checksum_view s := by
  have step : ∀ t : State, checksum_view (servo_pulse_step cfg t) = checksum_view t := by
    intro t
    have e := congrArg checksum_view (servo_pulse_step_footprint cfg t)
    exact e
  have ppm : ∀ (v : Bool) (t : State), checksum_view (write_ppm cfg v t) = checksum_view t := by
    intro v t
    have e := congrArg checksum_view (write_ppm_footprint cfg v t)
    exact e
  unfold servo_pulse_timer_handler
  dsimp only
  rw [ppm, step]
  show checksum_view (write_ppm cfg false _) = _
  rw [ppm]
  rfl

theorem checksum_inv_run (cfg : Build) (es : List Event) (s : State)
    (hes : byte_events es = true) (h : checksum_inv (checksum_view s)) :
    checksum_inv (checksum_view (run cfg es s)) := by
  induction es generalizing s with
  | nil => exact h
  | cons e es ih =>
    have hes' : byte_events es = true := by
      unfold byte_events at hes ⊢
      rw [List.all_cons, Bool.and_eq_true] at hes
      exact hes.2
    rw [run_cons]
    apply ih _ hes'
    cases e with
    | dispatch tick button => exact checksum_inv_dispatch cfg s tick button h
    | frame f =>
      have hf : byte_frame f = true := by
        unfold byte_events at hes
        rw [List.all_cons, Bool.and_eq_true] at hes
        exact hes.1
      obtain ⟨h1, h2, h3, h4, h5⟩ := h
      refine ⟨h1, ?_, h3, h4, h5⟩
      intro g hg
      have hg' : g ∈ s.rf_rx_fifo ++ [f] := hg
      rw [List.mem_append, List.mem_singleton] at hg'
      rcases hg' with hg' | hg'
      · exact h2 g hg'
      · rw [hg']; exact hf
    | rf_interrupt => exact h
    | hop_timer => exact h
    | servo_pulse_timer =>
      show checksum_inv (checksum_view (servo_pulse_timer_handler cfg s))
      rw [checksum_view_servo_pulse_timer_handler]
      exact h

theorem checksum_view_init_receiver (s : State) :
    checksum_view (init_receiver s) =
      (s.persistent_storage, [], s.payload, s.checksum, s.bind_state) := by
  have hp := checksum_view_parse_bind_data (load_persistent_storage s)
  have hl : checksum_view (load_persistent_storage s)
      = (s.persistent_storage, s.rf_rx_fifo, s.payload, s.checksum, s.bind_state) := rfl
  have hv := hp.trans hl
  have e1 := congrArg (fun v => v.1) hv
  have e3 := congrArg (fun v => v.2.2.1) hv
  have e4 := congrArg (fun v => v.2.2.2.1) hv
  have e5 := congrArg (fun v => v.2.2.2.2) hv
  simp only [checksum_view] at e1 e3 e4 e5
  simp only [checksum_view, init_receiver, restart_packet_receiving, stop_hop_timer, rf_clear_ce,
    rf_set_rx_address, rf_set_channel, rf_flush_rx_fifo, rf_clear_irq, rf_set_ce,
    initialize_failsafe, e1, e3, e4, e5]

theorem checksum_inv_init (nv : List Nat) (hnv : nv.length = 26) :
    checksum_inv (checksum_view (init_receiver (power_on nv))) := by
  rw [checksum_view_init_receiver]
  have hp : byte_frame (List.replicate PAYLOAD_SIZE 0) = true := by decide
  exact ⟨hnv, fun f hf => absurd hf (List.not_mem_nil f), hp, Nat.zero_le _,
    fun h => absurd rfl h⟩

theorem checksum_inv_reach (cfg : Build) (nv : List Nat) (es : List Event)
    (hnv : nv.length = 26) (hes : byte_events es = true) :
    checksum_inv (checksum_view (reach cfg nv es)) :=
  checksum_inv_run cfg es _ hes (checksum_inv_init nv hnv)

/-- What accepting a stage-0 packet stores. -/
theorem process_binding_accepts_stage_0 (s : State) (f : List Nat)
    (hb : s.binding = true) (ht : s.bind_timer ≠ 0) (h0 : s.bind_state = 0)
    (hlen : s.bind_storage_area.length = 26) (hf : byte_frame f = true)
    (hacc : stage_accepts 0 s.checksum f) :
    (process_binding (deliver f s)).bind_state = 1 ∧
    (process_binding (deliver f s)).checksum = rd f 3 + rd f 4 + rd f 5 + rd f 6 + rd f 7 ∧
    address_sum (process_binding (deliver f s)).bind_storage_area
      = rd f 3 + rd f 4 + rd f 5 + rd f 6 + rd f 7 := by
  unfold stage_accepts at hacc
  rw [if_pos rfl] at hacc
  have hs : (bind_input f s).bind_state = 0 := h0
  have hp : (bind_input f s).payload = rf_read_fifo f := rfl
  have ha : (bind_input f s).bind_storage_area = s.bind_storage_area := rfl
  have hi : PROTOCOLID_INDEX (bind_input f s) = s.bind_storage_area.length - 1 := rfl
  have r0 := rd_rf_read_fifo f 0 (by omega)
  have r1 := rd_rf_read_fifo f 1 (by omega)
  have r2 := rd_rf_read_fifo f 2 (by omega)
  have hbf := byte_frame_rf_read_fifo f hf
  have hsum := stage_0_checksum (rf_read_fifo f) hbf
  have harea := stage_0_address s.bind_storage_area (rf_read_fifo f) hlen
  rw [rd_rf_read_fifo f 3 (by omega), rd_rf_read_fifo f 4 (by omega),
    rd_rf_read_fifo f 5 (by omega), rd_rf_read_fifo f 6 (by omega),
    rd_rf_read_fifo f 7 (by omega)] at hsum harea
  rw [process_binding_deliver s f hb ht, bind_switch_eq, if_pos hs, hp, r0, r1, r2,
    if_pos hacc.1, if_pos hacc.2, ha, hi]
  exact ⟨rfl, hsum, harea⟩

/-- C22: in every state reached from `init_receiver` with a 26-byte bind
record by dispatches, interrupts and frames of 8-bit values, the stored
checksum is at most 1275 (its high byte at most 4), and whenever the bind
stage is not 0, i.e. after stage 0 was accepted, it is the exact sum of the
five stored address bytes; accepting a stage-0 packet stores the exact sum
a0+a1+a2+a3+a4 of its address bytes.  Therefore at stages 1, 2 and 3 a packet
whose byte 1 is greater than 4 does not pass the stage test, and
`process_binding` only consumes it: stage, checksum and storage area stay as
they were. -/
theorem C22_checksum_is_exact_address_sum (cfg : Build) (nv : List Nat) (es : List Event)
    (hnv : nv.length = 26) (hes : byte_events es = true) :
    (reach cfg nv es).checksum ≤ 1275 ∧
    (reach cfg nv es).checksum / 256 ≤ 4 ∧
    ((reach cfg nv es).bind_state ≠ 0 →
      (reach cfg nv es).checksum = address_sum (reach cfg nv es).bind_storage_area) ∧
    (∀ f : List Nat, byte_frame f = true →
      (reach cfg nv es).binding = true → (reach cfg nv es).bind_timer ≠ 0 →
      (reach cfg nv es).bind_state = 0 → stage_accepts 0 (reach cfg nv es).checksum f →
      (process_binding (deliver f (reach cfg nv es))).bind_state = 1 ∧
      (process_binding (deliver f (reach cfg nv es))).checksum
        = rd f 3 + rd f 4 + rd f 5 + rd f 6 + rd f 7 ∧
      address_sum (process_binding (deliver f (reach cfg nv es))).bind_storage_area
        = rd f 3 + rd f 4 + rd f 5 + rd f 6 + rd f 7) ∧
    (∀ f : List Nat, 4 < rd f 1 →
      1 ≤ (reach cfg nv es).bind_state → (reach cfg nv es).bind_state ≤ 3 →
      ¬ stage_accepts (reach cfg nv es).bind_state (reach cfg nv es).checksum f ∧
      ((reach cfg nv es).binding = true → (reach cfg nv es).bind_timer ≠ 0 →
        process_binding (deliver f (reach cfg nv es)) = bind_input f (reach cfg nv es))) := by
  obtain ⟨h1, -, -, h4, h5⟩ := checksum_inv_reach cfg nv es hnv hes
  have h1 : (reach cfg nv es).bind_storage_area.length = 26 := h1
  have h4 : (reach cfg nv es).checksum ≤ 1275 := h4
  have h5 : (reach cfg nv es).bind_state ≠ 0 →
      (reach cfg nv es).checksum = address_sum (reach cfg nv es).bind_storage_area := h5
  generalize reach cfg nv es = s at h1 h4 h5
  refine ⟨h4, by omega, h5, ?_, ?_⟩
  · intro f hf hb ht h0 hacc
    exact process_binding_accepts_stage_0 s f hb ht h0 h1 hf hacc
  · intro f hf1 hlo hhi
    have hrej : ¬ stage_accepts s.bind_state s.checksum f := by
      unfold stage_accepts
      rw [if_neg (by omega)]
      intro hacc
      have := hacc.2.1
      omega
    refine ⟨hrej, fun hb ht => ?_⟩
    rw [process_binding_deliver s f hb ht]
    exact bind_switch_reject s f hhi hrej

set_option maxRecDepth 1000000 in
/-- C22 at a concrete input: at stage 1 of a bind session the transmitter
repeats its marker packet (byte 1 = 0xAA); it is not accepted. -/
theorem C22_checksum_is_exact_address_sum_witness :
    (nv_blank.length = 26 ∧ byte_events stage_1_trace = true) ∧
    (reach cfg0 nv_blank stage_1_trace).bind_state = 1 ∧
    (reach cfg0 nv_blank stage_1_trace).checksum = 15 ∧
    ¬ stage_accepts (reach cfg0 nv_blank stage_1_trace).bind_state
        (reach cfg0 nv_blank stage_1_trace).checksum marker_packet :=
  ⟨by decide, by decide, by decide,
   ((C22_checksum_is_exact_address_sum cfg0 nv_blank stage_1_trace (by decide)
      (by decide)).2.2.2.2 marker_packet (by decide) (by decide) (by decide)).1⟩

/-! ## Channel outputs follow the step counter -/

theorem pin_view_restart_packet_receiving (s : State) :
    pin_view (restart_packet_receiving s) = pin_view s := by
  simp [pin_view, pins, restart_packet_receiving, stop_hop_timer, rf_clear_ce,
    rf_set_rx_address, rf_set_channel, rf_flush_rx_fifo, rf_clear_irq, rf_set_ce]

theorem pin_view_binding_done (s : State) : pin_view (binding_done s) = pin_view s := by
  unfold binding_done
  dsimp only
  rw [pin_view_restart_packet_receiving]
  rfl

theorem pin_view_parse_bind_data (s : State) : pin_view (parse_bind_data s) = pin_view s := by
  unfold parse_bind_data
  dsimp only
  split_ifs <;> rfl

theorem pin_view_process_binding (s : State) : pin_view (process_binding s) = pin_view s := by
  rcases process_binding_shape s with h | h | h | ⟨a, c, st, h⟩ | ⟨a, h⟩
  · rw [h]
  · rw [h]; rfl
  · rw [h]; exact pin_view_binding_done s
  · rw [h]; rfl
  · rw [h, pin_view_binding_done, pin_view_parse_bind_data]
    rfl

theorem pin_view_output_pulses (s : State) : pin_view (output_pulses s) = pin_view s := by
  unfold output_pulses
  split_ifs <;> rfl

theorem pin_view_apply_failsafe (s : State) : pin_view (apply_failsafe s) = pin_view s := by
  rw [apply_failsafe_eq]
  split_ifs
  · show pin_view (output_pulses _) = _
    rw [pin_view_output_pulses]
    rfl
  · rfl
  · rfl

theorem pin_view_perform_hop (s : State) : pin_view (perform_hop s) = pin_view s := by
  rw [perform_hop_eq]
  split_ifs
  · rw [pin_view_restart_packet_receiving]
    rfl
  · rfl
  · rfl

theorem pin_view_receive_frame (cfg : Build) (s : State) :
    pin_view (receive_frame cfg s) = pin_view s := by
  rw [receive_frame_eq]
  split_ifs
  · rfl
  · show pin_view (output_pulses _) = _
    rw [pin_view_output_pulses]
    rfl
  · rfl
  · rfl
  · rfl

theorem pin_view_process_receiving (cfg : Build) (s : State) :
    pin_view (process_receiving cfg s) = pin_view s := by
  rw [process_receiving_eq]
  split_ifs
  · rfl
  · rw [pin_view_receive_frame, pin_view_perform_hop, pin_view_apply_failsafe]

/-- A dispatch writes neither the step counter nor a channel output. -/
theorem pin_view_dispatch (cfg : Build) (s : State) (tick button : Bool) :
    pin_view (dispatch cfg tick button s) = pin_view s := by
  have e1 := congrArg pin_view
    (process_systick_footprint { s with systick := tick, GPIO_BIND := button })
  have e2 := congrArg pin_view (process_bind_button_footprint
    (process_systick { s with systick := tick, GPIO_BIND := button }))
  have e3 := congrArg pin_view (process_led_footprint cfg (process_receiving cfg
    (process_binding (process_bind_button
      (process_systick { s with systick := tick, GPIO_BIND := button })))))
  have v1 : pin_view (process_systick { s with systick := tick, GPIO_BIND := button })
      = pin_view s := e1
  have v2 : pin_view (process_bind_button
        (process_systick { s with systick := tick, GPIO_BIND := button }))
      = pin_view (process_systick { s with systick := tick, GPIO_BIND := button }) := e2
  have v3 : pin_view (process_led cfg (process_receiving cfg
      (process_binding (process_bind_button
        (process_systick { s with systick := tick, GPIO_BIND := button })))))
      = pin_view (process_receiving cfg (process_binding (process_bind_button
        (process_systick { s with systick := tick, GPIO_BIND := button })))) := e3
  rw [dispatch_eq, v3, pin_view_process_receiving, pin_view_process_binding, v2, v1]

/-! ## The one-shot callback of `systick.c` -/

theorem systick_set_callback_armed (cb d ms : Nat) (c : SystickCallback)
    (log : List (Nat × Nat × List Nat)) (hc : c.callback = 0 ∨ c.callback = cb) :
    systick_set_callback cb d { milliseconds := ms, callbacks := [c], invoked := log } =
      { milliseconds := ms,
        callbacks := [{ callback := cb, trigger_ms := (ms + max d 1) % 2 ^ 32 }],
        invoked := log } := by
  have hd : (if d = 0 then 1 else d) = max d 1 := by
    split_ifs with h
    · rw [h]; rfl
    · omega
  unfold systick_set_callback
  dsimp only
  rw [hd]
  by_cases h : c.callback = cb
  · simp [find_callback, MAX_SYSTICK_CALLBACKS, Systick.slot, arm_callback, h, List.range,
      List.range.loop]
  · have h0 : c.callback = 0 := hc.resolve_right h
    have h1 : ¬ 0 = cb := by rw [← h0]; exact h
    simp [find_callback, get_emtpy_callback_slot, MAX_SYSTICK_CALLBACKS, Systick.slot,
      arm_callback, h0, h1, List.range, List.range.loop]

theorem systick_set_callback_occupied (cb d : Nat) (s : Systick) (c : SystickCallback)
    (hs : s.callbacks = [c]) (h0 : c.callback ≠ 0) (hcb : c.callback ≠ cb) :
    systick_set_callback cb d s = s := by
  unfold systick_set_callback
  simp [find_callback, get_emtpy_callback_slot, MAX_SYSTICK_CALLBACKS, Systick.slot, hs, h0,
    hcb, List.range, List.range.loop]

theorem sys_tick_handler_eq (ms : Nat) (c : SystickCallback)
    (log : List (Nat × Nat × List Nat)) :
    sys_tick_handler { milliseconds := ms, callbacks := [c], invoked := log } =
      if c.callback ≠ 0 ∧ c.trigger_ms = (ms + 1) % 2 ^ 32 then
        { milliseconds := (ms + 1) % 2 ^ 32,
          callbacks := [{ callback := 0, trigger_ms := c.trigger_ms }],
          invoked := log ++ [(c.callback, (ms + 1) % 2 ^ 32, [0])] }
      else
        { milliseconds := (ms + 1) % 2 ^ 32, callbacks := [c], invoked := log } := by
  unfold sys_tick_handler
  simp only [MAX_SYSTICK_CALLBACKS, forLoop, Systick.slot, List.getD_cons_zero]
  split_ifs <;> simp [invoke_callback]

/-- Before the trigger time the ticks only count. -/
theorem sys_ticks_waiting (cb ms D : Nat) (log : List (Nat × Nat × List Nat))
    (hms : ms < 2 ^ 32) (hD : D < 2 ^ 32) (k : Nat) (hk : k < D) :
    sys_ticks k { milliseconds := ms,
                  callbacks := [{ callback := cb, trigger_ms := (ms + D) % 2 ^ 32 }],
                  invoked := log } =
      { milliseconds := (ms + k) % 2 ^ 32,
        callbacks := [{ callback := cb, trigger_ms := (ms + D) % 2 ^ 32 }],
        invoked := log } := by
  induction k with
  | zero =>
    have h0 : (ms + 0) % 2 ^ 32 = ms := Nat.mod_eq_of_lt hms
    rw [h0]
    rfl
  | succ k ih =>
    have hne : ¬ ((cb ≠ 0) ∧ (ms + D) % 2 ^ 32 = ((ms + k) % 2 ^ 32 + 1) % 2 ^ 32) := by
      intro h
      have h2 := h.2
      norm_num at h2 hD
      omega
    show sys_tick_handler (sys_ticks k _) = _
    rw [ih (by omega), sys_tick_handler_eq, if_neg hne]
    have hm : ((ms + k) % 2 ^ 32 + 1) % 2 ^ 32 = (ms + (k + 1)) % 2 ^ 32 := by
      norm_num
      omega
    rw [hm]

/-- The tick that reaches the trigger time empties the slot and calls the
callback. -/
theorem sys_ticks_fire (cb ms D : Nat) (log : List (Nat × Nat × List Nat))
    (hcb : cb ≠ 0) (hms : ms < 2 ^ 32) (hD : D < 2 ^ 32) (h1 : 1 ≤ D) :
    sys_ticks D { milliseconds := ms,
                  callbacks := [{ callback := cb, trigger_ms := (ms + D) % 2 ^ 32 }],
                  invoked := log } =
      { milliseconds := (ms + D) % 2 ^ 32,
        callbacks := [{ callback := 0, trigger_ms := (ms + D) % 2 ^ 32 }],
        invoked := log ++ [(cb, (ms + D) % 2 ^ 32, [0])] } := by
  obtain ⟨k, rfl⟩ : ∃ k, D = k + 1 := ⟨D - 1, by omega⟩
  have hm : ((ms + k) % 2 ^ 32 + 1) % 2 ^ 32 = (ms + (k + 1)) % 2 ^ 32 := by
    norm_num
    omega
  show sys_tick_handler (sys_ticks k _) = _
  rw [sys_ticks_waiting cb ms (k + 1) log hms hD k (by omega), sys_tick_handler_eq, hm,
    if_pos ⟨hcb, rfl⟩]

theorem sys_tick_handler_idle (s : Systick) (t : Nat)
    (h : s.callbacks = [{ callback := 0, trigger_ms := t }]) :
    (sys_tick_handler s).callbacks = s.callbacks ∧ (sys_tick_handler s).invoked = s.invoked := by
  obtain ⟨m, cs, l⟩ := s
  simp only at h
  subst h
  rw [sys_tick_handler_eq, if_neg (fun h => h.1 rfl)]
  exact ⟨rfl, rfl⟩

/-- With the slot empty the ticks only count. -/
theorem sys_ticks_idle (s : Systick) (t : Nat)
    (h : s.callbacks = [{ callback := 0, trigger_ms := t }]) (n : Nat) :
    (sys_ticks n s).callbacks = s.callbacks ∧ (sys_ticks n s).invoked = s.invoked := by
  induction n with
  | zero => exact ⟨rfl, rfl⟩
  | succ n ih =>
    obtain ⟨h1, h2⟩ := sys_tick_handler_idle (sys_ticks n s) t (ih.1.trans h)
    exact ⟨h1.trans ih.1, h2.trans ih.2⟩

theorem sys_ticks_after_fire (ms t : Nat) (log : List (Nat × Nat × List Nat)) (n : Nat) :
    (sys_ticks n { milliseconds := ms, callbacks := [{ callback := 0, trigger_ms := t }],
                   invoked := log }).callbacks = [{ callback := 0, trigger_ms := t }] ∧
    (sys_ticks n { milliseconds := ms, callbacks := [{ callback := 0, trigger_ms := t }],
                   invoked := log }).invoked = log :=
  sys_ticks_idle _ t rfl n

theorem sys_ticks_add (m n : Nat) (s : Systick) :
    sys_ticks (m + n) s = sys_ticks m (sys_ticks n s) := by
  induction m with
  | zero => simp [sys_ticks]
  | succ m ih =>
    have h : m + 1 + n = (m + n) + 1 := by omega
    rw [h]
    show sys_tick_handler (sys_ticks (m + n) s) = sys_tick_handler (sys_ticks m (sys_ticks n s))
    rw [ih]

/-- C26: after `systick_set_callback(cb, d)` made while the single slot is free
or already holds `cb` (`cb` not `NULL`, `d` and `milliseconds` 32-bit values),
with only system ticks afterwards: during the first max(d,1) - 1 ticks nothing
is called; the max(d,1)-th tick calls `cb`, with the slot already empty and
`milliseconds` at the 32-bit sum of the time of the call and max(d,1); no later
tick calls anything, so after any number `n` of ticks `cb` has been called
once if max(d,1) ≤ n and not at all otherwise.  A call made while the slot
holds a different callback changes nothing. -/
theorem C26_one_shot_callback (cb d ms : Nat) (c : SystickCallback)
    (log : List (Nat × Nat × List Nat)) (n : Nat)
    (hcb : cb ≠ 0) (hd : d < 2 ^ 32) (hms : ms < 2 ^ 32) :
    ((c.callback = 0 ∨ c.callback = cb) →
      (sys_ticks n (systick_set_callback cb d
        { milliseconds := ms, callbacks := [c], invoked := log })).invoked
        = (if max d 1 ≤ n then log ++ [(cb, (ms + max d 1) % 2 ^ 32, [0])] else log) ∧
      (max d 1 ≤ n →
        (sys_ticks n (systick_set_callback cb d
          { milliseconds := ms, callbacks := [c], invoked := log })).callbacks.map
            SystickCallback.callback = [0])) ∧
    (c.callback ≠ 0 → c.callback ≠ cb →
      systick_set_callback cb d { milliseconds := ms, callbacks := [c], invoked := log }
        = { milliseconds := ms, callbacks := [c], invoked := log }) := by
  have hD : max d 1 < 2 ^ 32 := by
    norm_num at hd ⊢
    omega
  have h1 : 1 ≤ max d 1 := by omega
  refine ⟨fun hc => ?_, fun h0 hne => systick_set_callback_occupied cb d _ c rfl h0 hne⟩
  rw [systick_set_callback_armed cb d ms c log hc]
  generalize max d 1 = D at hD h1
  by_cases hn : D ≤ n
  · obtain ⟨m, rfl⟩ : ∃ m, n = m + D := ⟨n - D, by omega⟩
    rw [if_pos hn, sys_ticks_add, sys_ticks_fire cb ms D log hcb hms hD h1]
    obtain ⟨i1, i2⟩ := sys_ticks_after_fire ((ms + D) % 2 ^ 32) ((ms + D) % 2 ^ 32)
      (log ++ [(cb, (ms + D) % 2 ^ 32, [0])]) m
    refine ⟨i2, fun _ => ?_⟩
    rw [i1]
    rfl
  · rw [if_neg hn, sys_ticks_waiting cb ms D log hms hD n (by omega)]
    exact ⟨rfl, fun h => absurd h hn⟩

/-- C26 at a concrete input: a callback set for 3 ms, two ticks before the
32-bit counter wraps, observed after 5 ticks. -/
theorem C26_one_shot_callback_witness :
    ((7 : Nat) ≠ 0 ∧ (3 : Nat) < 2 ^ 32 ∧ 2 ^ 32 - 2 < 2 ^ 32) ∧
    (sys_ticks 5 (systick_set_callback 7 3
      { milliseconds := 2 ^ 32 - 2, callbacks := [{ callback := 0, trigger_ms := 0 }],
        invoked := [] })).invoked = [(7, 1, [0])] :=
  ⟨by decide,
   ((C26_one_shot_callback 7 3 (2 ^ 32 - 2) { callback := 0, trigger_ms := 0 } [] 5
      (by decide) (by decide) (by decide)).1 (Or.inl rfl)).1⟩

/-! ## Array bounds of `channels` and `failsafe` -/

theorem read_cell_inside (n : Nat) (a : Nat → Nat) (i : Nat) (h : i < n) :
    read_cell n a i = some (a i) := by
  unfold read_cell
  rw [if_pos h]

theorem write_cell_inside (n : Nat) (a : Nat → Nat) (i v : Nat) (h : i < n) :
    write_cell n a i v = some (write16 a i v) := by
  unfold write_cell
  rw [if_pos h]

theorem read_cell_outside (n : Nat) (a : Nat → Nat) (i : Nat) (h : ¬ i < n) :
    read_cell n a i = none := by
  unfold read_cell
  rw [if_neg h]

theorem write_cell_outside (n : Nat) (a : Nat → Nat) (i v : Nat) (h : ¬ i < n) :
    write_cell n a i v = none := by
  unfold write_cell
  rw [if_neg h]

/-- With four elements every access of `output_pulses` is inside. -/
theorem output_pulses_checked_four (n : Nat) (h : 4 ≤ n) (s : State) :
    output_pulses_checked n s = some (output_pulses s) := by
  unfold output_pulses_checked output_pulses
  simp only [read_cell_inside n _ 0 (by omega), read_cell_inside n _ 1 (by omega),
    read_cell_inside n _ 2 (by omega), read_cell_inside n _ 3 (by omega), Option.some_bind]
  split_ifs <;> rfl

/-- With the declared length the read `channels[3]` of `output_pulses` is
outside the array. -/
theorem output_pulses_checked_declared (s : State) :
    output_pulses_checked NUMBER_OF_CHANNELS s = none := by
  unfold output_pulses_checked
  simp [read_cell, NUMBER_OF_CHANNELS]

theorem initialize_failsafe_checked_inside (n : Nat) (h : NUMBER_OF_CHANNELS ≤ n) (s : State) :
    initialize_failsafe_checked n s = some (initialize_failsafe s) := by
  unfold NUMBER_OF_CHANNELS at h
  unfold initialize_failsafe_checked initialize_failsafe
  simp only [NUMBER_OF_CHANNELS, forLoopM, forLoop, write_cell_inside n _ 0 _ (by omega),
    write_cell_inside n _ 1 _ (by omega), write_cell_inside n _ 2 _ (by omega), Option.some_bind]

theorem apply_failsafe_checked_four (n : Nat) (h : 4 ≤ n) (s : State) :
    apply_failsafe_checked n s = some (apply_failsafe s) := by
  unfold apply_failsafe_checked apply_failsafe
  simp only [NUMBER_OF_CHANNELS, forLoopM, forLoop, write_cell_inside n _ 0 _ (by omega),
    write_cell_inside n _ 1 _ (by omega), write_cell_inside n _ 2 _ (by omega),
    read_cell_inside n _ 0 (by omega), read_cell_inside n _ 1 (by omega),
    read_cell_inside n _ 2 (by omega), Option.some_bind, output_pulses_checked_four n h]
  split_ifs <;> rfl

theorem receive_frame_checked_four (n : Nat) (h : 4 ≤ n) (cfg : Build) (s : State) :
    receive_frame_checked n cfg s = some (receive_frame cfg s) := by
  unfold receive_frame_checked receive_frame
  simp only [write_cell_inside n _ 0 _ (by omega), write_cell_inside n _ 1 _ (by omega),
    write_cell_inside n _ 2 _ (by omega), write_cell_inside n _ 3 _ (by omega), Option.some_bind,
    output_pulses_checked_four n h,
    initialize_failsafe_checked_inside n (by unfold NUMBER_OF_CHANNELS; omega)]
  split_ifs <;> rfl

/-- With four elements in `channels[]` and `failsafe[]` every access is inside
and `process_receiving_checked` is `process_receiving`. -/
theorem process_receiving_checked_four (n : Nat) (h : 4 ≤ n) (cfg : Build) (s : State) :
    process_receiving_checked n cfg s = some (process_receiving cfg s) := by
  unfold process_receiving_checked process_receiving
  simp only [apply_failsafe_checked_four n h, Option.some_bind, receive_frame_checked_four n h]
  split_ifs <;> rfl

theorem receive_frame_checked_eq (n : Nat) (cfg : Build) (s : State) :
    receive_frame_checked n cfg s =
      if s.rf_int_fired = false then some s
      else if rd (received cfg s).payload 7 = (received cfg s).stickdata_packetid then
        (write_cell n (received cfg s).channels 0 (rd16 (received cfg s).payload 1 0)).bind
          fun c =>
        (write_cell n c 1 (rd16 (received cfg s).payload 3 2)).bind fun c =>
        (write_cell n c 2 (rd16 (received cfg s).payload 5 4)).bind fun c =>
        (write_cell n c 3 (rd16 (received cfg s).payload 9 6)).bind fun c =>
        (output_pulses_checked n { received cfg s with channels := c }).bind fun t =>
        some { t with successful_stick_data := true,
                      failsafe_timer := FAILSAFE_TIMEOUT,
                      led_state := LED_STATE_RECEIVING }
      else if rd (received cfg s).payload 7 = (received cfg s).failsafe_packetid then
        if rd (received cfg s).payload 8 = 0x5a then
          (write_cell n (received cfg s).failsafe 0 (rd16 (received cfg s).payload 1 0)).bind
            fun f =>
          (write_cell n f 1 (rd16 (received cfg s).payload 3 2)).bind fun f =>
          (write_cell n f 2 (rd16 (received cfg s).payload 5 4)).bind fun f =>
          (write_cell n f 3 (rd16 (received cfg s).payload 9 6)).bind fun f =>
          some { received cfg s with failsafe_enabled := true, failsafe := f }
        else initialize_failsafe_checked n (received cfg s)
      else some (received cfg s) := rfl

/-- With the declared length the store `channels[3] = ...` of a stick-data
frame is outside the array. -/
theorem receive_frame_checked_stick (cfg : Build) (t : State) (f : List Nat)
    (q : List (List Nat)) (hr : t.rf_int_fired = true) (hq : t.rf_rx_fifo = q ++ [f])
    (hid : rd f 7 = t.stickdata_packetid) :
    receive_frame_checked NUMBER_OF_CHANNELS cfg t = none := by
  have hp : (received cfg t).payload = rf_read_fifo f := by
    show drain_fifo t.rf_rx_fifo t.payload = _
    rw [hq, drain_fifo_snoc]
  have hs : (received cfg t).stickdata_packetid = t.stickdata_packetid := rfl
  rw [receive_frame_checked_eq, if_neg (show ¬ t.rf_int_fired = false by simp [hr]), hp, hs,
    rd_rf_read_fifo f 7 (by omega), if_pos hid]
  simp [write_cell, NUMBER_OF_CHANNELS]

/-- With the declared length the store `failsafe[3] = ...` of an enabling
failsafe frame is outside the array. -/
theorem receive_frame_checked_failsafe_on (cfg : Build) (t : State) (f : List Nat)
    (q : List (List Nat)) (hr : t.rf_int_fired = true) (hq : t.rf_rx_fifo = q ++ [f])
    (h1 : rd f 7 ≠ t.stickdata_packetid) (hid : rd f 7 = t.failsafe_packetid)
    (h8 : rd f 8 = 0x5a) :
    receive_frame_checked NUMBER_OF_CHANNELS cfg t = none := by
  have hp : (received cfg t).payload = rf_read_fifo f := by
    show drain_fifo t.rf_rx_fifo t.payload = _
    rw [hq, drain_fifo_snoc]
  have hs : (received cfg t).stickdata_packetid = t.stickdata_packetid := rfl
  have hf : (received cfg t).failsafe_packetid = t.failsafe_packetid := rfl
  rw [receive_frame_checked_eq, if_neg (show ¬ t.rf_int_fired = false by simp [hr]), hp, hs, hf,
    rd_rf_read_fifo f 7 (by omega), if_neg h1, if_pos hid, rd_rf_read_fifo f 8 (by omega),
    if_pos h8]
  simp [write_cell, NUMBER_OF_CHANNELS]

/-- With the declared length the failsafe fallback, which ends in
`output_pulses`, reads outside `channels[]`; without a fallback nothing is
accessed. -/
theorem apply_failsafe_checked_declared (s : State) :
    apply_failsafe_checked NUMBER_OF_CHANNELS s =
      if s.successful_stick_data = true ∧ s.failsafe_timer = 0 then none else some s := by
  unfold apply_failsafe_checked
  by_cases h1 : s.successful_stick_data = true
  · by_cases h2 : s.failsafe_timer = 0
    · rw [if_pos h1, if_pos h2, if_pos ⟨h1, h2⟩]
      simp [output_pulses_checked_declared]
    · rw [if_pos h1, if_neg h2, if_neg (fun h => h2 h.2)]
  · rw [if_neg h1, if_neg (fun h => h1 h.1)]

theorem process_receiving_checked_fallback (cfg : Build) (s : State)
    (hb : s.binding = false) (hs : s.successful_stick_data = true)
    (ht : s.failsafe_timer = 0) :
    process_receiving_checked NUMBER_OF_CHANNELS cfg s = none := by
  unfold process_receiving_checked
  rw [if_neg (show ¬ s.binding = true by simp [hb]), apply_failsafe_checked_declared,
    if_pos ⟨hs, ht⟩]
  rfl

/-- What `process_receiving_checked` does with a delivered frame when no
resynchronisation takes place in the call: the fallback if it is due, then the
frame. -/
theorem process_receiving_checked_deliver (cfg : Build) (s : State) (f : List Nat)
    (hb : s.binding = false)
    (hsync : s.perform_hop_requested = false ∨
      (s.hops_without_packet + 1) % 256 ≤ MAX_HOP_WITHOUT_PACKET) :
    process_receiving_checked NUMBER_OF_CHANNELS cfg (deliver f s) = none ∨
    ∃ t : State, t.rf_int_fired = true ∧ t.rf_rx_fifo = s.rf_rx_fifo ++ [f] ∧
      t.stickdata_packetid = s.stickdata_packetid ∧
      t.failsafe_packetid = s.failsafe_packetid ∧
      process_receiving_checked NUMBER_OF_CHANNELS cfg (deliver f s)
        = receive_frame_checked NUMBER_OF_CHANNELS cfg t := by
  have hb' : (deliver f s).binding = false := hb
  have hd : pending (deliver f s) = (true, s.rf_rx_fifo ++ [f], s.stickdata_packetid,
      s.failsafe_packetid) := rfl
  have hsync' : (deliver f s).perform_hop_requested = false ∨
      ((deliver f s).hops_without_packet + 1) % 256 ≤ MAX_HOP_WITHOUT_PACKET := hsync
  have hp := (pending_perform_hop _ hsync').trans hd
  unfold process_receiving_checked
  rw [if_neg (show ¬ (deliver f s).binding = true by simp [hb']),
    apply_failsafe_checked_declared]
  split_ifs
  · exact Or.inl rfl
  · refine Or.inr ⟨perform_hop (deliver f s), ?_, ?_, ?_, ?_, rfl⟩
    · exact congrArg (fun p => p.1) hp
    · exact congrArg (fun p => p.2.1) hp
    · exact congrArg (fun p => p.2.2.1) hp
    · exact congrArg (fun p => p.2.2.2) hp

theorem process_receiving_checked_stick (cfg : Build) (s : State) (f : List Nat)
    (hb : s.binding = false)
    (hsync : s.perform_hop_requested = false ∨
      (s.hops_without_packet + 1) % 256 ≤ MAX_HOP_WITHOUT_PACKET)
    (hid : rd f 7 = s.stickdata_packetid) :
    process_receiving_checked NUMBER_OF_CHANNELS cfg (deliver f s) = none := by
  rcases process_receiving_checked_deliver cfg s f hb hsync with h | ⟨t, h1, h2, h3, -, h5⟩
  · exact h
  · rw [h5]
    exact receive_frame_checked_stick cfg t f s.rf_rx_fifo h1 h2 (hid.trans h3.symm)

theorem process_receiving_checked_failsafe_on (cfg : Build) (s : State) (f : List Nat)
    (hb : s.binding = false)
    (hsync : s.perform_hop_requested = false ∨
      (s.hops_without_packet + 1) % 256 ≤ MAX_HOP_WITHOUT_PACKET)
    (h1 : rd f 7 ≠ s.stickdata_packetid) (hid : rd f 7 = s.failsafe_packetid)
    (h8 : rd f 8 = 0x5a) :
    process_receiving_checked NUMBER_OF_CHANNELS cfg (deliver f s) = none := by
  rcases process_receiving_checked_deliver cfg s f hb hsync with h | ⟨t, e1, e2, e3, e4, e5⟩
  · exact h
  · rw [e5]
    exact receive_frame_checked_failsafe_on cfg t f s.rf_rx_fifo e1 e2
      (fun h => h1 (h.trans e3)) (hid.trans e4.symm) h8

/-- Without a stick-data frame, an enabling failsafe frame or a fallback every
access is inside the arrays as declared. -/
theorem process_receiving_checked_inside (cfg : Build) (s : State)
    (hb : s.binding = false)
    (ht : s.successful_stick_data = true → s.failsafe_timer ≠ 0)
    (hr : s.rf_int_fired = false) :
    process_receiving_checked NUMBER_OF_CHANNELS cfg s = some (process_receiving cfg s) := by
  have hfired : (perform_hop s).rf_int_fired = false := by
    rw [perform_hop_eq]
    split_ifs
    · exact (restart_packet_receiving_hop _).2.2.2.2.1
    · exact hr
    · exact hr
  unfold process_receiving_checked
  rw [if_neg (show ¬ s.binding = true by simp [hb]), apply_failsafe_checked_declared,
    if_neg (fun h => ht h.1 h.2)]
  show receive_frame_checked NUMBER_OF_CHANNELS cfg (perform_hop s) = _
  rw [receive_frame_checked_eq, if_pos hfired, process_receiving_eq,
    if_neg (show ¬ s.binding = true by simp [hb]), apply_failsafe_not_due s ht,
    receive_frame_eq, if_pos hfired]

set_option maxRecDepth 1000000 in
/-- C24 at a failing input: `NUMBER_OF_CHANNELS` is 3, and `process_receiving`
and `output_pulses` address `channels[]` and `failsafe[]` with the constant
index 3.  With arrays of four (or more) elements the functions with bounds
are `process_receiving` and `output_pulses`; with the declared length
`output_pulses` always reads outside `channels[]`, and `process_receiving`
accesses an element outside the arrays whenever it handles a stick-data frame
or an enabling failsafe frame or falls back to the failsafe values, e.g. for
the first stick-data frame after `init_receiver`.  A call without such a
frame and without fallback stays inside. -/
theorem C24_index_3_outside_the_arrays :
    NUMBER_OF_CHANNELS = 3 ∧
    (∀ (n : Nat) (cfg : Build) (s : State), 4 ≤ n →
      process_receiving_checked n cfg s = some (process_receiving cfg s) ∧
      output_pulses_checked n s = some (output_pulses s)) ∧
    (∀ s : State, output_pulses_checked NUMBER_OF_CHANNELS s = none) ∧
    (∀ (cfg : Build) (s : State) (f : List Nat), s.binding = false →
      (s.perform_hop_requested = false ∨
        (s.hops_without_packet + 1) % 256 ≤ MAX_HOP_WITHOUT_PACKET) →
      rd f 7 = s.stickdata_packetid →
      process_receiving_checked NUMBER_OF_CHANNELS cfg (deliver f s) = none) ∧
    (∀ (cfg : Build) (s : State) (f : List Nat), s.binding = false →
      (s.perform_hop_requested = false ∨
        (s.hops_without_packet + 1) % 256 ≤ MAX_HOP_WITHOUT_PACKET) →
      rd f 7 ≠ s.stickdata_packetid → rd f 7 = s.failsafe_packetid → rd f 8 = 0x5a →
      process_receiving_checked NUMBER_OF_CHANNELS cfg (deliver f s) = none) ∧
    (∀ (cfg : Build) (s : State), s.binding = false → s.successful_stick_data = true →
      s.failsafe_timer = 0 →
      process_receiving_checked NUMBER_OF_CHANNELS cfg s = none) ∧
    (∀ (cfg : Build) (s : State), s.binding = false →
      (s.successful_stick_data = true → s.failsafe_timer ≠ 0) → s.rf_int_fired = false →
      process_receiving_checked NUMBER_OF_CHANNELS cfg s = some (process_receiving cfg s)) ∧
    (process_receiving_checked NUMBER_OF_CHANNELS cfg0
      (deliver stick_frame_3ch (reach cfg0 nv_blank []))).isNone = true :=
  ⟨rfl,
   fun n cfg s h => ⟨process_receiving_checked_four n h cfg s, output_pulses_checked_four n h s⟩,
   output_pulses_checked_declared,
   process_receiving_checked_stick,
   process_receiving_checked_failsafe_on,
   process_receiving_checked_fallback,
   process_receiving_checked_inside,
   by decide⟩

/-! ## Stick data in the elements the arrays have -/

/-- C5 (amended): a stick-data frame built from four channel values in the
wire layout, with any byte 8, handled by a call of `process_receiving` with
binding inactive and no resynchronisation in the same call, is decoded to
`channels[k]` = vk for k = 0, 1, 2, the elements `channels[]` has. -/
theorem C5_stick_frame_decoded_in_bounds (cfg : Build) (s : State) (v0 v1 v2 v3 b8 : Nat)
    (hv0 : v0 < 65536) (hv1 : v1 < 65536) (hv2 : v2 < 65536)
    (hbind : s.binding = false)
    (hsync : s.perform_hop_requested = false ∨
      (s.hops_without_packet + 1) % 256 ≤ MAX_HOP_WITHOUT_PACKET) :
    (process_receiving cfg
      (deliver (stick_frame v0 v1 v2 v3 s.stickdata_packetid b8) s)).channels 0 = v0 ∧
    (process_receiving cfg
      (deliver (stick_frame v0 v1 v2 v3 s.stickdata_packetid b8) s)).channels 1 = v1 ∧
    (process_receiving cfg
      (deliver (stick_frame v0 v1 v2 v3 s.stickdata_packetid b8) s)).channels 2 = v2 := by
  generalize hf : stick_frame v0 v1 v2 v3 s.stickdata_packetid b8 = f
  have hd : pending (deliver f s) = (true, s.rf_rx_fifo ++ [f], s.stickdata_packetid,
      s.failsafe_packetid) := rfl
  have hsync' : (apply_failsafe (deliver f s)).perform_hop_requested = false ∨
      ((apply_failsafe (deliver f s)).hops_without_packet + 1) % 256
        ≤ MAX_HOP_WITHOUT_PACKET := by
    have hc := hop_ctx_apply_failsafe (deliver f s)
    have e1 : (apply_failsafe (deliver f s)).perform_hop_requested = s.perform_hop_requested :=
      congrArg (fun p => p.2.2.2.1) hc
    have e2 : (apply_failsafe (deliver f s)).hops_without_packet = s.hops_without_packet :=
      congrArg (fun p => p.2.2.2.2.2) hc
    rw [e1, e2]; exact hsync
  have hp : pending (perform_hop (apply_failsafe (deliver f s))) =
      (true, s.rf_rx_fifo ++ [f], s.stickdata_packetid, s.failsafe_packetid) := by
    rw [pending_perform_hop _ hsync', pending_apply_failsafe, hd]
  unfold pending at hp
  simp only [Prod.mk.injEq] at hp
  obtain ⟨hp1, hp2, hp3, -⟩ := hp
  have hid : rd f 7 = (perform_hop (apply_failsafe (deliver f s))).stickdata_packetid := by
    rw [hp3, ← hf]; rfl
  have hbind' : (deliver f s).binding = false := hbind
  rw [process_receiving_eq, if_neg (by simp [hbind']),
    receive_frame_stick cfg _ f s.rf_rx_fifo hp1 hp2 hid]
  have c0 : rd16 f 1 0 = v0 := rd16_split v0 hv0 f 1 0 (by rw [← hf]; rfl) (by rw [← hf]; rfl)
  have c1 : rd16 f 3 2 = v1 := rd16_split v1 hv1 f 3 2 (by rw [← hf]; rfl) (by rw [← hf]; rfl)
  have c2 : rd16 f 5 4 = v2 := rd16_split v2 hv2 f 5 4 (by rw [← hf]; rfl) (by rw [← hf]; rfl)
  rw [c0, c1, c2]
  refine ⟨?_, ?_, ?_⟩ <;>
  · show (output_pulses _).channels _ = _
    rw [channels_output_pulses]
    simp [write16]

set_option maxRecDepth 100000 in
/-- C5 (amended), at a concrete input: right after `init_receiver`. -/
theorem C5_stick_frame_decoded_in_bounds_witness :
    ((61952 : Nat) < 65536 ∧ (64511 : Nat) < 65536 ∧ (1 : Nat) < 65536 ∧
      (reach cfg0 nv_blank []).binding = false ∧
      ((reach cfg0 nv_blank []).perform_hop_requested = false ∨
        ((reach cfg0 nv_blank []).hops_without_packet + 1) % 256 ≤ MAX_HOP_WITHOUT_PACKET)) ∧
    (process_receiving cfg0
      (deliver (stick_frame 61952 64511 1 65535 (reach cfg0 nv_blank []).stickdata_packetid 7)
        (reach cfg0 nv_blank []))).channels 1 = 64511 :=
  ⟨by decide,
   (C5_stick_frame_decoded_in_bounds cfg0 (reach cfg0 nv_blank []) 61952 64511 1 65535 7
      (by decide) (by decide) (by decide) (by decide) (by decide)).2.1⟩

set_option maxRecDepth 1000000 in
/-- C5 as stated fails: after fifteen missed hops the hop timer has expired
again (miss counter 15, hop requested) when a stick-data frame with the values
1000, 1001, 1002, 1003 is received.  `process_receiving` resynchronises first,
which flushes the receive queue and clears the pending flag: the frame is not
decoded and `channels[0..2]` keep the values 0x2010, 0x2111, 0x2212 of the
frame before. -/
theorem C5_counterexample_frame_flushed_by_resync :
    (reach cfg0 nv_blank resync_due_trace).binding = false ∧
    (reach cfg0 nv_blank resync_due_trace).perform_hop_requested = true ∧
    (reach cfg0 nv_blank resync_due_trace).hops_without_packet = 15 ∧
    stick_frame_new
      = stick_frame 1000 1001 1002 1003 (reach cfg0 nv_blank resync_due_trace).stickdata_packetid
          0 ∧
    (process_receiving cfg0
      (deliver stick_frame_new (reach cfg0 nv_blank resync_due_trace))).channels 0 = 0x2010 ∧
    (process_receiving cfg0
      (deliver stick_frame_new (reach cfg0 nv_blank resync_due_trace))).channels 1 = 0x2111 ∧
    (process_receiving cfg0
      (deliver stick_frame_new (reach cfg0 nv_blank resync_due_trace))).channels 2 = 0x2212 ∧
    (process_receiving cfg0
      (deliver stick_frame_new (reach cfg0 nv_blank resync_due_trace))).rf_rx_fifo = [] ∧
    (process_receiving cfg0
      (deliver stick_frame_new (reach cfg0 nv_blank resync_due_trace))).rf_int_fired = false ∧
    (process_receiving cfg0
      (deliver stick_frame_new (reach cfg0 nv_blank resync_due_trace))).hop_index = 0 := by
  decide

/-! ## Before the first stick data, in the elements the arrays have -/

/-- C6: in a state reached from `init_receiver` by any dispatches and
interrupts in which no stick-data frame has been accepted yet, a dispatch
never sets the status to Failsafe, whatever the failsafe timer holds; if it
accepts no stick-data frame it leaves the channel values, both pulse buffers
and the selector untouched, and if it accepts one, `channels[0..2]` and the
first three entries of the active slot are the values decoded from that frame,
not the FailsafeSet. -/
theorem C6_no_failsafe_before_first_stick_data (cfg : Build) (nv : List Nat)
    (es : List Event) (tick button : Bool)
    (h : (reach cfg nv es).successful_stick_data = false) :
    (dispatch cfg tick button (reach cfg nv es)).led_state ≠ LED_STATE_FAILSAFE ∧
    ((dispatch cfg tick button (reach cfg nv es)).successful_stick_data = false →
      outputs (dispatch cfg tick button (reach cfg nv es)) = outputs (reach cfg nv es)) ∧
    ((dispatch cfg tick button (reach cfg nv es)).successful_stick_data = true →
      (dispatch cfg tick button (reach cfg nv es)).channels 0
        = rd16 (dispatch cfg tick button (reach cfg nv es)).payload 1 0 ∧
      (dispatch cfg tick button (reach cfg nv es)).channels 1
        = rd16 (dispatch cfg tick button (reach cfg nv es)).payload 3 2 ∧
      (dispatch cfg tick button (reach cfg nv es)).channels 2
        = rd16 (dispatch cfg tick button (reach cfg nv es)).payload 5 4 ∧
      (active_slot (dispatch cfg tick button (reach cfg nv es))).take 3
        = [rd16 (dispatch cfg tick button (reach cfg nv es)).payload 1 0,
           rd16 (dispatch cfg tick button (reach cfg nv es)).payload 3 2,
           rd16 (dispatch cfg tick button (reach cfg nv es)).payload 5 4]) := by
  obtain ⟨h1, h2, h3⟩ := dispatch_before_data cfg (reach cfg nv es) tick button h
    (no_failsafe_before_data_reach cfg nv es h)
  refine ⟨h1, h2, fun hs => ?_⟩
  obtain ⟨hc, ha⟩ := h3 hs
  unfold stick_values at hc ha
  simp only [List.cons.injEq, and_true] at hc
  obtain ⟨c0, c1, c2, -⟩ := hc
  refine ⟨c0, c1, c2, ?_⟩
  rw [ha]
  rfl

set_option maxRecDepth 1000000 in
/-- C6, at a concrete input: forty-one ticks after `init_receiver` without any
frame the failsafe timer is 0, and the next dispatch still does not enter
Failsafe. -/
theorem C6_no_failsafe_before_first_stick_data_witness :
    ((reach cfg0 nv_blank silent_trace).successful_stick_data = false ∧
      (reach cfg0 nv_blank silent_trace).failsafe_timer = 0) ∧
    (dispatch cfg0 true BUTTON_RELEASED (reach cfg0 nv_blank silent_trace)).led_state
      ≠ LED_STATE_FAILSAFE :=
  ⟨by decide,
   (C6_no_failsafe_before_first_stick_data cfg0 nv_blank silent_trace true BUTTON_RELEASED
      (by decide)).1⟩

/-! ## The fourth channel and the failsafe values -/

/-- With the declared length a disabling failsafe frame is handled inside the
arrays: `initialize_failsafe` stores to `failsafe[0..2]` only. -/
theorem receive_frame_checked_failsafe_off (cfg : Build) (t : State) (f : List Nat)
    (q : List (List Nat)) (hr : t.rf_int_fired = true) (hq : t.rf_rx_fifo = q ++ [f])
    (h1 : rd f 7 ≠ t.stickdata_packetid) (hid : rd f 7 = t.failsafe_packetid)
    (h8 : rd f 8 ≠ 0x5a) :
    receive_frame_checked NUMBER_OF_CHANNELS cfg t = some (receive_frame cfg t) := by
  have hp : (received cfg t).payload = rf_read_fifo f := by
    show drain_fifo t.rf_rx_fifo t.payload = _
    rw [hq, drain_fifo_snoc]
  have hs : (received cfg t).stickdata_packetid = t.stickdata_packetid := rfl
  have hf : (received cfg t).failsafe_packetid = t.failsafe_packetid := rfl
  have hn : ¬ t.rf_int_fired = false := by simp [hr]
  rw [receive_frame_checked_eq, receive_frame_eq, if_neg hn, if_neg hn, hp, hs, hf,
    rd_rf_read_fifo f 7 (by omega), if_neg h1, if_neg h1, if_pos hid, if_pos hid,
    rd_rf_read_fifo f 8 (by omega), if_neg h8, if_neg h8]
  exact initialize_failsafe_checked_inside NUMBER_OF_CHANNELS (Nat.le_refl _) _

theorem process_receiving_checked_failsafe_off (cfg : Build) (s : State) (f : List Nat)
    (hb : s.binding = false) (hh : s.perform_hop_requested = false)
    (ht : s.successful_stick_data = true → s.failsafe_timer ≠ 0)
    (h1 : rd f 7 ≠ s.stickdata_packetid) (hid : rd f 7 = s.failsafe_packetid)
    (h8 : rd f 8 ≠ 0x5a) :
    process_receiving_checked NUMBER_OF_CHANNELS cfg (deliver f s)
      = some (process_receiving cfg (deliver f s)) := by
  have hb' : (deliver f s).binding = false := hb
  have hh' : (deliver f s).perform_hop_requested = false := hh
  have ht' : (deliver f s).successful_stick_data = true → (deliver f s).failsafe_timer ≠ 0 := ht
  rw [process_receiving_deliver_not_due cfg s f hb hh ht]
  unfold process_receiving_checked
  rw [if_neg (show ¬ (deliver f s).binding = true by simp [hb']),
    apply_failsafe_checked_declared, if_neg (fun h => ht' h.1 h.2), Option.some_bind,
    perform_hop_not_requested _ hh']
  exact receive_frame_checked_failsafe_off cfg (deliver f s) f s.rf_rx_fifo rfl rfl h1 hid h8

/-- C7 on the code: with a stick-data frame accepted before, the failsafe
timer at 0, no frame pending and binding inactive, `process_receiving` sets
the status Failsafe and the entries 0..2 of the active slot to `failsafe[0]`,
`failsafe[1]`, `failsafe[2]`; entry 3, the width of the fourth pulse of the
4-channel train, is not a failsafe value but a copy of what `channels[3]` held
before the call, and that read of `channels[3]` is outside the array as
declared: with bounds the call fails. -/
theorem C7_failsafe_fallback_three_channels (cfg : Build) (s : State)
    (hs : s.successful_stick_data = true) (ht : s.failsafe_timer = 0)
    (hb : s.binding = false) (hr : s.rf_int_fired = false) :
    (process_receiving cfg s).led_state = LED_STATE_FAILSAFE ∧
    (active_slot (process_receiving cfg s)).take 3 = [s.failsafe 0, s.failsafe 1, s.failsafe 2] ∧
    active_slot (process_receiving cfg s) =
      [s.failsafe 0, s.failsafe 1, s.failsafe 2, s.channels 3] ∧
    process_receiving_checked NUMBER_OF_CHANNELS cfg s = none := by
  obtain ⟨h1, h2⟩ := failsafe_fallback_effect cfg s hs ht hb hr
  refine ⟨h1, ?_, h2, process_receiving_checked_fallback cfg s hb hs ht⟩
  rw [h2]
  rfl

set_option maxRecDepth 1000000 in
/-- C7 at the failing input: bound to the 4-channel protocol, the failsafe
values 2000, 2001, 2002, 2003 are configured, one stick-data frame is
accepted, and no frame arrives for `FAILSAFE_TIMEOUT` ticks. -/
theorem C7_failsafe_fallback_three_channels_witness :
    ((reach cfg0 nv_4ch link_lost_trace).stickdata_packetid = STICKDATA_PACKETID_4CH ∧
      (reach cfg0 nv_4ch link_lost_trace).successful_stick_data = true ∧
      (reach cfg0 nv_4ch link_lost_trace).failsafe_timer = 0 ∧
      (reach cfg0 nv_4ch link_lost_trace).binding = false ∧
      (reach cfg0 nv_4ch link_lost_trace).rf_int_fired = false ∧
      [(reach cfg0 nv_4ch link_lost_trace).failsafe 0,
        (reach cfg0 nv_4ch link_lost_trace).failsafe 1,
        (reach cfg0 nv_4ch link_lost_trace).failsafe 2] = [2000, 2001, 2002]) ∧
    (process_receiving cfg0 (reach cfg0 nv_4ch link_lost_trace)).led_state
      = LED_STATE_FAILSAFE ∧
    (active_slot (process_receiving cfg0 (reach cfg0 nv_4ch link_lost_trace))).take 3
      = [(reach cfg0 nv_4ch link_lost_trace).failsafe 0,
         (reach cfg0 nv_4ch link_lost_trace).failsafe 1,
         (reach cfg0 nv_4ch link_lost_trace).failsafe 2] ∧
    process_receiving_checked NUMBER_OF_CHANNELS cfg0 (reach cfg0 nv_4ch link_lost_trace)
      = none :=
  ⟨by decide,
   (C7_failsafe_fallback_three_channels cfg0 (reach cfg0 nv_4ch link_lost_trace)
      (by decide) (by decide) (by decide) (by decide)).1,
   (C7_failsafe_fallback_three_channels cfg0 (reach cfg0 nv_4ch link_lost_trace)
      (by decide) (by decide) (by decide) (by decide)).2.1,
   (C7_failsafe_fallback_three_channels cfg0 (reach cfg0 nv_4ch link_lost_trace)
      (by decide) (by decide) (by decide) (by decide)).2.2.2⟩

/-- C13 on the code: a failsafe-configuration frame handled by
`process_receiving` (binding inactive, no hop requested, failsafe timer
running).  With byte 8 = 0x5A the FailsafeSet is enabled and `failsafe[0..2]`
hold the values decoded from the byte pairs (1,0), (3,2), (5,4); the value of
the pair (9,6) is stored with index 3, outside `failsafe[]` as declared, so
with bounds the call fails.  With any other byte 8 the FailsafeSet is disabled
and `failsafe[0..2]` hold `SERVO_PULSE_CENTER`; every store is inside the
array, so no fourth value is set to the centre. -/
theorem C13_failsafe_frame_three_values (cfg : Build) (s : State) (f : List Nat)
    (hb : s.binding = false) (hh : s.perform_hop_requested = false)
    (ht : s.failsafe_timer ≠ 0)
    (h1 : rd f 7 ≠ s.stickdata_packetid) (hid : rd f 7 = s.failsafe_packetid) :
    (rd f 8 = 0x5a →
      (process_receiving cfg (deliver f s)).failsafe_enabled = true ∧
      (process_receiving cfg (deliver f s)).failsafe 0 = rd16 f 1 0 ∧
      (process_receiving cfg (deliver f s)).failsafe 1 = rd16 f 3 2 ∧
      (process_receiving cfg (deliver f s)).failsafe 2 = rd16 f 5 4 ∧
      process_receiving_checked NUMBER_OF_CHANNELS cfg (deliver f s) = none) ∧
    (rd f 8 ≠ 0x5a →
      (process_receiving cfg (deliver f s)).failsafe_enabled = false ∧
      (process_receiving cfg (deliver f s)).failsafe 0 = SERVO_PULSE_CENTER ∧
      (process_receiving cfg (deliver f s)).failsafe 1 = SERVO_PULSE_CENTER ∧
      (process_receiving cfg (deliver f s)).failsafe 2 = SERVO_PULSE_CENTER ∧
      process_receiving_checked NUMBER_OF_CHANNELS cfg (deliver f s)
        = some (process_receiving cfg (deliver f s))) := by
  obtain ⟨e1, e2⟩ := failsafe_frame_effect cfg s f hb hh ht h1 hid
  constructor
  · intro h8
    obtain ⟨a, b, c, d⟩ := e1 h8
    exact ⟨a, b, c, d, process_receiving_checked_failsafe_on cfg s f hb (Or.inl hh) h1 hid h8⟩
  · intro h8
    obtain ⟨a, b, c, d⟩ := e2 h8
    exact ⟨a, b, c, d,
      process_receiving_checked_failsafe_off cfg s f hb hh (fun _ => ht) h1 hid h8⟩

set_option maxRecDepth 1000000 in
/-- C13 at the failing input: bound to the 4-channel protocol, right after
`init_receiver` a failsafe frame with byte 8 = 0x5B is received: the
FailsafeSet is disabled, `failsafe[0..2]` are `SERVO_PULSE_CENTER` and no
store goes to a fourth element. -/
theorem C13_failsafe_frame_three_values_witness :
    ((reach cfg0 nv_4ch []).binding = false ∧
      (reach cfg0 nv_4ch []).perform_hop_requested = false ∧
      (reach cfg0 nv_4ch []).failsafe_timer ≠ 0 ∧
      (reach cfg0 nv_4ch []).stickdata_packetid = STICKDATA_PACKETID_4CH ∧
      rd failsafe_off_frame_4ch 7 ≠ (reach cfg0 nv_4ch []).stickdata_packetid ∧
      rd failsafe_off_frame_4ch 7 = (reach cfg0 nv_4ch []).failsafe_packetid ∧
      rd failsafe_off_frame_4ch 8 ≠ 0x5a) ∧
    ((process_receiving cfg0
        (deliver failsafe_off_frame_4ch (reach cfg0 nv_4ch []))).failsafe_enabled = false ∧
      (process_receiving cfg0
        (deliver failsafe_off_frame_4ch (reach cfg0 nv_4ch []))).failsafe 0
        = SERVO_PULSE_CENTER ∧
      (process_receiving cfg0
        (deliver failsafe_off_frame_4ch (reach cfg0 nv_4ch []))).failsafe 1
        = SERVO_PULSE_CENTER ∧
      (process_receiving cfg0
        (deliver failsafe_off_frame_4ch (reach cfg0 nv_4ch []))).failsafe 2
        = SERVO_PULSE_CENTER ∧
      process_receiving_checked NUMBER_OF_CHANNELS cfg0
        (deliver failsafe_off_frame_4ch (reach cfg0 nv_4ch []))
        = some (process_receiving cfg0
            (deliver failsafe_off_frame_4ch (reach cfg0 nv_4ch [])))) :=
  ⟨by decide,
   (C13_failsafe_frame_three_values cfg0 (reach cfg0 nv_4ch []) failsafe_off_frame_4ch
      (by decide) (by decide) (by decide) (by decide) (by decide)).2 (by decide)⟩

/-! ## A buffer swap inside a pulse train -/

set_option maxRecDepth 1000000 in
/-- C19: there are two channel sets old and new, differing in every channel,
and a schedule (one pulse-timer interrupt, a dispatch that receives new as
stick data and runs `output_pulses`, then the remaining pulse-timer interrupts
of the same train) in which the train loads the pulse timer with old[0] for
channel 1 and with new[1] and new[2] for channels 2 and 3. -/
theorem C19_pulse_train_mixes_channel_sets :
    ∃ o0 o1 o2 n0 n1 n2 : Nat,
      o0 ≠ n0 ∧ o1 ≠ n1 ∧ o2 ≠ n2 ∧
      (mixed_train 0).servo_pulse_state = 0 ∧
      (active_slot (mixed_train 0)).take 3 = [o0, o1, o2] ∧
      mixed_train 1 = servo_pulse_timer_handler cfg0 (mixed_train 0) ∧
      (mixed_train 1).servo_pulse_state = 1 ∧
      pins (mixed_train 1) = [true, false, false, false] ∧
      (mixed_train 1).TIMER1 = o0 ∧
      mixed_train 4 = dispatch cfg0 false BUTTON_RELEASED (deliver stick_frame_new (mixed_train 1)) ∧
      [(mixed_train 4).channels 0, (mixed_train 4).channels 1, (mixed_train 4).channels 2]
        = [n0, n1, n2] ∧
      (active_slot (mixed_train 4)).take 3 = [n0, n1, n2] ∧
      (mixed_train 4).servo_pulse_state = 1 ∧
      mixed_train 5 = servo_pulse_timer_handler cfg0 (mixed_train 4) ∧
      (mixed_train 5).servo_pulse_state = 2 ∧
      pins (mixed_train 5) = [false, true, false, false] ∧
      (mixed_train 5).TIMER1 = n1 ∧
      mixed_train 6 = servo_pulse_timer_handler cfg0 (mixed_train 5) ∧
      (mixed_train 6).servo_pulse_state = 3 ∧
      pins (mixed_train 6) = [false, false, true, false] ∧
      (mixed_train 6).TIMER1 = n2 ∧
      mixed_train 7 = servo_pulse_timer_handler cfg0 (mixed_train 6) ∧
      (mixed_train 7).servo_pulse_state = 0 ∧
      pins (mixed_train 7) = [false, false, false, false] ∧
      (mixed_train 7).TCON_tr1 = false :=
  ⟨0x2010, 0x2111, 0x2212, 1000, 1001, 1002,
    by decide, by decide, by decide, by decide, by decide, rfl, by decide,
    by decide, by decide, rfl, by decide, by decide, by decide, rfl, by decide, by decide,
    by decide, rfl, by decide, by decide, by decide, rfl, by decide, by decide, by decide⟩

/-! ## Failsafe frames and the failsafe timer -/

/-- C21 (amended): a failsafe-configuration frame with byte 8 other than
0x5A, handled by `process_receiving` (binding inactive, no hop requested, no
failsafe fallback due), leaves the channel values, both pulse-buffer slots,
the selector and the status as they were and restarts the failsafe timer to
`FAILSAFE_TIMEOUT`. -/
theorem C21_failsafe_frame_and_failsafe_timer (cfg : Build) (s : State) (f : List Nat)
    (hb : s.binding = false) (hh : s.perform_hop_requested = false)
    (ht : s.successful_stick_data = true → s.failsafe_timer ≠ 0)
    (h1 : rd f 7 ≠ s.stickdata_packetid) (hid : rd f 7 = s.failsafe_packetid)
    (h8 : rd f 8 ≠ 0x5a) :
    (process_receiving cfg (deliver f s)).channels = s.channels ∧
    slot true (process_receiving cfg (deliver f s)) = slot true s ∧
    slot false (process_receiving cfg (deliver f s)) = slot false s ∧
    (process_receiving cfg (deliver f s)).use_buffer_0 = s.use_buffer_0 ∧
    (process_receiving cfg (deliver f s)).led_state = s.led_state ∧
    (process_receiving cfg (deliver f s)).failsafe_timer = FAILSAFE_TIMEOUT := by
  obtain ⟨r1, r2, r3, r4, -, -, r7, -, -⟩ := received_effect cfg (deliver f s)
  have d1 : (deliver f s).channels = s.channels := rfl
  have d2 : slot true (deliver f s) = slot true s := rfl
  have d3 : slot false (deliver f s) = slot false s := rfl
  have d4 : (deliver f s).use_buffer_0 = s.use_buffer_0 := rfl
  have d7 : (deliver f s).led_state = s.led_state := rfl
  rw [process_receiving_deliver_not_due cfg s f hb hh ht,
    receive_frame_failsafe cfg (deliver f s) f s.rf_rx_fifo rfl rfl h1 hid, if_neg h8]
  obtain ⟨i1, i2, i3, i4, i5, i6⟩ := initialize_failsafe_effect (received cfg (deliver f s))
  exact ⟨i1.trans (r1.trans d1), i2.trans (r2.trans d2), i3.trans (r3.trans d3),
    i4.trans (r4.trans d4), i5.trans (r7.trans d7), i6⟩

set_option maxRecDepth 1000000 in
/-- C21 (amended), at a concrete input: a disabling failsafe frame one tick
after a stick-data frame. -/
theorem C21_failsafe_frame_and_failsafe_timer_witness :
    ((reach cfg0 nv_blank one_tick_trace).binding = false ∧
      (reach cfg0 nv_blank one_tick_trace).perform_hop_requested = false ∧
      ((reach cfg0 nv_blank one_tick_trace).successful_stick_data = true →
        (reach cfg0 nv_blank one_tick_trace).failsafe_timer ≠ 0) ∧
      rd failsafe_off_frame_3ch 7 ≠ (reach cfg0 nv_blank one_tick_trace).stickdata_packetid ∧
      rd failsafe_off_frame_3ch 7 = (reach cfg0 nv_blank one_tick_trace).failsafe_packetid ∧
      rd failsafe_off_frame_3ch 8 ≠ 0x5a) ∧
    (process_receiving cfg0
      (deliver failsafe_off_frame_3ch (reach cfg0 nv_blank one_tick_trace))).failsafe_timer
      = FAILSAFE_TIMEOUT :=
  ⟨by decide,
   (C21_failsafe_frame_and_failsafe_timer cfg0 (reach cfg0 nv_blank one_tick_trace)
      failsafe_off_frame_3ch (by decide) (by decide) (by decide) (by decide)
      (by decide) (by decide)).2.2.2.2.2⟩

set_option maxRecDepth 1000000 in
/-- C21 as stated fails: one tick after a stick-data frame the failsafe timer
is at 39; a failsafe-configuration frame with byte 8 = 0x5B is received with
binding inactive and no hop requested, and after `process_receiving` the
failsafe timer is 40 = `FAILSAFE_TIMEOUT`. -/
theorem C21_counterexample_failsafe_timer_restarted :
    (reach cfg0 nv_blank one_tick_trace).binding = false ∧
    (reach cfg0 nv_blank one_tick_trace).perform_hop_requested = false ∧
    rd failsafe_off_frame_3ch 7 = (reach cfg0 nv_blank one_tick_trace).failsafe_packetid ∧
    rd failsafe_off_frame_3ch 7 ≠ (reach cfg0 nv_blank one_tick_trace).stickdata_packetid ∧
    (reach cfg0 nv_blank one_tick_trace).failsafe_timer = 39 ∧
    (process_receiving cfg0
      (deliver failsafe_off_frame_3ch (reach cfg0 nv_blank one_tick_trace))).failsafe_timer
      = 40 := by
  decide

/-! ## Pulse generator -/

theorem handler_from_0 (cfg : Build) (s : State) (v0 v1 v2 v3 T id : Nat) (r c : Bool)
    (hv : pulse_view s = (0, [false, false, false, c], T, r, [v0, v1, v2, v3], id)) :
    pulse_view (servo_pulse_timer_handler cfg s) =
      (1, [true, false, false,
            if cfg.HARDWARE ≠ Hardware.NRF24LE1_MODULE ∧ id ≠ STICKDATA_PACKETID_4CH
            then true else c],
        v0, true, [v0, v1, v2, v3], id) := by
  simp only [pulse_view, pins, Prod.mk.injEq, List.cons.injEq, and_true] at hv
  obtain ⟨h1, ⟨-, hb, hc, hd⟩, -, -, hslot, hid⟩ := hv
  unfold servo_pulse_timer_handler write_ppm servo_pulse_step write_ch4
  by_cases hm : cfg.HARDWARE = Hardware.NRF24LE1_MODULE <;>
  by_cases h4 : id = STICKDATA_PACKETID_4CH <;>
  cases hu : s.use_buffer_0 <;>
  · simp only [active_slot, hu, if_true, if_false, Bool.false_eq_true, List.cons.injEq,
      and_true] at hslot
    obtain ⟨e0, e1, e2, e3⟩ := hslot
    simp [pulse_view, pins, active_slot, h1, hb, hc, hd, hid, hu, e0, e1, e2, e3, hm, h4]

theorem handler_from_1 (cfg : Build) (s : State) (v0 v1 v2 v3 T id : Nat) (r c : Bool)
    (hv : pulse_view s = (1, [true, false, false, c], T, r, [v0, v1, v2, v3], id)) :
    pulse_view (servo_pulse_timer_handler cfg s) =
      (2, [false, true, false,
            if cfg.HARDWARE ≠ Hardware.NRF24LE1_MODULE ∧ id ≠ STICKDATA_PACKETID_4CH
            then true else c],
        v1, true, [v0, v1, v2, v3], id) := by
  simp only [pulse_view, pins, Prod.mk.injEq, List.cons.injEq, and_true] at hv
  obtain ⟨h1, ⟨-, -, hc, hd⟩, -, -, hslot, hid⟩ := hv
  unfold servo_pulse_timer_handler write_ppm servo_pulse_step write_ch4
  by_cases hm : cfg.HARDWARE = Hardware.NRF24LE1_MODULE <;>
  by_cases h4 : id = STICKDATA_PACKETID_4CH <;>
  cases hu : s.use_buffer_0 <;>
  · simp only [active_slot, hu, if_true, if_false, Bool.false_eq_true, List.cons.injEq,
      and_true] at hslot
    obtain ⟨e0, e1, e2, e3⟩ := hslot
    simp [pulse_view, pins, active_slot, h1, hc, hd, hid, hu, e0, e1, e2, e3, hm, h4]

theorem handler_from_2 (cfg : Build) (s : State) (v0 v1 v2 v3 T id : Nat) (r c : Bool)
    (hv : pulse_view s = (2, [false, true, false, c], T, r, [v0, v1, v2, v3], id)) :
    pulse_view (servo_pulse_timer_handler cfg s) =
      (3, [false, false, true,
            if cfg.HARDWARE ≠ Hardware.NRF24LE1_MODULE ∧ id ≠ STICKDATA_PACKETID_4CH
            then true else c],
        v2, true, [v0, v1, v2, v3], id) := by
  simp only [pulse_view, pins, Prod.mk.injEq, List.cons.injEq, and_true] at hv
  obtain ⟨h1, ⟨ha, -, -, hd⟩, -, -, hslot, hid⟩ := hv
  unfold servo_pulse_timer_handler write_ppm servo_pulse_step write_ch4
  by_cases hm : cfg.HARDWARE = Hardware.NRF24LE1_MODULE <;>
  by_cases h4 : id = STICKDATA_PACKETID_4CH <;>
  cases hu : s.use_buffer_0 <;>
  · simp only [active_slot, hu, if_true, if_false, Bool.false_eq_true, List.cons.injEq,
      and_true] at hslot
    obtain ⟨e0, e1, e2, e3⟩ := hslot
    simp [pulse_view, pins, active_slot, h1, ha, hd, hid, hu, e0, e1, e2, e3, hm, h4]

theorem handler_from_3_three_channels (cfg : Build) (s : State) (v0 v1 v2 v3 T id : Nat)
    (r c : Bool) (h3 : id ≠ STICKDATA_PACKETID_4CH)
    (hv : pulse_view s = (3, [false, false, true, c], T, r, [v0, v1, v2, v3], id)) :
    pulse_view (servo_pulse_timer_handler cfg s) =
      (0, [false, false, false,
            if cfg.HARDWARE ≠ Hardware.NRF24LE1_MODULE then true else c],
        T, false, [v0, v1, v2, v3], id) := by
  simp only [pulse_view, pins, Prod.mk.injEq, List.cons.injEq, and_true] at hv
  obtain ⟨h1, ⟨ha, hb, -, hd⟩, hT, -, hslot, hid⟩ := hv
  unfold servo_pulse_timer_handler write_ppm servo_pulse_step write_ch4
  by_cases hm : cfg.HARDWARE = Hardware.NRF24LE1_MODULE <;>
  cases hu : s.use_buffer_0 <;>
  · simp only [active_slot, hu, if_true, if_false, Bool.false_eq_true, List.cons.injEq,
      and_true] at hslot
    obtain ⟨e0, e1, e2, e3⟩ := hslot
    simp [pulse_view, pins, active_slot, h1, ha, hb, hd, hid, hu, e0, e1, e2, e3, hm, h3, hT]

theorem handler_from_3_four_channels (cfg : Build) (s : State) (v0 v1 v2 v3 T id : Nat)
    (r c : Bool) (h4 : id = STICKDATA_PACKETID_4CH)
    (hv : pulse_view s = (3, [false, false, true, c], T, r, [v0, v1, v2, v3], id)) :
    pulse_view (servo_pulse_timer_handler cfg s) =
      (4, [false, false, false, true], v3, true, [v0, v1, v2, v3], id) := by
  simp only [pulse_view, pins, Prod.mk.injEq, List.cons.injEq, and_true] at hv
  obtain ⟨h1, ⟨ha, hb, -, -⟩, -, -, hslot, hid⟩ := hv
  unfold servo_pulse_timer_handler write_ppm servo_pulse_step write_ch4
  by_cases hm : cfg.HARDWARE = Hardware.NRF24LE1_MODULE <;>
  cases hu : s.use_buffer_0 <;>
  · simp only [active_slot, hu, if_true, if_false, Bool.false_eq_true, List.cons.injEq,
      and_true] at hslot
    obtain ⟨e0, e1, e2, e3⟩ := hslot
    simp [pulse_view, pins, active_slot, h1, ha, hb, hid, hu, e0, e1, e2, e3, hm, h4]

theorem handler_from_4 (cfg : Build) (s : State) (v0 v1 v2 v3 T id : Nat) (r c : Bool)
    (h4 : id = STICKDATA_PACKETID_4CH)
    (hv : pulse_view s = (4, [false, false, false, c], T, r, [v0, v1, v2, v3], id)) :
    pulse_view (servo_pulse_timer_handler cfg s) =
      (0, [false, false, false, false], T, false, [v0, v1, v2, v3], id) := by
  simp only [pulse_view, pins, Prod.mk.injEq, List.cons.injEq, and_true] at hv
  obtain ⟨h1, ⟨ha, hb, hc, -⟩, hT, -, hslot, hid⟩ := hv
  unfold servo_pulse_timer_handler write_ppm servo_pulse_step write_ch4
  by_cases hm : cfg.HARDWARE = Hardware.NRF24LE1_MODULE <;>
  cases hu : s.use_buffer_0 <;>
  · simp only [active_slot, hu, if_true, if_false, Bool.false_eq_true, List.cons.injEq,
      and_true] at hslot
    obtain ⟨e0, e1, e2, e3⟩ := hslot
    simp [pulse_view, pins, active_slot, h1, ha, hb, hc, hid, hu, e0, e1, e2, e3, hm, h4, hT]

theorem pins_follow_state_of_view (s t : State) (h : pin_view t = pin_view s)
    (hs : pins_follow_state s) : pins_follow_state t := by
  unfold pin_view at h
  simp only [Prod.mk.injEq] at h
  unfold pins_follow_state at hs ⊢
  rw [h.1, h.2]
  exact hs

theorem pins3_follow_state_of_view (s t : State) (h : pin_view t = pin_view s)
    (hs : pins3_follow_state s) : pins3_follow_state t := by
  unfold pin_view pins at h
  simp only [Prod.mk.injEq, List.cons.injEq, and_true] at h
  obtain ⟨h0, h1, h2, h3, -⟩ := h
  unfold pins3_follow_state pins3 at hs ⊢
  rw [h0, h1, h2, h3]
  exact hs

/-- One invocation of the handler keeps the outputs CH1..CH3 in step with the
counter, on every board and whatever identifier is in force. -/
theorem pins3_follow_state_handler (cfg : Build) (s : State) (h : pins3_follow_state s) :
    pins3_follow_state (servo_pulse_timer_handler cfg s) := by
  obtain ⟨hle, hp⟩ := h
  simp only [pins3, List.cons.injEq, and_true] at hp
  obtain ⟨p1, p2, p3⟩ := hp
  generalize hst : s.servo_pulse_state = st at hle p1 p2 p3
  unfold servo_pulse_timer_handler write_ppm servo_pulse_step write_ch4
  by_cases hm : cfg.HARDWARE = Hardware.NRF24LE1_MODULE <;>
  by_cases h4 : s.stickdata_packetid = STICKDATA_PACKETID_4CH <;>
  interval_cases st <;>
  simp [pins3_follow_state, pins3, p1, p2, p3, hm, h4, hst]

/-- On the NRF24LE1 module one invocation of the handler keeps all four
channel outputs in step with the counter, whatever identifier is in force. -/
theorem pins_follow_state_handler (cfg : Build) (s : State)
    (hm : cfg.HARDWARE = Hardware.NRF24LE1_MODULE) (h : pins_follow_state s) :
    pins_follow_state (servo_pulse_timer_handler cfg s) := by
  obtain ⟨hle, hp⟩ := h
  simp only [pins, List.cons.injEq, and_true] at hp
  obtain ⟨p1, p2, p3, p4⟩ := hp
  generalize hst : s.servo_pulse_state = st at hle p1 p2 p3 p4
  unfold servo_pulse_timer_handler write_ppm servo_pulse_step write_ch4
  by_cases h4 : s.stickdata_packetid = STICKDATA_PACKETID_4CH <;>
  interval_cases st <;>
  simp [pins_follow_state, pins, p1, p2, p3, p4, hm, h4, hst]

theorem pins3_follow_state_step (cfg : Build) (e : Event) (s : State)
    (h : pins3_follow_state s) : pins3_follow_state (step cfg e s) := by
  cases e with
  | dispatch tick button =>
    exact pins3_follow_state_of_view s _ (pin_view_dispatch cfg s tick button) h
  | frame f => exact h
  | rf_interrupt => exact h
  | hop_timer => exact h
  | servo_pulse_timer => exact pins3_follow_state_handler cfg s h

theorem pins_follow_state_step (cfg : Build) (e : Event) (s : State)
    (hm : cfg.HARDWARE = Hardware.NRF24LE1_MODULE)
    (h : pins_follow_state s) : pins_follow_state (step cfg e s) := by
  cases e with
  | dispatch tick button =>
    exact pins_follow_state_of_view s _ (pin_view_dispatch cfg s tick button) h
  | frame f => exact h
  | rf_interrupt => exact h
  | hop_timer => exact h
  | servo_pulse_timer => exact pins_follow_state_handler cfg s hm h

theorem pins3_follow_state_run (cfg : Build) (es : List Event) (s : State)
    (h : pins3_follow_state s) : pins3_follow_state (run cfg es s) := by
  induction es generalizing s with
  | nil => exact h
  | cons e es ih =>
    rw [run_cons]
    exact ih _ (pins3_follow_state_step cfg e s h)

theorem pins_follow_state_run (cfg : Build) (es : List Event) (s : State)
    (hm : cfg.HARDWARE = Hardware.NRF24LE1_MODULE)
    (h : pins_follow_state s) : pins_follow_state (run cfg es s) := by
  induction es generalizing s with
  | nil => exact h
  | cons e es ih =>
    rw [run_cons]
    exact ih _ (pins_follow_state_step cfg e s hm h)

theorem pins3_follow_state_pulses_with (cfg : Build) (ids : List Nat) (s : State)
    (h : pins3_follow_state s) : pins3_follow_state (pulses_with cfg ids s) := by
  induction ids generalizing s with
  | nil => exact h
  | cons id ids ih =>
    show pins3_follow_state (pulses_with cfg ids
      (servo_pulse_timer_handler cfg { s with stickdata_packetid := id }))
    exact ih _ (pins3_follow_state_handler cfg _ h)

theorem pins_follow_state_pulses_with (cfg : Build) (ids : List Nat) (s : State)
    (hm : cfg.HARDWARE = Hardware.NRF24LE1_MODULE)
    (h : pins_follow_state s) : pins_follow_state (pulses_with cfg ids s) := by
  induction ids generalizing s with
  | nil => exact h
  | cons id ids ih =>
    show pins_follow_state (pulses_with cfg ids
      (servo_pulse_timer_handler cfg { s with stickdata_packetid := id }))
    exact ih _ (pins_follow_state_handler cfg _ hm h)

/-- On a board where `GPIO_CH4` is the port bit of `GPIO_PPM`, an invocation
with an identifier other than the 4-channel one leaves that bit high. -/
theorem handler_leaves_shared_pin_high (cfg : Build) (s : State)
    (hm : cfg.HARDWARE ≠ Hardware.NRF24LE1_MODULE)
    (h3 : s.stickdata_packetid ≠ STICKDATA_PACKETID_4CH) :
    (servo_pulse_timer_handler cfg s).GPIO_CH4 = true := by
  have hid : (servo_pulse_step cfg
      { write_ppm cfg false { s with TCON_tr1 := false } with
        servo_pulse_state :=
          ((write_ppm cfg false { s with TCON_tr1 := false }).servo_pulse_state + 1) % 256
      }).stickdata_packetid = s.stickdata_packetid := by
    have e1 := congrArg bound_config (servo_pulse_step_footprint cfg
      { write_ppm cfg false { s with TCON_tr1 := false } with
        servo_pulse_state :=
          ((write_ppm cfg false { s with TCON_tr1 := false }).servo_pulse_state + 1) % 256 })
    have e2 := congrArg bound_config (write_ppm_footprint cfg false { s with TCON_tr1 := false })
    have e3 := congrArg (fun p => p.2.2.1) e1
    have e4 := congrArg (fun p => p.2.2.1) e2
    exact e3.trans e4
  unfold servo_pulse_timer_handler
  dsimp only
  generalize (servo_pulse_step cfg
      { write_ppm cfg false { s with TCON_tr1 := false } with
        servo_pulse_state :=
          ((write_ppm cfg false { s with TCON_tr1 := false }).servo_pulse_state + 1) % 256
      }) = t at hid ⊢
  unfold write_ppm
  rw [if_neg hm, if_pos (by rw [hid]; exact h3)]

theorem pulses_with_snoc (cfg : Build) (ids : List Nat) (id : Nat) (s : State) :
    pulses_with cfg (ids ++ [id]) s =
      servo_pulse_timer_handler cfg { pulses_with cfg ids s with stickdata_packetid := id } := by
  unfold pulses_with
  rw [List.foldl_append]
  rfl

theorem pins_follow_state_start (s : State) (h0 : s.servo_pulse_state = 0)
    (hp : pins s = [false, false, false, false]) : pins_follow_state s := by
  unfold pins_follow_state
  rw [h0, hp]
  exact ⟨by omega, by decide⟩

theorem pins3_follow_state_start (s : State) (h0 : s.servo_pulse_state = 0)
    (hp : pins s = [false, false, false, false]) : pins3_follow_state s := by
  unfold pins at hp
  simp only [List.cons.injEq, and_true] at hp
  obtain ⟨h1, h2, h3, -⟩ := hp
  unfold pins3_follow_state pins3
  rw [h0, h1, h2, h3]
  exact ⟨by omega, by decide⟩

end RcReceiver
